import Mathlib

/-!
# CoreAudio device layer of libjitsi: format negotiation, converter set-up,
# the stream controller and the real-time input / output handlers

A shallow embedding of `src/native/macosx/coreaudio/lib/device.c`.

Conventions of the embedding

* `UInt32` values are natural numbers; where the C code can wrap, the
  reduction modulo `2 ^ 32` is written out.
* `Float64` / `double` values are exact rationals (`ℚ`).  A quotient with a
  zero divisor, where IEEE arithmetic yields an infinity or a NaN, has no
  rational value; the embedding follows the convention `x / 0 = 0` there.
* Every call that leaves the file (CoreAudio, CoreFoundation, pthreads, the
  application callback) is a field of an oracle record over an abstract world
  state `W`, threaded through the functions explicitly.
* An out-parameter is modelled by passing the pointee's current contents in
  and returning its contents after the call.
-/

namespace CoreAudio

/-! ## Basic types and constants -/

/-- The type `OSStatus` (a signed 32-bit status code). -/
abbrev OSStatus := Int

/-- The status `noErr` of MacTypes.h. -/
def noErr : OSStatus := 0

/-- The constant `kAudioObjectUnknown` of AudioHardwareBase.h. -/
def kAudioObjectUnknown : Nat := 0

/-- The four-character code `'glob'`. -/
def kAudioObjectPropertyScopeGlobal : Nat := 0x676C6F62

/-- The four-character code `'inpt'`. -/
def kAudioDevicePropertyScopeInput : Nat := 0x696E7074

/-- The four-character code `'outp'`. -/
def kAudioDevicePropertyScopeOutput : Nat := 0x6F757470

/-- The four-character code `'lpcm'`. -/
def kAudioFormatLinearPCM : Nat := 0x6C70636D

/-- Format flag of CoreAudioTypes.h: samples are floating point (bit 1). -/
def kAudioFormatFlagIsFloat : Nat := 1

/-- Format flag of CoreAudioTypes.h: samples are big endian (bit 2). -/
def kAudioFormatFlagIsBigEndian : Nat := 2

/-- Format flag of CoreAudioTypes.h: samples are signed integers (bit 4). -/
def kAudioFormatFlagIsSignedInteger : Nat := 4

/-- Format flag of CoreAudioTypes.h: the sample bits fill the channel (bit 8). -/
def kAudioFormatFlagIsPacked : Nat := 8

/-- Format flag of CoreAudioTypes.h: samples are high-aligned (bit 16). -/
def kAudioFormatFlagIsAlignedHigh : Nat := 16

/-- Format flag of CoreAudioTypes.h: channels are not interleaved (bit 32). -/
def kAudioFormatFlagIsNonInterleaved : Nat := 32

/-- The value of `sizeof(AudioUnitSampleType)` on the desktop (a `Float32`). -/
def sizeofAudioUnitSampleType : Nat := 4

/-- The structure `AudioStreamBasicDescription` (without `mReserved`, which
the file never touches). -/
structure AudioStreamBasicDescription where
  mSampleRate : ℚ
  mFormatID : Nat
  mFormatFlags : Nat
  mBytesPerPacket : Nat
  mFramesPerPacket : Nat
  mBytesPerFrame : Nat
  mChannelsPerFrame : Nat
  mBitsPerChannel : Nat
  deriving DecidableEq

/-- C test `(flags & mask) != 0`. -/
def flagSet (flags mask : Nat) : Bool := (flags &&& mask) != 0

/-! ## Format negotiator: pure part -/

/-- `CalculateLPCMFlags` (device.c, 1903-1916). -/
def CalculateLPCMFlags (inValidBitsPerChannel inTotalBitsPerChannel : Nat)
    (inIsFloat inIsBigEndian inIsNonInterleaved : Bool) : Nat :=
  (if inIsFloat then kAudioFormatFlagIsFloat else kAudioFormatFlagIsSignedInteger)
    ||| (if inIsBigEndian then kAudioFormatFlagIsBigEndian else 0)
    ||| (if (!inIsFloat && decide (inValidBitsPerChannel = inTotalBitsPerChannel))
          then kAudioFormatFlagIsPacked else kAudioFormatFlagIsAlignedHigh)
    ||| (if inIsNonInterleaved then kAudioFormatFlagIsNonInterleaved else 0)

/-- `FillOutASBDForLPCM` (device.c, 1932-1959).  The two products are taken in
`UInt32`, hence modulo `2 ^ 32`. -/
def FillOutASBDForLPCM (inSampleRate : ℚ)
    (inChannelsPerFrame inValidBitsPerChannel inTotalBitsPerChannel : Nat)
    (inIsFloat inIsBigEndian inIsNonInterleaved : Bool) :
    AudioStreamBasicDescription where
  mSampleRate := inSampleRate
  mFormatID := kAudioFormatLinearPCM
  mFormatFlags := CalculateLPCMFlags inValidBitsPerChannel inTotalBitsPerChannel
    inIsFloat inIsBigEndian inIsNonInterleaved
  mBytesPerPacket :=
    ((if inIsNonInterleaved then 1 else inChannelsPerFrame)
      * (inTotalBitsPerChannel / 8)) % 2 ^ 32
  mFramesPerPacket := 1
  mBytesPerFrame :=
    ((if inIsNonInterleaved then 1 else inChannelsPerFrame)
      * (inTotalBitsPerChannel / 8)) % 2 ^ 32
  mChannelsPerFrame := inChannelsPerFrame
  mBitsPerChannel := inValidBitsPerChannel

/-- `maccoreaudio_getDefaultFormat` (device.c, 2102-2115). -/
def maccoreaudio_getDefaultFormat : AudioStreamBasicDescription :=
  FillOutASBDForLPCM 44100 2 (8 * sizeofAudioUnitSampleType)
    (8 * sizeofAudioUnitSampleType) true false false

/-! ## External calls -/

/-- Contents of a memory region: the byte stored at each offset. -/
abbrev Bytes := Nat → Nat

/-- One call that leaves the file, with the arguments the code passes.  The
functions of the embedding return the list of the calls they made, in order. -/
inductive Event where
  | CFStringCreateWithCString (deviceUID : String)
  | CFRelease (ref : Nat)
  | getDeviceForUID (scope ref : Nat)
  | getStreams (device scope : Nat)
  | getVirtualFormat (stream : Nat)
  | getStreamFormat (device scope : Nat)
  | AudioConverterNew (inFormat outFormat : AudioStreamBasicDescription)
  | AudioConverterDispose (converter : Nat)
  | AudioConverterConvertBuffer (converter inSize : Nat) (inData : Bytes)
      (outCapacity : Nat)
  | callbackFunction (fn : Nat) (buffer : Bytes) (length : Int)
      (callbackObject callbackMethod : Nat)
  | AudioDeviceCreateIOProcID (device proc : Nat)
  | AudioDeviceStart (device procId : Nat)
  | AudioDeviceStop (device procId : Nat)
  | AudioDeviceDestroyIOProcID (device procId : Nat)
  | malloc
  | free
  | pthread_mutex_init
  | pthread_mutex_destroy
  | pthread_mutex_lock
  | pthread_mutex_trylock
  | pthread_mutex_unlock
  | maccoreaudio_log (msg : String)

/-- The CoreAudio / CoreFoundation calls of the format negotiator and of the
converter manager.  Each oracle receives the world state and returns the
status, what the call wrote through its out-pointer, and the next state. -/
structure HAL (W : Type) where
  /-- `CFStringCreateWithCString(kCFAllocatorDefault, uid, ASCII)`; 0 is NULL. -/
  CFStringCreateWithCString : String → W → Nat × W
  /-- `CFRelease(ref)`. -/
  CFRelease : Nat → W → W
  /-- `AudioObjectGetPropertyData` on the system object for the selector
  `kAudioHardwarePropertyDeviceForUID` in a scope: status, and the contents
  of the variable `device` after the call. -/
  getDeviceForUID : (scope ref : Nat) → W → (OSStatus × Nat) × W
  /-- `AudioObjectGetPropertyData` for `kAudioDevicePropertyStreams`: status,
  and `audioStreamIds[0]` after the call. -/
  getStreams : (device scope : Nat) → W → (OSStatus × Nat) × W
  /-- `AudioObjectGetPropertyData` for `kAudioStreamPropertyVirtualFormat`:
  status, and `*format` after the call (given its contents before). -/
  getVirtualFormat : (stream : Nat) → AudioStreamBasicDescription → W →
    (OSStatus × AudioStreamBasicDescription) × W
  /-- `AudioObjectGetPropertyData` for `kAudioDevicePropertyStreamFormat`:
  status, and `*deviceFormat` after the call (given its contents before). -/
  getStreamFormat : (device scope : Nat) → AudioStreamBasicDescription → W →
    (OSStatus × AudioStreamBasicDescription) × W
  /-- `AudioConverterNew(inFormat, outFormat, converter)`: status, and
  `*converter` after the call (given its contents before). -/
  AudioConverterNew : (inFormat outFormat : AudioStreamBasicDescription) →
    Nat → W → (OSStatus × Nat) × W

/-! ## Device directory -/

/-- Result of a device look-up. -/
structure DeviceResult (W : Type) where
  device : Nat
  world : W
  trace : List Event

/-- `maccoreaudio_getDeviceForSpecificScope` (device.c, 240-297). -/
def maccoreaudio_getDeviceForSpecificScope {W : Type} (os : HAL W)
    (deviceUID : String) (inputOutputScope : Nat) (w : W) : DeviceResult W :=
  let r := os.CFStringCreateWithCString deviceUID w
  let deviceUIDRef := r.1
  if deviceUIDRef = 0 then
    { device := kAudioObjectUnknown
      world := r.2
      trace := [.CFStringCreateWithCString deviceUID,
                .maccoreaudio_log "maccoreaudio_getDevice: CFStringCreateWithCString"] }
  else
    let q := os.getDeviceForUID inputOutputScope deviceUIDRef r.2
    if q.1.1 ≠ noErr then
      { device := kAudioObjectUnknown
        world := os.CFRelease deviceUIDRef q.2
        trace := [.CFStringCreateWithCString deviceUID,
                  .getDeviceForUID inputOutputScope deviceUIDRef,
                  .maccoreaudio_log "maccoreaudio_getDevice: AudioObjectGetPropertyData",
                  .CFRelease deviceUIDRef] }
    else
      { device := q.1.2
        world := os.CFRelease deviceUIDRef q.2
        trace := [.CFStringCreateWithCString deviceUID,
                  .getDeviceForUID inputOutputScope deviceUIDRef,
                  .CFRelease deviceUIDRef] }

/-- `maccoreaudio_getDevice` (device.c, 220-226). -/
def maccoreaudio_getDevice {W : Type} (os : HAL W) (deviceUID : String) (w : W) :
    DeviceResult W :=
  maccoreaudio_getDeviceForSpecificScope os deviceUID
    kAudioObjectPropertyScopeGlobal w

/-! ## Format negotiator: queries -/

/-- Result of a format query: the status, the contents of the caller's format
variable after the call, the next world state and the calls made. -/
structure FormatResult (W : Type) where
  err : OSStatus
  format : AudioStreamBasicDescription
  world : W
  trace : List Event

/-- `maccoreaudio_getStreamVirtualFormat` (device.c, 1784-1812). -/
def maccoreaudio_getStreamVirtualFormat {W : Type} (os : HAL W) (stream : Nat)
    (format : AudioStreamBasicDescription) (w : W) : FormatResult W :=
  let q := os.getVirtualFormat stream format w
  if q.1.1 ≠ noErr then
    { err := q.1.1, format := q.1.2, world := q.2
      trace := [.getVirtualFormat stream,
                .maccoreaudio_log "maccoreaudio_getStreamVirtualFormat: AudioObjectGetPropertyData"] }
  else
    { err := q.1.1, format := q.1.2, world := q.2
      trace := [.getVirtualFormat stream] }

/-- `maccoreaudio_getDeviceFormat` (device.c, 1970-2034).  The early return on
an unresolved device hands back `kAudioObjectUnknown` as the status. -/
def maccoreaudio_getDeviceFormat {W : Type} (os : HAL W) (deviceUID : String)
    (isOutput : Bool) (deviceFormat : AudioStreamBasicDescription) (w : W) :
    FormatResult W :=
  let d := maccoreaudio_getDevice os deviceUID w
  if d.device = kAudioObjectUnknown then
    { err := (kAudioObjectUnknown : Int), format := deviceFormat, world := d.world
      trace := d.trace ++ [.maccoreaudio_log "maccoreaudio_getDeviceFormat: getDevice"] }
  else
    let scope := if isOutput then kAudioDevicePropertyScopeOutput
      else kAudioDevicePropertyScopeInput
    let q := os.getStreams d.device scope d.world
    if q.1.1 ≠ noErr then
      { err := q.1.1, format := deviceFormat, world := q.2
        trace := d.trace ++ [.getStreams d.device scope,
          .maccoreaudio_log "maccoreaudio_getDeviceFormat: AudioObjectGetPropertyData"] }
    else
      let v := maccoreaudio_getStreamVirtualFormat os q.1.2 deviceFormat q.2
      if v.err ≠ noErr then
        { err := v.err, format := v.format, world := v.world
          trace := d.trace ++ [.getStreams d.device scope] ++ v.trace ++
            [.maccoreaudio_log "maccoreaudio_getDeviceFormat: maccoreaudio_getStreamVirtualFormat"] }
      else
        { err := v.err, format := v.format, world := v.world
          trace := d.trace ++ [.getStreams d.device scope] ++ v.trace }

/-- `maccoreaudio_getDeviceFormatDeprecated` (device.c, 2045-2095). -/
def maccoreaudio_getDeviceFormatDeprecated {W : Type} (os : HAL W)
    (deviceUID : String) (isOutput : Bool)
    (deviceFormat : AudioStreamBasicDescription) (w : W) : FormatResult W :=
  let d := maccoreaudio_getDevice os deviceUID w
  if d.device = kAudioObjectUnknown then
    { err := (kAudioObjectUnknown : Int), format := deviceFormat, world := d.world
      trace := d.trace ++
        [.maccoreaudio_log "maccoreaudio_getDeviceFormatDeprecated: getDevice"] }
  else
    let scope := if isOutput then kAudioDevicePropertyScopeOutput
      else kAudioDevicePropertyScopeInput
    let q := os.getStreamFormat d.device scope deviceFormat d.world
    if q.1.1 ≠ noErr then
      { err := q.1.1, format := q.1.2, world := q.2
        trace := d.trace ++ [.getStreamFormat d.device scope,
          .maccoreaudio_log "maccoreaudio_getDeviceFormatDeprecated: AudioObjectGetPropertyData"] }
    else
      { err := q.1.1, format := q.1.2, world := q.2
        trace := d.trace ++ [.getStreamFormat d.device scope] }

/-! ## Converter manager -/

/-- Result of `maccoreaudio_initConverter`: the status, `*converter` and
`*conversionRatio` after the call, the final contents of the local
`deviceFormat`, the two formats handed to `AudioConverterNew` in the order of
its parameters, the next world state and the calls made. -/
structure InitConverterResult (W : Type) where
  err : OSStatus
  converter : Nat
  conversionRatio : ℚ
  deviceFormat : AudioStreamBasicDescription
  inFormat : AudioStreamBasicDescription
  outFormat : AudioStreamBasicDescription
  world : W
  trace : List Event

/-- The fallback chain at the head of `maccoreaudio_initConverter`
(device.c, 1834-1862): the per-stream query, then the deprecated query, then
the default format.  `deviceFormat` is the indeterminate initial contents of
the local variable. -/
def initConverter_deviceFormat {W : Type} (os : HAL W) (deviceUID : String)
    (isJavaFormatSource : Bool) (deviceFormat : AudioStreamBasicDescription)
    (w : W) : FormatResult W :=
  let r1 := maccoreaudio_getDeviceFormat os deviceUID isJavaFormatSource
    deviceFormat w
  if r1.err ≠ noErr then
    let r2 := maccoreaudio_getDeviceFormatDeprecated os deviceUID
      isJavaFormatSource r1.format r1.world
    if r2.err ≠ noErr then
      { err := r2.err, format := maccoreaudio_getDefaultFormat, world := r2.world
        trace := r1.trace ++
          [.maccoreaudio_log "maccoreaudio_initConverter: maccoreaudio_getDeviceFormat"]
          ++ r2.trace ++
          [.maccoreaudio_log "maccoreaudio_initConverter: maccoreaudio_getDeviceFormatDeprecated"] }
    else
      { err := r2.err, format := r2.format, world := r2.world
        trace := r1.trace ++
          [.maccoreaudio_log "maccoreaudio_initConverter: maccoreaudio_getDeviceFormat"]
          ++ r2.trace }
  else r1

/-- `maccoreaudio_initConverter` (device.c, 1827-1887).  `converter` and
`conversionRatio` are the contents of the two out-parameters before the call,
`deviceFormat` the indeterminate initial contents of the local variable. -/
def maccoreaudio_initConverter {W : Type} (os : HAL W) (deviceUID : String)
    (javaFormat : AudioStreamBasicDescription) (isJavaFormatSource : Bool)
    (converter : Nat) (conversionRatio : ℚ)
    (deviceFormat : AudioStreamBasicDescription) (w : W) :
    InitConverterResult W :=
  let f := initConverter_deviceFormat os deviceUID isJavaFormatSource
    deviceFormat w
  let deviceFormat := f.format
  let inFormat := if !isJavaFormatSource then deviceFormat else javaFormat
  let outFormat := if !isJavaFormatSource then javaFormat else deviceFormat
  let c := os.AudioConverterNew inFormat outFormat converter f.world
  if c.1.1 ≠ noErr then
    { err := c.1.1, converter := c.1.2, conversionRatio := conversionRatio
      deviceFormat := deviceFormat, inFormat := inFormat, outFormat := outFormat
      world := c.2
      trace := f.trace ++ [.AudioConverterNew inFormat outFormat,
        .maccoreaudio_log "maccoreaudio_initConverter: AudioConverterNew"] }
  else
    { err := c.1.1, converter := c.1.2
      conversionRatio :=
        ((javaFormat.mBytesPerFrame : ℚ) * javaFormat.mSampleRate)
          / ((deviceFormat.mBytesPerFrame : ℚ) * deviceFormat.mSampleRate)
      deviceFormat := deviceFormat, inFormat := inFormat, outFormat := outFormat
      world := c.2
      trace := f.trace ++ [.AudioConverterNew inFormat outFormat] }

/-! ## Streams and the real-time handlers -/

/-- The constant `EBUSY` of errno.h. -/
def EBUSY : Int := 16

/-- Modelled from the spec: the declaration of `maccoreaudio_stream` is in
device.h, which is not among the sources.  The fields are the ones device.c
reads and writes: the I/O registration (0 is NULL), the three opaque callback
pointers, the converter, the conversion ratio and the mutex (here: whether it
is held). -/
structure maccoreaudio_stream where
  ioProcId : Nat
  callbackFunction : Nat
  callbackObject : Nat
  callbackMethod : Nat
  converter : Nat
  conversionRatio : ℚ
  mutex : Bool

/-- The structure `AudioBuffer`.  `mData` is the pointer (0 is NULL) and
`bytes` the contents of the region it points to; the regions of distinct
buffers do not overlap. -/
structure AudioBuffer where
  mNumberChannels : Nat
  mDataByteSize : Nat
  mData : Nat
  bytes : Bytes

/-- The calls of the real-time path that leave the file. -/
structure RealTime (W : Type) where
  /-- The error the next pthread mutex operation fails with, 0 when it does
  not fail for a reason of its own. -/
  mutexFault : W → Int × W
  /-- `AudioConverterConvertBuffer(converter, inSize, inData, &outSize,
  outData)`: status, `outSize` and the contents of `outData` after the call
  (given `outSize` and the contents of `outData` before). -/
  AudioConverterConvertBuffer : (converter inSize : Nat) → (inData : Bytes) →
    (outSize : Nat) → (outData : Bytes) → W → (OSStatus × Nat × Bytes) × W
  /-- The application callback `fn(buffer, length, object, method)`: the
  contents of `buffer` after the call. -/
  callbackFunction : (fn : Nat) → (buffer : Bytes) → (length : Int) →
    (callbackObject callbackMethod : Nat) → W → Bytes × W

/-- Result of a mutex operation: return value, state of the mutex, world. -/
structure MutexResult (W : Type) where
  ret : Int
  mutex : Bool
  world : W

/-- `pthread_mutex_trylock` on a mutex whose state is `mutex`: it fails with
the fault if there is one, with `EBUSY` if the mutex is held, and otherwise
takes the mutex and returns 0. -/
def pthread_mutex_trylock {W : Type} (rt : RealTime W) (mutex : Bool) (w : W) :
    MutexResult W :=
  let f := rt.mutexFault w
  if f.1 ≠ 0 then { ret := f.1, mutex := mutex, world := f.2 }
  else if mutex then { ret := EBUSY, mutex := mutex, world := f.2 }
  else { ret := 0, mutex := true, world := f.2 }

/-- `pthread_mutex_unlock`: it fails with the fault if there is one, and
otherwise releases the mutex and returns 0. -/
def pthread_mutex_unlock {W : Type} (rt : RealTime W) (mutex : Bool) (w : W) :
    MutexResult W :=
  let f := rt.mutexFault w
  if f.1 ≠ 0 then { ret := f.1, mutex := mutex, world := f.2 }
  else { ret := 0, mutex := false, world := f.2 }

/-- `memcpy(dst, src, n)` on the contents of two disjoint regions. -/
def memcpy (dst src : Bytes) (n : Nat) : Bytes :=
  fun k => if k < n then src k else dst k

/-- `memset(s + off, c, n)` on the contents of the region at `s`. -/
def memset (s : Bytes) (off c n : Nat) : Bytes :=
  fun k => if off ≤ k ∧ k < off + n then c else s k

/-- Conversion of a `double` to an integer type: the fractional part is
discarded (for a value the target type cannot hold, C leaves the result
undefined). -/
def truncate (x : ℚ) : Int := Int.tdiv x.num x.den

/-- Conversion of a `UInt32` to `int`. -/
def intOfUInt32 (n : Nat) : Int :=
  if n % 2 ^ 32 < 2 ^ 31 then ((n % 2 ^ 32 : Nat) : Int)
  else ((n % 2 ^ 32 : Nat) : Int) - 2 ^ 32

/-- Conversion of an `int` to `UInt32`. -/
def uint32OfInt (i : Int) : Nat := (i % 2 ^ 32).toNat

/-- Result of one invocation of a handler: the returned status, the stream
(its mutex) and the buffer list after the call, the next world state and the
calls made. -/
structure HandlerResult (W : Type) where
  ret : OSStatus
  stream : maccoreaudio_stream
  buffers : List AudioBuffer
  world : W
  trace : List Event

/-- Outcome of the buffer loop of the input handler: `err` differs from
`noErr` exactly when a conversion failed and the loop was left early. -/
structure ReadLoop (W : Type) where
  err : OSStatus
  world : W
  trace : List Event

/-- The loop over the input buffers of `maccoreaudio_readInputStream`
(device.c, 1613-1640), from the current buffer on.  `tmpLength` and
`tmpBuffer` are the two locals, shared by all the iterations. -/
def readInputStream_loop {W : Type} (rt : RealTime W)
    (stream : maccoreaudio_stream) :
    List AudioBuffer → Nat → Bytes → W → ReadLoop W
  | [], _, _, w => { err := noErr, world := w, trace := [] }
  | b :: bs, tmpLength, tmpBuffer, w =>
    if b.mData ≠ 0 ∧ b.mDataByteSize > 0 then
      let cv := rt.AudioConverterConvertBuffer stream.converter b.mDataByteSize
        b.bytes tmpLength tmpBuffer w
      if cv.1.1 ≠ noErr then
        { err := cv.1.1, world := cv.2
          trace := [.AudioConverterConvertBuffer stream.converter b.mDataByteSize
              b.bytes tmpLength,
            .maccoreaudio_log "maccoreaudio_readInputStream: AudioConverterConvertBuffer"] }
      else
        let cb := rt.callbackFunction stream.callbackFunction cv.1.2.2
          (intOfUInt32 cv.1.2.1) stream.callbackObject stream.callbackMethod cv.2
        let r := readInputStream_loop rt stream bs cv.1.2.1 cb.1 cb.2
        { err := r.err, world := r.world
          trace := [.AudioConverterConvertBuffer stream.converter b.mDataByteSize
              b.bytes tmpLength,
            .callbackFunction stream.callbackFunction cv.1.2.2
              (intOfUInt32 cv.1.2.1) stream.callbackObject stream.callbackMethod]
            ++ r.trace }
    else readInputStream_loop rt stream bs tmpLength tmpBuffer w

/-- `maccoreaudio_readInputStream` (device.c, 1590-1663).  `tmpBuffer` is the
indeterminate initial contents of the local array.  `mBuffers[0]` is read
before anything else; with an empty list the value found there is never
used, and the embedding takes 0. -/
def maccoreaudio_readInputStream {W : Type} (rt : RealTime W)
    (stream : maccoreaudio_stream) (inInputData : List AudioBuffer)
    (tmpBuffer : Bytes) (w : W) : HandlerResult W :=
  let tmpLength : Nat := uint32OfInt (truncate
    ((((inInputData.head?.map AudioBuffer.mDataByteSize).getD 0 : Nat) : ℚ)
      * stream.conversionRatio))
  let l := pthread_mutex_trylock rt stream.mutex w
  if l.ret = 0 then
    if stream.ioProcId ≠ 0 then
      let r := readInputStream_loop rt stream inInputData tmpLength tmpBuffer
        l.world
      if r.err ≠ noErr then
        let u := pthread_mutex_unlock rt l.mutex r.world
        { ret := r.err, stream := { stream with mutex := u.mutex }
          buffers := inInputData, world := u.world
          trace := [.pthread_mutex_trylock] ++ r.trace ++ [.pthread_mutex_unlock] }
      else
        let u := pthread_mutex_unlock rt l.mutex r.world
        { ret := noErr, stream := { stream with mutex := u.mutex }
          buffers := inInputData, world := u.world
          trace := [.pthread_mutex_trylock] ++ r.trace ++ [.pthread_mutex_unlock]
            ++ (if u.ret ≠ 0 then
                  [.maccoreaudio_log "maccoreaudio_readInputStream: pthread_mutex_unlock"]
                else []) }
    else
      let u := pthread_mutex_unlock rt l.mutex l.world
      { ret := noErr, stream := { stream with mutex := u.mutex }
        buffers := inInputData, world := u.world
        trace := [.pthread_mutex_trylock, .pthread_mutex_unlock]
          ++ (if u.ret ≠ 0 then
                [.maccoreaudio_log "maccoreaudio_readInputStream: pthread_mutex_unlock"]
              else []) }
  else
    { ret := noErr, stream := { stream with mutex := l.mutex }
      buffers := inInputData, world := l.world
      trace := [.pthread_mutex_trylock]
        ++ (if l.ret ≠ EBUSY then
              [.maccoreaudio_log "maccoreaudio_readInputStream: pthread_mutex_lock"]
            else []) }

/-- Body of the replication loop of `maccoreaudio_writeOutputStream`
(device.c, 1750-1770) for one additional buffer `b`, given the first
buffer `b0`. -/
def writeOutputStream_copy (b0 b : AudioBuffer) : AudioBuffer :=
  let length :=
    if b.mDataByteSize > b0.mDataByteSize then b0.mDataByteSize
    else b.mDataByteSize
  let copied := memcpy b.bytes b0.bytes length
  if b.mDataByteSize > b0.mDataByteSize then
    { b with
      bytes := memset copied b0.mDataByteSize 0
        (b.mDataByteSize - b0.mDataByteSize) }
  else { b with bytes := copied }

/-- `maccoreaudio_writeOutputStream` (device.c, 1665-1774).  `tmpBuffer` is the
indeterminate initial contents of the local array. -/
def maccoreaudio_writeOutputStream {W : Type} (rt : RealTime W)
    (stream : maccoreaudio_stream) (outOutputData : List AudioBuffer)
    (tmpBuffer : Bytes) (w : W) : HandlerResult W :=
  match outOutputData with
  | [] =>
    { ret := noErr, stream := stream, buffers := [], world := w, trace := [] }
  | b0 :: rest =>
    let tmpLength : Int :=
      truncate ((b0.mDataByteSize : ℚ) * stream.conversionRatio)
    let l := pthread_mutex_trylock rt stream.mutex w
    if l.ret = 0 then
      if stream.ioProcId ≠ 0 then
        let cb := rt.callbackFunction stream.callbackFunction tmpBuffer
          tmpLength stream.callbackObject stream.callbackMethod l.world
        let cv := rt.AudioConverterConvertBuffer stream.converter
          (uint32OfInt tmpLength) cb.1 b0.mDataByteSize b0.bytes cb.2
        let b1 := { b0 with mDataByteSize := cv.1.2.1, bytes := cv.1.2.2 }
        if cv.1.1 ≠ noErr then
          let u := pthread_mutex_unlock rt l.mutex cv.2
          { ret := cv.1.1, stream := { stream with mutex := u.mutex }
            buffers :=
              { b1 with bytes := memset b1.bytes 0 0 b1.mDataByteSize } :: rest
            world := u.world
            trace := [.pthread_mutex_trylock,
              .callbackFunction stream.callbackFunction tmpBuffer tmpLength
                stream.callbackObject stream.callbackMethod,
              .AudioConverterConvertBuffer stream.converter
                (uint32OfInt tmpLength) cb.1 b0.mDataByteSize,
              .maccoreaudio_log "maccoreaudio_writeOutputStream: AudioConverterConvertBuffer",
              .pthread_mutex_unlock] }
        else
          let u := pthread_mutex_unlock rt l.mutex cv.2
          { ret := noErr, stream := { stream with mutex := u.mutex }
            buffers := b1 :: rest.map (writeOutputStream_copy b1)
            world := u.world
            trace := [.pthread_mutex_trylock,
              .callbackFunction stream.callbackFunction tmpBuffer tmpLength
                stream.callbackObject stream.callbackMethod,
              .AudioConverterConvertBuffer stream.converter
                (uint32OfInt tmpLength) cb.1 b0.mDataByteSize,
              .pthread_mutex_unlock]
              ++ (if u.ret ≠ 0 then
                    [.maccoreaudio_log "maccoreaudio_writeOutputStream: pthread_mutex_unlock"]
                  else []) }
      else
        let u := pthread_mutex_unlock rt l.mutex l.world
        { ret := noErr, stream := { stream with mutex := u.mutex }
          buffers := b0 :: rest.map (writeOutputStream_copy b0)
          world := u.world
          trace := [.pthread_mutex_trylock, .pthread_mutex_unlock]
            ++ (if u.ret ≠ 0 then
                  [.maccoreaudio_log "maccoreaudio_writeOutputStream: pthread_mutex_unlock"]
                else []) }
    else
      let b1 := { b0 with mDataByteSize := 0 }
      { ret := noErr, stream := { stream with mutex := l.mutex }
        buffers := b1 :: rest.map (writeOutputStream_copy b1)
        world := l.world
        trace := [.pthread_mutex_trylock]
          ++ (if l.ret ≠ EBUSY then
                [.maccoreaudio_log "maccoreaudio_writeOutputStream: pthread_mutex_lock"]
              else []) }

/-! ## The input cycle, as the specification words it -/

/-- State of an input cycle between two buffers: the status of the first
failed conversion if there was one, the two scratch locals, the world and the
calls made so far. -/
structure InputCycle (W : Type) where
  failed : Option OSStatus
  tmpLength : Nat
  tmpBuffer : Bytes
  world : W
  trace : List Event

/-- The conversion of one buffer in an input cycle: the converter runs over
exactly the `mDataByteSize` bytes of the buffer, into the scratch buffer. -/
def inputCycle_convert {W : Type} (rt : RealTime W)
    (stream : maccoreaudio_stream) (s : InputCycle W) (b : AudioBuffer) :
    (OSStatus × Nat × Bytes) × W :=
  rt.AudioConverterConvertBuffer stream.converter b.mDataByteSize b.bytes
    s.tmpLength s.tmpBuffer s.world

/-- The state after a buffer has been converted and delivered: the application
callback has received the converted bytes, the byte count reported by the
converter and the two handles of the stream. -/
def inputCycle_deliver {W : Type} (rt : RealTime W)
    (stream : maccoreaudio_stream) (s : InputCycle W) (b : AudioBuffer) :
    InputCycle W :=
  { failed := none
    tmpLength := (inputCycle_convert rt stream s b).1.2.1
    tmpBuffer := (rt.callbackFunction stream.callbackFunction
      (inputCycle_convert rt stream s b).1.2.2
      (intOfUInt32 (inputCycle_convert rt stream s b).1.2.1)
      stream.callbackObject stream.callbackMethod
      (inputCycle_convert rt stream s b).2).1
    world := (rt.callbackFunction stream.callbackFunction
      (inputCycle_convert rt stream s b).1.2.2
      (intOfUInt32 (inputCycle_convert rt stream s b).1.2.1)
      stream.callbackObject stream.callbackMethod
      (inputCycle_convert rt stream s b).2).2
    trace := s.trace ++
      [.AudioConverterConvertBuffer stream.converter b.mDataByteSize b.bytes
          s.tmpLength,
        .callbackFunction stream.callbackFunction
          (inputCycle_convert rt stream s b).1.2.2
          (intOfUInt32 (inputCycle_convert rt stream s b).1.2.1)
          stream.callbackObject stream.callbackMethod] }

/-- The state after the conversion of a buffer has failed: the failure is
logged and its status kept. -/
def inputCycle_abort {W : Type} (rt : RealTime W)
    (stream : maccoreaudio_stream) (s : InputCycle W) (b : AudioBuffer) :
    InputCycle W :=
  { failed := some (inputCycle_convert rt stream s b).1.1
    tmpLength := (inputCycle_convert rt stream s b).1.2.1
    tmpBuffer := (inputCycle_convert rt stream s b).1.2.2
    world := (inputCycle_convert rt stream s b).2
    trace := s.trace ++
      [.AudioConverterConvertBuffer stream.converter b.mDataByteSize b.bytes
          s.tmpLength,
        .maccoreaudio_log "maccoreaudio_readInputStream: AudioConverterConvertBuffer"] }

/-- One buffer of an input cycle, following the specification: nothing
happens once a conversion has failed; a buffer with null data or of size 0
triggers nothing; any other buffer is converted and, on success, delivered;
a failed conversion ends the cycle. -/
def inputCycle_step {W : Type} (rt : RealTime W) (stream : maccoreaudio_stream)
    (s : InputCycle W) (b : AudioBuffer) : InputCycle W :=
  match s.failed with
  | some _ => s
  | none =>
    if b.mData = 0 ∨ b.mDataByteSize = 0 then s
    else if (inputCycle_convert rt stream s b).1.1 = noErr then
      inputCycle_deliver rt stream s b
    else inputCycle_abort rt stream s b

/-- An input cycle following the specification: the buffers are taken in index
order, starting from the scratch length and scratch contents given. -/
def inputCycle_spec {W : Type} (rt : RealTime W) (stream : maccoreaudio_stream)
    (inInputData : List AudioBuffer) (tmpLength : Nat) (tmpBuffer : Bytes)
    (w : W) : InputCycle W :=
  inInputData.foldl (inputCycle_step rt stream)
    { failed := none, tmpLength := tmpLength, tmpBuffer := tmpBuffer, world := w
      trace := [] }

/-! ## The first buffer of an output cycle -/

/-- The scratch length of `maccoreaudio_writeOutputStream` (device.c,
1686-1687) for the first output buffer `b0`. -/
def writeOutputStream_tmpLength (stream : maccoreaudio_stream)
    (b0 : AudioBuffer) : Int :=
  truncate ((b0.mDataByteSize : ℚ) * stream.conversionRatio)

/-- The call of the application callback in `maccoreaudio_writeOutputStream`
(device.c, 1694-1698), made once the lock attempt has gone through. -/
def writeOutputStream_callback {W : Type} (rt : RealTime W)
    (stream : maccoreaudio_stream) (b0 : AudioBuffer) (tmpBuffer : Bytes)
    (w : W) : Bytes × W :=
  rt.callbackFunction stream.callbackFunction tmpBuffer
    (writeOutputStream_tmpLength stream b0) stream.callbackObject
    stream.callbackMethod (pthread_mutex_trylock rt stream.mutex w).world

/-- The call of the converter in `maccoreaudio_writeOutputStream` (device.c,
1700-1705), made after the callback: the scratch buffer is the source, the
first output buffer the destination. -/
def writeOutputStream_conversion {W : Type} (rt : RealTime W)
    (stream : maccoreaudio_stream) (b0 : AudioBuffer) (tmpBuffer : Bytes)
    (w : W) : (OSStatus × Nat × Bytes) × W :=
  rt.AudioConverterConvertBuffer stream.converter
    (uint32OfInt (writeOutputStream_tmpLength stream b0))
    (writeOutputStream_callback rt stream b0 tmpBuffer w).1 b0.mDataByteSize
    b0.bytes (writeOutputStream_callback rt stream b0 tmpBuffer w).2

/-! ## Stream controller -/

/-- The calls of the stream controller that leave the file. -/
structure Control (W : Type) where
  /-- `malloc(sizeof(maccoreaudio_stream))`: `none` is NULL, otherwise the
  indeterminate contents of the new block. -/
  malloc : W → Option maccoreaudio_stream × W
  /-- `free(stream)`. -/
  free : W → W
  /-- `AudioDeviceCreateIOProcID(device, proc, stream, &ioProcId)`: status, and
  `ioProcId` after the call (given its contents before). -/
  AudioDeviceCreateIOProcID : (device proc : Nat) → Nat → W → (OSStatus × Nat) × W
  /-- `AudioDeviceStart(device, ioProcId)`. -/
  AudioDeviceStart : (device procId : Nat) → W → OSStatus × W
  /-- `AudioDeviceStop(device, ioProcId)`. -/
  AudioDeviceStop : (device procId : Nat) → W → OSStatus × W
  /-- `AudioDeviceDestroyIOProcID(device, ioProcId)`. -/
  AudioDeviceDestroyIOProcID : (device procId : Nat) → W → OSStatus × W
  /-- `AudioConverterDispose(converter)`. -/
  AudioConverterDispose : (converter : Nat) → W → OSStatus × W

/-- `pthread_mutex_init`: it fails with the fault if there is one, and otherwise
leaves a free mutex and returns 0. -/
def pthread_mutex_init {W : Type} (rt : RealTime W) (mutex : Bool) (w : W) :
    MutexResult W :=
  let f := rt.mutexFault w
  if f.1 ≠ 0 then { ret := f.1, mutex := mutex, world := f.2 }
  else { ret := 0, mutex := false, world := f.2 }

/-- `pthread_mutex_destroy`: it fails with the fault if there is one, and
otherwise returns 0; the state recorded for the mutex is left as it was. -/
def pthread_mutex_destroy {W : Type} (rt : RealTime W) (mutex : Bool) (w : W) :
    MutexResult W :=
  let f := rt.mutexFault w
  if f.1 ≠ 0 then { ret := f.1, mutex := mutex, world := f.2 }
  else { ret := 0, mutex := mutex, world := f.2 }

/-- `pthread_mutex_lock`: it fails with the fault if there is one, and
otherwise returns 0 holding the mutex (after whatever wait that took). -/
def pthread_mutex_lock {W : Type} (rt : RealTime W) (mutex : Bool) (w : W) :
    MutexResult W :=
  let f := rt.mutexFault w
  if f.1 ≠ 0 then { ret := f.1, mutex := mutex, world := f.2 }
  else { ret := 0, mutex := true, world := f.2 }

/-- The address of `maccoreaudio_readInputStream`, as a value for the
parameter `readWriteFunction`. -/
def readInputStream_address : Nat := 1

/-- The address of `maccoreaudio_writeOutputStream`, as a value for the
parameter `readWriteFunction`. -/
def writeOutputStream_address : Nat := 2

/-- The return statement by which `maccoreaudio_startStream` is left. -/
inductive StartOutcome where
  | deviceNotFound
  | mallocFailed
  | mutexInitFailed
  | converterFailed
  | registrationFailed
  | startFailed
  | started
  deriving DecidableEq

/-- Result of `maccoreaudio_startStream`: the stream returned (`none` is
NULL), the return statement taken, the next world state and the calls made. -/
structure StartResult (W : Type) where
  stream : Option maccoreaudio_stream
  outcome : StartOutcome
  world : W
  trace : List Event

/-- `maccoreaudio_startStream` (device.c, 1388-1505).  `deviceFormat` is the
indeterminate initial contents of the local of `maccoreaudio_initConverter`.
The calls of each return path are written in two parts: those up to and
including the report of the failure, then the releases that precede the
`return`. -/
def maccoreaudio_startStream {W : Type} (os : HAL W) (rt : RealTime W)
    (ctl : Control W) (deviceUID : String)
    (callbackFunction callbackObject callbackMethod readWriteFunction : Nat)
    (isJavaFormatSource : Bool) (sampleRate : ℚ)
    (nbChannels bitsPerChannel : Nat)
    (isFloat isBigEndian isNonInterleaved : Bool)
    (deviceFormat : AudioStreamBasicDescription) (w : W) : StartResult W :=
  let d := maccoreaudio_getDevice os deviceUID w
  if d.device = kAudioObjectUnknown then
    { stream := none, outcome := .deviceNotFound, world := d.world
      trace := (d.trace ++
        [.maccoreaudio_log "maccoreaudio_startStream: maccoreaudio_getDevice"])
        ++ [] }
  else
    let m := ctl.malloc d.world
    match m.1 with
    | none =>
      { stream := none, outcome := .mallocFailed, world := m.2
        trace := (d.trace ++
          [.malloc, .maccoreaudio_log "maccoreaudio_startStream: malloc"])
          ++ [] }
    | some block =>
      let s1 : maccoreaudio_stream :=
        { block with
          ioProcId := 0
          callbackFunction := callbackFunction
          callbackObject := callbackObject
          callbackMethod := callbackMethod }
      let i := pthread_mutex_init rt s1.mutex m.2
      if i.ret ≠ 0 then
        { stream := none, outcome := .mutexInitFailed, world := ctl.free i.world
          trace := (d.trace ++
            [.malloc, .pthread_mutex_init,
              .maccoreaudio_log "maccoreaudio_startStream: pthread_mutex_init"])
            ++ [.free] }
      else
        let javaFormat := FillOutASBDForLPCM sampleRate nbChannels
          bitsPerChannel bitsPerChannel isFloat isBigEndian isNonInterleaved
        let c := maccoreaudio_initConverter os deviceUID javaFormat
          isJavaFormatSource s1.converter s1.conversionRatio deviceFormat i.world
        if c.err ≠ noErr then
          let x := pthread_mutex_destroy rt i.mutex c.world
          { stream := none, outcome := .converterFailed
            world := ctl.free x.world
            trace := (d.trace ++ [.malloc, .pthread_mutex_init] ++ c.trace ++
              [.maccoreaudio_log "maccoreaudio_startStream: maccoreaudio_initConverter"])
              ++ [.pthread_mutex_destroy, .free] }
        else
          let s2 : maccoreaudio_stream :=
            { s1 with
              mutex := i.mutex
              converter := c.converter
              conversionRatio := c.conversionRatio }
          let p := ctl.AudioDeviceCreateIOProcID d.device readWriteFunction
            s2.ioProcId c.world
          if p.1.1 ≠ noErr then
            let cd := ctl.AudioConverterDispose s2.converter p.2
            let x := pthread_mutex_destroy rt s2.mutex cd.2
            { stream := none, outcome := .registrationFailed
              world := ctl.free x.world
              trace := (d.trace ++ [.malloc, .pthread_mutex_init] ++ c.trace ++
                [.AudioDeviceCreateIOProcID d.device readWriteFunction,
                  .maccoreaudio_log "maccoreaudio_startStream: AudioDeviceIOProcID"])
                ++ [.AudioConverterDispose s2.converter,
                  .pthread_mutex_destroy, .free] }
          else
            let s3 : maccoreaudio_stream := { s2 with ioProcId := p.1.2 }
            let a := ctl.AudioDeviceStart d.device s3.ioProcId p.2
            if a.1 ≠ noErr then
              let y := ctl.AudioDeviceDestroyIOProcID d.device s3.ioProcId a.2
              let cd := ctl.AudioConverterDispose s3.converter y.2
              let x := pthread_mutex_destroy rt s3.mutex cd.2
              { stream := none, outcome := .startFailed
                world := ctl.free x.world
                trace := (d.trace ++ [.malloc, .pthread_mutex_init] ++ c.trace ++
                  [.AudioDeviceCreateIOProcID d.device readWriteFunction,
                    .AudioDeviceStart d.device s3.ioProcId,
                    .maccoreaudio_log "maccoreaudio_startStream: AudioDeviceStart"])
                  ++ [.AudioDeviceDestroyIOProcID d.device s3.ioProcId,
                    .AudioConverterDispose s3.converter,
                    .pthread_mutex_destroy, .free] }
            else
              { stream := some s3, outcome := .started, world := a.2
                trace := (d.trace ++ [.malloc, .pthread_mutex_init] ++ c.trace ++
                  [.AudioDeviceCreateIOProcID d.device readWriteFunction,
                    .AudioDeviceStart d.device s3.ioProcId])
                  ++ [] }

/-- `maccoreaudio_startInputStream` (device.c, 1326-1351). -/
def maccoreaudio_startInputStream {W : Type} (os : HAL W) (rt : RealTime W)
    (ctl : Control W) (deviceUID : String)
    (callbackFunction callbackObject callbackMethod : Nat) (sampleRate : ℚ)
    (nbChannels bitsPerChannel : Nat)
    (isFloat isBigEndian isNonInterleaved : Bool)
    (deviceFormat : AudioStreamBasicDescription) (w : W) : StartResult W :=
  maccoreaudio_startStream os rt ctl deviceUID callbackFunction callbackObject
    callbackMethod readInputStream_address false sampleRate nbChannels
    bitsPerChannel isFloat isBigEndian isNonInterleaved deviceFormat w

/-- `maccoreaudio_startOutputStream` (device.c, 1353-1378). -/
def maccoreaudio_startOutputStream {W : Type} (os : HAL W) (rt : RealTime W)
    (ctl : Control W) (deviceUID : String)
    (callbackFunction callbackObject callbackMethod : Nat) (sampleRate : ℚ)
    (nbChannels bitsPerChannel : Nat)
    (isFloat isBigEndian isNonInterleaved : Bool)
    (deviceFormat : AudioStreamBasicDescription) (w : W) : StartResult W :=
  maccoreaudio_startStream os rt ctl deviceUID callbackFunction callbackObject
    callbackMethod writeOutputStream_address true sampleRate nbChannels
    bitsPerChannel isFloat isBigEndian isNonInterleaved deviceFormat w

/-- Result of `maccoreaudio_stopStream`, or of a part of it: the contents of
the stream block, the next world state and the calls made. -/
structure StopResult (W : Type) where
  stream : maccoreaudio_stream
  world : W
  trace : List Event

/-- The first part of `maccoreaudio_stopStream` (device.c, 1520-1569): the
request for the mutex, the look-up of the device, the two calls on the device
when it resolves, the disposal of the converter and, last, the assignment of
0 to `ioProcId`. -/
def stopStream_locked {W : Type} (os : HAL W) (rt : RealTime W)
    (ctl : Control W) (deviceUID : String) (stream : maccoreaudio_stream)
    (w : W) : StopResult W :=
  let l := pthread_mutex_lock rt stream.mutex w
  let t0 : List Event := [.pthread_mutex_lock] ++
    (if l.ret ≠ 0 then
      [.maccoreaudio_log "maccoreaudio_stopStream: pthread_mutex_lock"]
    else [])
  let d := maccoreaudio_getDevice os deviceUID l.world
  if d.device = kAudioObjectUnknown then
    let cd := ctl.AudioConverterDispose stream.converter d.world
    { stream := { stream with mutex := l.mutex, ioProcId := 0 }
      world := cd.2
      trace := t0 ++ d.trace ++
        [.maccoreaudio_log "maccoreaudio_stopStream: maccoreaudio_getDevice",
          .AudioConverterDispose stream.converter] ++
        (if cd.1 ≠ noErr then
          [.maccoreaudio_log "maccoreaudio_stopStream: AudioConverterDispose"]
        else []) }
  else
    let a := ctl.AudioDeviceStop d.device stream.ioProcId d.world
    let y := ctl.AudioDeviceDestroyIOProcID d.device stream.ioProcId a.2
    let cd := ctl.AudioConverterDispose stream.converter y.2
    { stream := { stream with mutex := l.mutex, ioProcId := 0 }
      world := cd.2
      trace := t0 ++ d.trace ++
        [.AudioDeviceStop d.device stream.ioProcId] ++
        (if a.1 ≠ noErr then
          [.maccoreaudio_log "maccoreaudio_stopStream: AudioDeviceStop"]
        else []) ++
        [.AudioDeviceDestroyIOProcID d.device stream.ioProcId] ++
        (if y.1 ≠ noErr then
          [.maccoreaudio_log "maccoreaudio_stopStream: AudioDeviceDestroyIOProcID"]
        else []) ++
        [.AudioConverterDispose stream.converter] ++
        (if cd.1 ≠ noErr then
          [.maccoreaudio_log "maccoreaudio_stopStream: AudioConverterDispose"]
        else []) }

/-- The calls of the second part of `maccoreaudio_stopStream` (device.c,
1570-1587), given the return values of the unlock and of the destruction. -/
def stopStream_release (unlockRet destroyRet : Int) : List Event :=
  [.pthread_mutex_unlock] ++
    (if unlockRet ≠ 0 then
      [.maccoreaudio_log "maccoreaudio_stopStream: pthread_mutex_unlock"]
    else []) ++
    [.pthread_mutex_destroy] ++
    (if destroyRet ≠ 0 then
      [.maccoreaudio_log "maccoreaudio_stopStream: pthread_mutex_destroy"]
    else []) ++
    [.free]

/-- `maccoreaudio_stopStream` (device.c, 1513-1588).  The stream of the result
is the contents of the block at the moment it is freed. -/
def maccoreaudio_stopStream {W : Type} (os : HAL W) (rt : RealTime W)
    (ctl : Control W) (deviceUID : String) (stream : maccoreaudio_stream)
    (w : W) : StopResult W :=
  let t := stopStream_locked os rt ctl deviceUID stream w
  let u := pthread_mutex_unlock rt t.stream.mutex t.world
  let x := pthread_mutex_destroy rt u.mutex u.world
  { stream := { t.stream with mutex := x.mutex }
    world := ctl.free x.world
    trace := t.trace ++ stopStream_release u.ret x.ret }

/-! ## Observations on traces -/

/-- Whether a call is a run of the converter. -/
def Event.isConvert : Event → Bool
  | .AudioConverterConvertBuffer _ _ _ _ => true
  | _ => false

/-- Whether a call is an invocation of the application callback. -/
def Event.isCallback : Event → Bool
  | .callbackFunction _ _ _ _ _ => true
  | _ => false

/-- The length argument of an invocation of the application callback. -/
def Event.callbackLength : Event → Option Int
  | .callbackFunction _ _ length _ _ => some length
  | _ => none

/-! ## Concrete worlds -/

/-- The application format 44100 Hz / 2 ch / 16-bit integer, little endian,
interleaved. -/
def javaFormat16 : AudioStreamBasicDescription :=
  FillOutASBDForLPCM 44100 2 16 16 false false false

/-- The device format 48000 Hz / 2 ch / 32-bit float, interleaved. -/
def deviceFormat48 : AudioStreamBasicDescription :=
  FillOutASBDForLPCM 48000 2 32 32 true false false

/-- A descriptor with every field 0, standing for uninitialised memory. -/
def zeroFormat : AudioStreamBasicDescription :=
  { mSampleRate := 0, mFormatID := 0, mFormatFlags := 0, mBytesPerPacket := 0
    mFramesPerPacket := 0, mBytesPerFrame := 0, mChannelsPerFrame := 0
    mBitsPerChannel := 0 }

/-- A system in which every call succeeds: every UID resolves to device 42,
whose first stream 7 has the format `deviceFormat48`. -/
def goodHAL : HAL Unit where
  CFStringCreateWithCString := fun _ w => (1, w)
  CFRelease := fun _ w => w
  getDeviceForUID := fun _ _ w => ((noErr, 42), w)
  getStreams := fun _ _ w => ((noErr, 7), w)
  getVirtualFormat := fun _ _ w => ((noErr, deviceFormat48), w)
  getStreamFormat := fun _ _ _ w => ((noErr, deviceFormat48), w)
  AudioConverterNew := fun _ _ _ w => ((noErr, 99), w)

/-- A system in which the device resolves but both format queries fail
(with the status `'who?'`) and leave the caller's variable as it was. -/
def noFormatHAL : HAL Unit where
  CFStringCreateWithCString := fun _ w => (1, w)
  CFRelease := fun _ w => w
  getDeviceForUID := fun _ _ w => ((noErr, 42), w)
  getStreams := fun _ _ w => ((0x77686F3F, 0), w)
  getVirtualFormat := fun _ old w => ((0x77686F3F, old), w)
  getStreamFormat := fun _ _ old w => ((0x77686F3F, old), w)
  AudioConverterNew := fun _ _ _ w => ((noErr, 99), w)

/-- A real-time environment without mutex faults, whose converter hands the
source bytes on unchanged (as many as fit) and whose application callback
fills its buffer with the byte 7. -/
def plainRT : RealTime Unit where
  mutexFault := fun w => (0, w)
  AudioConverterConvertBuffer := fun _ inSize inData outSize _ w =>
    ((noErr, min inSize outSize, inData), w)
  callbackFunction := fun _ _ _ _ _ w => (fun _ => 7, w)

/-- A running stream (registration 5, callback 11 / 12 / 13, converter 99,
mutex free) with the given conversion ratio. -/
def liveStream (ratio : ℚ) : maccoreaudio_stream :=
  { ioProcId := 5, callbackFunction := 11, callbackObject := 12
    callbackMethod := 13, converter := 99, conversionRatio := ratio
    mutex := false }

/-- A buffer of `n` bytes, each equal to `c`. -/
def constBuffer (n c : Nat) : AudioBuffer :=
  { mNumberChannels := 2, mDataByteSize := n, mData := 1000, bytes := fun _ => c }

/-- The first output buffer after a cycle of the output handler on
`liveStream (1 / 2)` in `plainRT`, given 8 bytes of capacity: the 4 bytes
obtained from the application, each equal to 7. -/
def filledBuffer : AudioBuffer :=
  { mNumberChannels := 2, mDataByteSize := 4, mData := 1000, bytes := fun _ => 7 }

/-- The lengths passed to the application callback in a trace, in order. -/
def callbackLengths (trace : List Event) : List Int :=
  trace.filterMap Event.callbackLength

/-! ## Observations on the stream controller -/

/-- The four resources a stream is made of, in the order
`maccoreaudio_startStream` acquires them. -/
inductive Resource where
  | block
  | mutex
  | converter
  | registration
  deriving DecidableEq

/-- The resource a call sets out to acquire, if it is an acquisition. -/
def Event.acquires : Event → Option Resource
  | .malloc => some .block
  | .pthread_mutex_init => some .mutex
  | .AudioConverterNew _ _ => some .converter
  | .AudioDeviceCreateIOProcID _ _ => some .registration
  | _ => none

/-- The resource a call releases, if it is a release. -/
def Event.releases : Event → Option Resource
  | .free => some .block
  | .pthread_mutex_destroy => some .mutex
  | .AudioConverterDispose _ => some .converter
  | .AudioDeviceDestroyIOProcID _ _ => some .registration
  | _ => none

/-- The resources held when `maccoreaudio_startStream` reaches a given return
statement, in the order of their acquisition. -/
def StartOutcome.acquired : StartOutcome → List Resource
  | .deviceNotFound => []
  | .mallocFailed => []
  | .mutexInitFailed => [.block]
  | .converterFailed => [.block, .mutex]
  | .registrationFailed => [.block, .mutex, .converter]
  | .startFailed => [.block, .mutex, .converter, .registration]
  | .started => [.block, .mutex, .converter, .registration]

/-- What it is for a result of `maccoreaudio_startStream` to release in
reverse order: a stream is returned exactly on the return path of success; the
calls split into a first part without a release and a second part without an
acquisition; the resources held are the first acquisitions attempted; and the
second part releases, on a failure, exactly the resources held, last acquired
first, and on success nothing. -/
def StartResult.releasesInReverse {W : Type} (r : StartResult W) : Prop :=
  (r.stream.isSome = true ↔ r.outcome = .started)
  ∧ ∃ pre post, r.trace = pre ++ post
      ∧ pre.filterMap Event.releases = []
      ∧ post.filterMap Event.acquires = []
      ∧ r.outcome.acquired <+: pre.filterMap Event.acquires
      ∧ post.filterMap Event.releases
        = if r.outcome = .started then [] else r.outcome.acquired.reverse

/-- Whether a call is one of the steps of a teardown: the two calls on the
device, the disposal of the converter, the unlock and the destruction of the
mutex, the release of the block. -/
def Event.isTeardown : Event → Bool
  | .AudioDeviceStop _ _ => true
  | .AudioDeviceDestroyIOProcID _ _ => true
  | .AudioConverterDispose _ => true
  | .pthread_mutex_unlock => true
  | .pthread_mutex_destroy => true
  | .free => true
  | _ => false

/-- The device scope a stream of the given direction is queried in. -/
def directionScope (isJavaFormatSource : Bool) : Nat :=
  if isJavaFormatSource then kAudioDevicePropertyScopeOutput
  else kAudioDevicePropertyScopeInput

/-- What a call must look like in a stream of the given direction: the
converter is created with the application format `javaFormat` as its source
for an output stream and as its destination for an input stream, the device
format is queried in the scope of the direction, and the handler registered is
`handler`.  Calls of other kinds are not constrained. -/
def Event.directed (isJavaFormatSource : Bool)
    (javaFormat : AudioStreamBasicDescription) (handler : Nat) : Event → Bool
  | .AudioConverterNew inFormat outFormat =>
    if isJavaFormatSource then decide (inFormat = javaFormat)
    else decide (outFormat = javaFormat)
  | .getStreams _ scope => decide (scope = directionScope isJavaFormatSource)
  | .getStreamFormat _ scope => decide (scope = directionScope isJavaFormatSource)
  | .AudioDeviceCreateIOProcID _ proc => decide (proc = handler)
  | _ => true

/-! ## More concrete worlds -/

/-- A real-time environment without mutex faults whose converter fails with
`paramErr` (-50) and leaves the destination as it was. -/
def failingRT : RealTime Unit where
  mutexFault := fun w => (0, w)
  AudioConverterConvertBuffer := fun _ _ _ outSize outData w =>
    ((-50, outSize, outData), w)
  callbackFunction := fun _ _ _ _ _ w => (fun _ => 7, w)

/-- A real-time environment in which every mutex operation fails with
`EINVAL` (22). -/
def faultyRT : RealTime Unit where
  mutexFault := fun w => (22, w)
  AudioConverterConvertBuffer := fun _ inSize inData outSize _ w =>
    ((noErr, min inSize outSize, inData), w)
  callbackFunction := fun _ _ _ _ _ w => (fun _ => 7, w)

/-- A system in which the look-up of a device succeeds without finding one. -/
def unknownHAL : HAL Unit where
  CFStringCreateWithCString := fun _ w => (1, w)
  CFRelease := fun _ w => w
  getDeviceForUID := fun _ _ w => ((noErr, kAudioObjectUnknown), w)
  getStreams := fun _ _ w => ((noErr, 7), w)
  getVirtualFormat := fun _ _ w => ((noErr, deviceFormat48), w)
  getStreamFormat := fun _ _ _ w => ((noErr, deviceFormat48), w)
  AudioConverterNew := fun _ _ _ w => ((noErr, 99), w)

/-- A system like `goodHAL` whose `AudioConverterNew` fails with
`kAudioConverterErr_FormatNotSupported` (`'fmt?'`). -/
def noConverterHAL : HAL Unit where
  CFStringCreateWithCString := fun _ w => (1, w)
  CFRelease := fun _ w => w
  getDeviceForUID := fun _ _ w => ((noErr, 42), w)
  getStreams := fun _ _ w => ((noErr, 7), w)
  getVirtualFormat := fun _ _ w => ((noErr, deviceFormat48), w)
  getStreamFormat := fun _ _ _ w => ((noErr, deviceFormat48), w)
  AudioConverterNew := fun _ _ old w => ((0x666D743F, old), w)

/-- The contents of a block fresh from `malloc`. -/
def rawStream : maccoreaudio_stream :=
  { ioProcId := 3, callbackFunction := 3, callbackObject := 3
    callbackMethod := 3, converter := 3, conversionRatio := 3, mutex := true }

/-- A controller in which every call succeeds; the registration obtained is 5. -/
def plainControl : Control Unit where
  malloc := fun w => (some rawStream, w)
  free := fun w => w
  AudioDeviceCreateIOProcID := fun _ _ _ w => ((noErr, 5), w)
  AudioDeviceStart := fun _ _ w => (noErr, w)
  AudioDeviceStop := fun _ _ w => (noErr, w)
  AudioDeviceDestroyIOProcID := fun _ _ w => (noErr, w)
  AudioConverterDispose := fun _ w => (noErr, w)

/-- A controller like `plainControl` in which the device refuses to start and
to stop (`kAudioHardwareNotRunningError`, `'stop'`). -/
def noStartControl : Control Unit where
  malloc := fun w => (some rawStream, w)
  free := fun w => w
  AudioDeviceCreateIOProcID := fun _ _ _ w => ((noErr, 5), w)
  AudioDeviceStart := fun _ _ w => (0x73746F70, w)
  AudioDeviceStop := fun _ _ w => (0x73746F70, w)
  AudioDeviceDestroyIOProcID := fun _ _ w => (noErr, w)
  AudioConverterDispose := fun _ w => (noErr, w)

/-- A running stream whose mutex is held, as during `maccoreaudio_stopStream`. -/
def heldStream : maccoreaudio_stream :=
  { ioProcId := 5, callbackFunction := 11, callbackObject := 12
    callbackMethod := 13, converter := 99, conversionRatio := 1, mutex := true }

/-- A buffer announcing 8 bytes behind a null data pointer. -/
def nullBuffer : AudioBuffer :=
  { mNumberChannels := 2, mDataByteSize := 8, mData := 0, bytes := fun _ => 2 }

/-- Three input buffers: 8 bytes, a null one, 4 bytes. -/
def inputBuffers : List AudioBuffer :=
  [constBuffer 8 1, nullBuffer, constBuffer 4 3]

/-! ## Device volume -/

/-- The element `kAudioObjectPropertyElementMaster`. -/
def kAudioObjectPropertyElementMaster : Nat := 0

/-- The CoreAudio calls of the volume setter.  The property address of each
call is fixed by the code up to the arguments listed. -/
structure VolumeHAL (W : Type) where
  /-- `AudioObjectGetPropertyData` for the selector
  `kAudioDevicePropertyPreferredChannelsForStereo` (input scope, wildcard
  element): status, and `channels[0]`, `channels[1]` after the call (given
  their contents before). -/
  getPreferredChannelsForStereo : (device : Nat) → Nat × Nat → W →
    (OSStatus × Nat × Nat) × W
  /-- `AudioObjectHasProperty` for `kAudioDevicePropertyVolumeScalar`. -/
  hasVolumeScalar : (device scope element : Nat) → W → Bool × W
  /-- `AudioObjectSetPropertyData` for `kAudioDevicePropertyVolumeScalar`. -/
  setVolumeScalar : (device scope element : Nat) → (volume : ℚ) → W →
    OSStatus × W

/-- Result of `maccoreaudio_getChannelsForStereo`: the status, the contents of
the caller's array after the call, the next world state. -/
structure ChannelsResult (W : Type) where
  err : OSStatus
  channels : Nat × Nat
  world : W

/-- Result of a call that only reports a status. -/
structure StatusResult (W : Type) where
  err : OSStatus
  world : W

/-- `maccoreaudio_getChannelsForStereo` (device.c, 768-809).  `channels` is the
contents of the caller's array before the call. -/
def maccoreaudio_getChannelsForStereo {W : Type} (os : HAL W) (vh : VolumeHAL W)
    (deviceUID : String) (channels : Nat × Nat) (w : W) : ChannelsResult W :=
  let d := maccoreaudio_getDevice os deviceUID w
  if d.device = kAudioObjectUnknown then
    { err := -1, channels := channels, world := d.world }
  else
    let q := vh.getPreferredChannelsForStereo d.device channels d.world
    if q.1.1 ≠ noErr then
      { err := q.1.1, channels := (q.1.2.1, q.1.2.2), world := q.2 }
    else
      { err := q.1.1, channels := (q.1.2.1, q.1.2.2), world := q.2 }

/-- The loop of `maccoreaudio_setDeviceVolume` over the elements (device.c,
608-631), from the current element on.  `err` is the local of that name. -/
def setDeviceVolume_loop {W : Type} (vh : VolumeHAL W)
    (device inputOutputScope : Nat) (volume : ℚ) :
    List Nat → OSStatus → W → StatusResult W
  | [], err, w => { err := err, world := w }
  | element :: elements, err, w =>
    let h := vh.hasVolumeScalar device inputOutputScope element w
    if h.1 then
      let s := vh.setVolumeScalar device inputOutputScope element volume h.2
      if s.1 ≠ noErr then { err := s.1, world := s.2 }
      else setDeviceVolume_loop vh device inputOutputScope volume elements s.1 s.2
    else setDeviceVolume_loop vh device inputOutputScope volume elements err h.2

/-- `maccoreaudio_setDeviceVolume` (device.c, 558-634).  `channels` is the
indeterminate initial contents of the local array.  The local `err` is
initialised to `noErr` and assigned only by `AudioObjectSetPropertyData`: the
status of `maccoreaudio_getChannelsForStereo` is compared with `noErr` and not
kept. -/
def maccoreaudio_setDeviceVolume {W : Type} (os : HAL W) (vh : VolumeHAL W)
    (deviceUID : String) (volume : ℚ) (inputOutputScope : Nat)
    (channels : Nat × Nat) (w : W) : StatusResult W :=
  let err : OSStatus := noErr
  let d := maccoreaudio_getDevice os deviceUID w
  if d.device = kAudioObjectUnknown then { err := -1, world := d.world }
  else
    let c := maccoreaudio_getChannelsForStereo os vh deviceUID channels d.world
    if c.err ≠ noErr then { err := err, world := c.world }
    else
      setDeviceVolume_loop vh d.device inputOutputScope volume
        [kAudioObjectPropertyElementMaster, c.channels.1, c.channels.2] err
        c.world

/-- A device on which every volume call succeeds; the preferred stereo
channels are 1 and 2. -/
def plainVolume : VolumeHAL Unit where
  getPreferredChannelsForStereo := fun _ _ w => ((noErr, 1, 2), w)
  hasVolumeScalar := fun _ _ _ w => (true, w)
  setVolumeScalar := fun _ _ _ _ w => (noErr, w)

/-- A device without the property of the preferred stereo channels: the query
fails with `kAudioHardwareUnknownPropertyError` (`'who?'`) and leaves the
caller's array as it was. -/
def noStereoVolume : VolumeHAL Unit where
  getPreferredChannelsForStereo := fun _ old w => ((0x77686F3F, old.1, old.2), w)
  hasVolumeScalar := fun _ _ _ w => (true, w)
  setVolumeScalar := fun _ _ _ _ w => (noErr, w)

/-- A device that refuses a new volume on the channel elements
(`kAudioHardwareIllegalOperationError`, `'nope'`) and accepts it on the
master element. -/
def noChannelVolume : VolumeHAL Unit where
  getPreferredChannelsForStereo := fun _ _ w => ((noErr, 1, 2), w)
  hasVolumeScalar := fun _ _ _ w => (true, w)
  setVolumeScalar := fun _ _ element _ w =>
    (if element = kAudioObjectPropertyElementMaster then noErr else 0x6E6F7065, w)

/-! ## Observations on the handlers -/

/-- Whether a call is an unlock of the mutex. -/
def Event.isUnlock : Event → Bool
  | .pthread_mutex_unlock => true
  | _ => false

/-- The number of unlocks of the mutex in a trace. -/
def unlockCount (trace : List Event) : Nat :=
  (trace.filter Event.isUnlock).length

/-- The destination capacity offered to the converter by a call, if it is a
run of the converter. -/
def Event.convertCapacity : Event → Option Nat
  | .AudioConverterConvertBuffer _ _ _ outCapacity => some outCapacity
  | _ => none

/-- The destination capacities offered to the converter in a trace, in
order. -/
def convertCapacities (trace : List Event) : List Nat :=
  trace.filterMap Event.convertCapacity

/-- What the conversion of C truncation gives for the scratch length of
`maccoreaudio_readInputStream` (device.c, 1604-1605) on a buffer of
`mDataByteSize` bytes. -/
def readInputStream_tmpLength (stream : maccoreaudio_stream)
    (mDataByteSize : Nat) : Nat :=
  uint32OfInt (truncate ((mDataByteSize : ℚ) * stream.conversionRatio))

/-- Whether a buffer of an input cycle is converted: its data pointer is not
null and its size is not 0. -/
def AudioBuffer.hasData (b : AudioBuffer) : Bool :=
  decide (b.mData ≠ 0 ∧ b.mDataByteSize > 0)

/-- A real-time environment whose world counts the mutex operations made:
the first one (the lock attempt) goes through and every later one fails with
`EINVAL` (22). -/
def unlockFaultRT : RealTime Nat where
  mutexFault := fun w => (if w = 0 then 0 else 22, w + 1)
  AudioConverterConvertBuffer := fun _ inSize inData outSize _ w =>
    ((noErr, min inSize outSize, inData), w)
  callbackFunction := fun _ _ _ _ _ w => (fun _ => 7, w)

/-- Two input buffers of 8 and of 16 bytes. -/
def unevenBuffers : List AudioBuffer :=
  [constBuffer 8 1, constBuffer 16 2]

/-- Two output buffers of 8 and of 12 bytes, filled with the bytes 1 and 2. -/
def outputBuffers : List AudioBuffer :=
  [constBuffer 8 1, constBuffer 12 2]

/-! ## Observations on the format queries -/

/-- Whether a call is the deprecated whole-device format query
(`kAudioDevicePropertyStreamFormat`). -/
def Event.isDeprecatedQuery : Event → Bool
  | .getStreamFormat _ _ => true
  | _ => false

/-- The device format 44100 Hz / 2 ch / 16-bit integer, interleaved, of an old
driver. -/
def deviceFormat44 : AudioStreamBasicDescription :=
  FillOutASBDForLPCM 44100 2 16 16 false false false

/-- A system whose device has no stream list (the per-stream query fails with
`'who?'`) and answers the deprecated query with `deviceFormat44`. -/
def legacyHAL : HAL Unit where
  CFStringCreateWithCString := fun _ w => (1, w)
  CFRelease := fun _ w => w
  getDeviceForUID := fun _ _ w => ((noErr, 42), w)
  getStreams := fun _ _ w => ((0x77686F3F, 0), w)
  getVirtualFormat := fun _ old w => ((0x77686F3F, old), w)
  getStreamFormat := fun _ _ _ w => ((noErr, deviceFormat44), w)
  AudioConverterNew := fun _ _ _ w => ((noErr, 99), w)

/-! ## The calls of `maccoreaudio_startStream`, one by one -/

/-- The call of `malloc` in `maccoreaudio_startStream` (device.c, 1417-1418),
made in the world the look-up of the device left. -/
def startStream_malloc {W : Type} (os : HAL W) (ctl : Control W)
    (deviceUID : String) (w : W) : Option maccoreaudio_stream × W :=
  ctl.malloc (maccoreaudio_getDevice os deviceUID w).world

/-- The call of `pthread_mutex_init` in `maccoreaudio_startStream` (device.c,
1432), on the block `malloc` returned. -/
def startStream_mutexInit {W : Type} (os : HAL W) (rt : RealTime W)
    (ctl : Control W) (deviceUID : String) (w : W)
    (block : maccoreaudio_stream) : MutexResult W :=
  pthread_mutex_init rt block.mutex (startStream_malloc os ctl deviceUID w).2

/-- The call of `maccoreaudio_initConverter` in `maccoreaudio_startStream`
(device.c, 1453-1458), on the descriptor built from the parameters and the two
fields of the block. -/
def startStream_initConverter {W : Type} (os : HAL W) (rt : RealTime W)
    (ctl : Control W) (deviceUID : String) (isJavaFormatSource : Bool)
    (sampleRate : ℚ) (nbChannels bitsPerChannel : Nat)
    (isFloat isBigEndian isNonInterleaved : Bool)
    (deviceFormat : AudioStreamBasicDescription) (w : W)
    (block : maccoreaudio_stream) : InitConverterResult W :=
  maccoreaudio_initConverter os deviceUID
    (FillOutASBDForLPCM sampleRate nbChannels bitsPerChannel bitsPerChannel
      isFloat isBigEndian isNonInterleaved)
    isJavaFormatSource block.converter block.conversionRatio deviceFormat
    (startStream_mutexInit os rt ctl deviceUID w block).world

/-- The call of `AudioDeviceCreateIOProcID` in `maccoreaudio_startStream`
(device.c, 1472-1476); `ioProcId` holds NULL before the call. -/
def startStream_createIOProc {W : Type} (os : HAL W) (rt : RealTime W)
    (ctl : Control W) (deviceUID : String) (readWriteFunction : Nat)
    (isJavaFormatSource : Bool)
    (sampleRate : ℚ) (nbChannels bitsPerChannel : Nat)
    (isFloat isBigEndian isNonInterleaved : Bool)
    (deviceFormat : AudioStreamBasicDescription) (w : W)
    (block : maccoreaudio_stream) : (OSStatus × Nat) × W :=
  ctl.AudioDeviceCreateIOProcID (maccoreaudio_getDevice os deviceUID w).device
    readWriteFunction 0
    (startStream_initConverter os rt ctl deviceUID isJavaFormatSource sampleRate
      nbChannels bitsPerChannel isFloat isBigEndian isNonInterleaved
      deviceFormat w block).world

/-- The call of `AudioDeviceStart` in `maccoreaudio_startStream` (device.c,
1490), with the registration the preceding call stored. -/
def startStream_deviceStart {W : Type} (os : HAL W) (rt : RealTime W)
    (ctl : Control W) (deviceUID : String) (readWriteFunction : Nat)
    (isJavaFormatSource : Bool)
    (sampleRate : ℚ) (nbChannels bitsPerChannel : Nat)
    (isFloat isBigEndian isNonInterleaved : Bool)
    (deviceFormat : AudioStreamBasicDescription) (w : W)
    (block : maccoreaudio_stream) : OSStatus × W :=
  ctl.AudioDeviceStart (maccoreaudio_getDevice os deviceUID w).device
    (startStream_createIOProc os rt ctl deviceUID readWriteFunction
      isJavaFormatSource sampleRate nbChannels bitsPerChannel isFloat
      isBigEndian isNonInterleaved deviceFormat w block).1.2
    (startStream_createIOProc os rt ctl deviceUID readWriteFunction
      isJavaFormatSource sampleRate nbChannels bitsPerChannel isFloat
      isBigEndian isNonInterleaved deviceFormat w block).2

/-- A controller like `plainControl` whose `malloc` fails. -/
def noMemoryControl : Control Unit where
  malloc := fun w => (none, w)
  free := fun w => w
  AudioDeviceCreateIOProcID := fun _ _ _ w => ((noErr, 5), w)
  AudioDeviceStart := fun _ _ w => (noErr, w)
  AudioDeviceStop := fun _ _ w => (noErr, w)
  AudioDeviceDestroyIOProcID := fun _ _ w => (noErr, w)
  AudioConverterDispose := fun _ w => (noErr, w)

/-- A controller like `plainControl` in which the registration of the IOProc
is refused (`kAudioHardwareIllegalOperationError`, `'nope'`). -/
def noProcControl : Control Unit where
  malloc := fun w => (some rawStream, w)
  free := fun w => w
  AudioDeviceCreateIOProcID := fun _ _ old w => ((0x6E6F7065, old), w)
  AudioDeviceStart := fun _ _ w => (noErr, w)
  AudioDeviceStop := fun _ _ w => (noErr, w)
  AudioDeviceDestroyIOProcID := fun _ _ w => (noErr, w)
  AudioConverterDispose := fun _ w => (noErr, w)

/-! ## Theorems: descriptors and format flags -/

/-- C3: for every sample rate, channel count, valid bits, total bits and every
combination of the three booleans, `FillOutASBDForLPCM` sets `mBytesPerFrame`
and `mBytesPerPacket` to (1 if non-interleaved, else the channel count) times
(total bits / 8), in 32-bit unsigned arithmetic, and `mFramesPerPacket` to 1. -/
theorem FillOutASBDForLPCM_bytes (inSampleRate : ℚ)
    (inChannelsPerFrame inValidBitsPerChannel inTotalBitsPerChannel : Nat)
    (inIsFloat inIsBigEndian inIsNonInterleaved : Bool) :
    (FillOutASBDForLPCM inSampleRate inChannelsPerFrame inValidBitsPerChannel
        inTotalBitsPerChannel inIsFloat inIsBigEndian
        inIsNonInterleaved).mBytesPerFrame
      = ((if inIsNonInterleaved then 1 else inChannelsPerFrame)
          * (inTotalBitsPerChannel / 8)) % 2 ^ 32
    ∧ (FillOutASBDForLPCM inSampleRate inChannelsPerFrame inValidBitsPerChannel
        inTotalBitsPerChannel inIsFloat inIsBigEndian
        inIsNonInterleaved).mBytesPerPacket
      = (FillOutASBDForLPCM inSampleRate inChannelsPerFrame
        inValidBitsPerChannel inTotalBitsPerChannel inIsFloat inIsBigEndian
        inIsNonInterleaved).mBytesPerFrame
    ∧ (FillOutASBDForLPCM inSampleRate inChannelsPerFrame inValidBitsPerChannel
        inTotalBitsPerChannel inIsFloat inIsBigEndian
        inIsNonInterleaved).mFramesPerPacket = 1 :=
  ⟨rfl, rfl, rfl⟩

/-- C4: in the result of `CalculateLPCMFlags` the packed flag (8) is set if and
only if the encoding is integer and the valid bits equal the total bits;
whenever the packed flag is not set the aligned-high flag (16) is set; and the
two flags are never set together. -/
theorem CalculateLPCMFlags_packed (inValidBitsPerChannel inTotalBitsPerChannel : Nat)
    (inIsFloat inIsBigEndian inIsNonInterleaved : Bool) :
    (flagSet (CalculateLPCMFlags inValidBitsPerChannel inTotalBitsPerChannel
        inIsFloat inIsBigEndian inIsNonInterleaved) kAudioFormatFlagIsPacked = true
      ↔ (inIsFloat = false ∧ inValidBitsPerChannel = inTotalBitsPerChannel))
    ∧ (flagSet (CalculateLPCMFlags inValidBitsPerChannel inTotalBitsPerChannel
        inIsFloat inIsBigEndian inIsNonInterleaved) kAudioFormatFlagIsPacked = false
      → flagSet (CalculateLPCMFlags inValidBitsPerChannel inTotalBitsPerChannel
        inIsFloat inIsBigEndian inIsNonInterleaved) kAudioFormatFlagIsAlignedHigh
          = true)
    ∧ ¬ (flagSet (CalculateLPCMFlags inValidBitsPerChannel inTotalBitsPerChannel
        inIsFloat inIsBigEndian inIsNonInterleaved) kAudioFormatFlagIsPacked = true
      ∧ flagSet (CalculateLPCMFlags inValidBitsPerChannel inTotalBitsPerChannel
        inIsFloat inIsBigEndian inIsNonInterleaved) kAudioFormatFlagIsAlignedHigh
          = true) := by
  by_cases h : inValidBitsPerChannel = inTotalBitsPerChannel <;>
    cases inIsFloat <;> cases inIsBigEndian <;> cases inIsNonInterleaved <;>
    simp [CalculateLPCMFlags, h] <;> decide

/-- C4, at concrete inputs: 16 valid bits of 16 in integer encoding are packed
and not aligned high, 24 valid bits of 32 are aligned high and not packed. -/
theorem CalculateLPCMFlags_packed_witness :
    flagSet (CalculateLPCMFlags 24 32 false false false) kAudioFormatFlagIsPacked
        = false
    ∧ flagSet (CalculateLPCMFlags 24 32 false false false)
        kAudioFormatFlagIsAlignedHigh = true :=
  ⟨by decide,
    (CalculateLPCMFlags_packed 24 32 false false false).2.1 (by decide)⟩

/-- C5: in the result of `CalculateLPCMFlags` the float flag (1) is set iff
`inIsFloat` and the signed-integer flag (4) iff not `inIsFloat`, so exactly one
of the two is set; the big-endian flag (2) is set iff `inIsBigEndian`; the
non-interleaved flag (32) is set iff `inIsNonInterleaved`; and no bit outside
1, 2, 4, 8, 16, 32 is set. -/
theorem CalculateLPCMFlags_bits (inValidBitsPerChannel inTotalBitsPerChannel : Nat)
    (inIsFloat inIsBigEndian inIsNonInterleaved : Bool) :
    flagSet (CalculateLPCMFlags inValidBitsPerChannel inTotalBitsPerChannel
        inIsFloat inIsBigEndian inIsNonInterleaved) kAudioFormatFlagIsFloat
      = inIsFloat
    ∧ flagSet (CalculateLPCMFlags inValidBitsPerChannel inTotalBitsPerChannel
        inIsFloat inIsBigEndian inIsNonInterleaved)
        kAudioFormatFlagIsSignedInteger = !inIsFloat
    ∧ flagSet (CalculateLPCMFlags inValidBitsPerChannel inTotalBitsPerChannel
        inIsFloat inIsBigEndian inIsNonInterleaved) kAudioFormatFlagIsBigEndian
      = inIsBigEndian
    ∧ flagSet (CalculateLPCMFlags inValidBitsPerChannel inTotalBitsPerChannel
        inIsFloat inIsBigEndian inIsNonInterleaved)
        kAudioFormatFlagIsNonInterleaved = inIsNonInterleaved
    ∧ ∀ k, 6 ≤ k →
        (CalculateLPCMFlags inValidBitsPerChannel inTotalBitsPerChannel
          inIsFloat inIsBigEndian inIsNonInterleaved).testBit k = false := by
  have hlt : CalculateLPCMFlags inValidBitsPerChannel inTotalBitsPerChannel
      inIsFloat inIsBigEndian inIsNonInterleaved < 2 ^ 6 := by
    by_cases h : inValidBitsPerChannel = inTotalBitsPerChannel <;>
      cases inIsFloat <;> cases inIsBigEndian <;> cases inIsNonInterleaved <;>
      simp [CalculateLPCMFlags, h] <;> decide
  refine ⟨?_, ?_, ?_, ?_, ?_⟩
  · by_cases h : inValidBitsPerChannel = inTotalBitsPerChannel <;>
      cases inIsFloat <;> cases inIsBigEndian <;> cases inIsNonInterleaved <;>
      simp [CalculateLPCMFlags, h] <;> decide
  · by_cases h : inValidBitsPerChannel = inTotalBitsPerChannel <;>
      cases inIsFloat <;> cases inIsBigEndian <;> cases inIsNonInterleaved <;>
      simp [CalculateLPCMFlags, h] <;> decide
  · by_cases h : inValidBitsPerChannel = inTotalBitsPerChannel <;>
      cases inIsFloat <;> cases inIsBigEndian <;> cases inIsNonInterleaved <;>
      simp [CalculateLPCMFlags, h] <;> decide
  · by_cases h : inValidBitsPerChannel = inTotalBitsPerChannel <;>
      cases inIsFloat <;> cases inIsBigEndian <;> cases inIsNonInterleaved <;>
      simp [CalculateLPCMFlags, h] <;> decide
  · intro k hk
    exact Nat.testBit_lt_two_pow
      (lt_of_lt_of_le hlt (Nat.pow_le_pow_right (by decide) hk))

/-! ## Theorems: converter set-up -/

/-- The fields of `maccoreaudio_initConverter` that do not depend on the
outcome of `AudioConverterNew`. -/
theorem initConverter_formats {W : Type} (os : HAL W) (deviceUID : String)
    (javaFormat : AudioStreamBasicDescription) (isJavaFormatSource : Bool)
    (converter : Nat) (conversionRatio : ℚ)
    (deviceFormat : AudioStreamBasicDescription) (w : W) :
    (maccoreaudio_initConverter os deviceUID javaFormat isJavaFormatSource
        converter conversionRatio deviceFormat w).deviceFormat
      = (initConverter_deviceFormat os deviceUID isJavaFormatSource
          deviceFormat w).format
    ∧ (maccoreaudio_initConverter os deviceUID javaFormat isJavaFormatSource
        converter conversionRatio deviceFormat w).inFormat
      = (if isJavaFormatSource then javaFormat
          else (initConverter_deviceFormat os deviceUID isJavaFormatSource
            deviceFormat w).format)
    ∧ (maccoreaudio_initConverter os deviceUID javaFormat isJavaFormatSource
        converter conversionRatio deviceFormat w).outFormat
      = (if isJavaFormatSource
          then (initConverter_deviceFormat os deviceUID isJavaFormatSource
            deviceFormat w).format
          else javaFormat) := by
  cases isJavaFormatSource <;>
    simp only [maccoreaudio_initConverter, Bool.not_false, Bool.not_true, if_true,
      Bool.false_eq_true, if_false] <;>
    split_ifs <;> simp

/-- The ratio stored by a successful `maccoreaudio_initConverter`. -/
theorem initConverter_ratio_eq {W : Type} (os : HAL W) (deviceUID : String)
    (javaFormat : AudioStreamBasicDescription) (isJavaFormatSource : Bool)
    (converter : Nat) (conversionRatio : ℚ)
    (deviceFormat : AudioStreamBasicDescription) (w : W)
    (h : (maccoreaudio_initConverter os deviceUID javaFormat isJavaFormatSource
        converter conversionRatio deviceFormat w).err = noErr) :
    (maccoreaudio_initConverter os deviceUID javaFormat isJavaFormatSource
        converter conversionRatio deviceFormat w).conversionRatio
      = ((javaFormat.mBytesPerFrame : ℚ) * javaFormat.mSampleRate)
        / (((initConverter_deviceFormat os deviceUID isJavaFormatSource
              deviceFormat w).format.mBytesPerFrame : ℚ)
          * (initConverter_deviceFormat os deviceUID isJavaFormatSource
              deviceFormat w).format.mSampleRate) := by
  cases isJavaFormatSource <;>
    simp only [maccoreaudio_initConverter, Bool.not_false, Bool.not_true, if_true,
      Bool.false_eq_true, if_false] at h ⊢ <;>
    split_ifs at h ⊢ with hc <;>
    first
      | exact absurd h hc
      | rfl

/-- With `goodHAL` the converter set-up succeeds and uses `deviceFormat48`,
in both directions. -/
theorem initConverter_goodHAL (javaFormat : AudioStreamBasicDescription)
    (isJavaFormatSource : Bool) :
    (maccoreaudio_initConverter goodHAL "dev" javaFormat isJavaFormatSource 0 0
        zeroFormat ()).err = noErr
    ∧ (maccoreaudio_initConverter goodHAL "dev" javaFormat isJavaFormatSource 0 0
        zeroFormat ()).deviceFormat = deviceFormat48 := by
  cases isJavaFormatSource <;> exact ⟨rfl, rfl⟩

/-- The byte rates of the two example formats. -/
theorem example_byte_rates :
    (javaFormat16.mBytesPerFrame : ℚ) * javaFormat16.mSampleRate = 176400
    ∧ (deviceFormat48.mBytesPerFrame : ℚ) * deviceFormat48.mSampleRate = 384000 := by
  constructor <;> norm_num [javaFormat16, deviceFormat48, FillOutASBDForLPCM]

/-- C6: whenever `maccoreaudio_initConverter` succeeds, for either value of
`isJavaFormatSource`, the stored ratio is (application bytes per frame times
application sample rate) over (device bytes per frame times device sample
rate), over the rationals. -/
theorem initConverter_ratio_direction_independent {W : Type} (os : HAL W)
    (deviceUID : String) (javaFormat : AudioStreamBasicDescription)
    (isJavaFormatSource : Bool) (converter : Nat) (conversionRatio : ℚ)
    (deviceFormat : AudioStreamBasicDescription) (w : W)
    (h : (maccoreaudio_initConverter os deviceUID javaFormat isJavaFormatSource
        converter conversionRatio deviceFormat w).err = noErr) :
    (maccoreaudio_initConverter os deviceUID javaFormat isJavaFormatSource
        converter conversionRatio deviceFormat w).conversionRatio
      = ((javaFormat.mBytesPerFrame : ℚ) * javaFormat.mSampleRate)
        / (((maccoreaudio_initConverter os deviceUID javaFormat
              isJavaFormatSource converter conversionRatio deviceFormat
              w).deviceFormat.mBytesPerFrame : ℚ)
          * (maccoreaudio_initConverter os deviceUID javaFormat
              isJavaFormatSource converter conversionRatio deviceFormat
              w).deviceFormat.mSampleRate) := by
  rw [initConverter_ratio_eq os deviceUID javaFormat isJavaFormatSource converter
    conversionRatio deviceFormat w h,
    (initConverter_formats os deviceUID javaFormat isJavaFormatSource converter
      conversionRatio deviceFormat w).1]

/-- C6, at the formats of the end-to-end scenario: 44100 Hz / 2 ch / 16-bit
integer against 48000 Hz / 2 ch / 32-bit float gives 147/320 = 0.459375 for an
output stream and for an input stream alike. -/
theorem initConverter_ratio_direction_independent_witness :
    (maccoreaudio_initConverter goodHAL "dev" javaFormat16 true 0 0 zeroFormat
        ()).err = noErr
    ∧ (maccoreaudio_initConverter goodHAL "dev" javaFormat16 true 0 0 zeroFormat
        ()).conversionRatio = 147 / 320
    ∧ (maccoreaudio_initConverter goodHAL "dev" javaFormat16 false 0 0 zeroFormat
        ()).conversionRatio = 147 / 320
    ∧ (147 / 320 : ℚ) = 0.459375 := by
  refine ⟨(initConverter_goodHAL javaFormat16 true).1, ?_, ?_, by norm_num⟩
  · rw [initConverter_ratio_direction_independent goodHAL "dev" javaFormat16 true
      0 0 zeroFormat () (initConverter_goodHAL javaFormat16 true).1,
      (initConverter_goodHAL javaFormat16 true).2, example_byte_rates.1,
      example_byte_rates.2]
    norm_num
  · rw [initConverter_ratio_direction_independent goodHAL "dev" javaFormat16 false
      0 0 zeroFormat () (initConverter_goodHAL javaFormat16 false).1,
      (initConverter_goodHAL javaFormat16 false).2, example_byte_rates.1,
      example_byte_rates.2]
    norm_num

/-- C8: for an application descriptor and a device descriptor with positive
sample rates and positive bytes per frame, the ratio computed by
`maccoreaudio_initConverter` is strictly positive. -/
theorem initConverter_ratio_pos {W : Type} (os : HAL W)
    (deviceUID : String) (javaFormat : AudioStreamBasicDescription)
    (isJavaFormatSource : Bool) (converter : Nat) (conversionRatio : ℚ)
    (deviceFormat : AudioStreamBasicDescription) (w : W)
    (h : (maccoreaudio_initConverter os deviceUID javaFormat isJavaFormatSource
        converter conversionRatio deviceFormat w).err = noErr)
    (hjr : 0 < javaFormat.mSampleRate) (hjb : 0 < javaFormat.mBytesPerFrame)
    (hdr : 0 < (maccoreaudio_initConverter os deviceUID javaFormat
        isJavaFormatSource converter conversionRatio deviceFormat
        w).deviceFormat.mSampleRate)
    (hdb : 0 < (maccoreaudio_initConverter os deviceUID javaFormat
        isJavaFormatSource converter conversionRatio deviceFormat
        w).deviceFormat.mBytesPerFrame) :
    0 < (maccoreaudio_initConverter os deviceUID javaFormat isJavaFormatSource
        converter conversionRatio deviceFormat w).conversionRatio := by
  rw [initConverter_ratio_eq os deviceUID javaFormat isJavaFormatSource converter
    conversionRatio deviceFormat w h]
  rw [(initConverter_formats os deviceUID javaFormat isJavaFormatSource converter
      conversionRatio deviceFormat w).1] at hdr hdb
  have hjb' : (0 : ℚ) < (javaFormat.mBytesPerFrame : ℚ) := by exact_mod_cast hjb
  have hdb' : (0 : ℚ) < ((initConverter_deviceFormat os deviceUID
      isJavaFormatSource deviceFormat w).format.mBytesPerFrame : ℚ) := by
    exact_mod_cast hdb
  exact div_pos (mul_pos hjb' hjr) (mul_pos hdb' hdr)

/-- C8, at the formats of the end-to-end scenario. -/
theorem initConverter_ratio_pos_witness :
    (maccoreaudio_initConverter goodHAL "dev" javaFormat16 true 0 0 zeroFormat
        ()).err = noErr
    ∧ 0 < javaFormat16.mSampleRate ∧ 0 < javaFormat16.mBytesPerFrame
    ∧ 0 < (maccoreaudio_initConverter goodHAL "dev" javaFormat16 true 0 0
        zeroFormat ()).deviceFormat.mSampleRate
    ∧ 0 < (maccoreaudio_initConverter goodHAL "dev" javaFormat16 true 0 0
        zeroFormat ()).deviceFormat.mBytesPerFrame
    ∧ 0 < (maccoreaudio_initConverter goodHAL "dev" javaFormat16 true 0 0
        zeroFormat ()).conversionRatio := by
  have hj : 0 < javaFormat16.mSampleRate := by
    norm_num [javaFormat16, FillOutASBDForLPCM]
  have hb : 0 < javaFormat16.mBytesPerFrame := by decide
  have hd : 0 < (maccoreaudio_initConverter goodHAL "dev" javaFormat16 true 0 0
      zeroFormat ()).deviceFormat.mSampleRate := by
    rw [(initConverter_goodHAL javaFormat16 true).2]
    norm_num [deviceFormat48, FillOutASBDForLPCM]
  have hdb : 0 < (maccoreaudio_initConverter goodHAL "dev" javaFormat16 true 0 0
      zeroFormat ()).deviceFormat.mBytesPerFrame := by
    rw [(initConverter_goodHAL javaFormat16 true).2]
    decide
  exact ⟨(initConverter_goodHAL javaFormat16 true).1, hj, hb, hd, hdb,
    initConverter_ratio_pos goodHAL "dev" javaFormat16 true 0 0 zeroFormat ()
      (initConverter_goodHAL javaFormat16 true).1 hj hb hd hdb⟩

/-- C9, refuted for an output stream: with the application format 44100 Hz /
4 bytes per frame as the source and the device format 48000 Hz / 8 bytes per
frame as the destination of `AudioConverterNew`, the set-up succeeds and stores
147/320, whereas destination over source is 320/147. -/
theorem initConverter_ratio_not_destination_over_source :
    (maccoreaudio_initConverter goodHAL "dev" javaFormat16 true 0 0 zeroFormat
        ()).err = noErr
    ∧ Event.AudioConverterNew javaFormat16 deviceFormat48
        ∈ (maccoreaudio_initConverter goodHAL "dev" javaFormat16 true 0 0
            zeroFormat ()).trace
    ∧ (maccoreaudio_initConverter goodHAL "dev" javaFormat16 true 0 0 zeroFormat
        ()).conversionRatio = 147 / 320
    ∧ ((deviceFormat48.mBytesPerFrame : ℚ) * deviceFormat48.mSampleRate)
        / ((javaFormat16.mBytesPerFrame : ℚ) * javaFormat16.mSampleRate)
      = 320 / 147
    ∧ (maccoreaudio_initConverter goodHAL "dev" javaFormat16 true 0 0 zeroFormat
        ()).conversionRatio
      ≠ ((deviceFormat48.mBytesPerFrame : ℚ) * deviceFormat48.mSampleRate)
        / ((javaFormat16.mBytesPerFrame : ℚ) * javaFormat16.mSampleRate) := by
  have hr : (maccoreaudio_initConverter goodHAL "dev" javaFormat16 true 0 0
      zeroFormat ()).conversionRatio = 147 / 320 := by
    rw [initConverter_ratio_eq goodHAL "dev" javaFormat16 true 0 0 zeroFormat ()
      (initConverter_goodHAL javaFormat16 true).1,
      ← (initConverter_formats goodHAL "dev" javaFormat16 true 0 0 zeroFormat
        ()).1,
      (initConverter_goodHAL javaFormat16 true).2, example_byte_rates.1,
      example_byte_rates.2]
    norm_num
  refine ⟨(initConverter_goodHAL javaFormat16 true).1, ?_, hr, ?_, ?_⟩
  · simp [maccoreaudio_initConverter, initConverter_deviceFormat,
      maccoreaudio_getDeviceFormat, maccoreaudio_getDevice,
      maccoreaudio_getDeviceForSpecificScope, maccoreaudio_getStreamVirtualFormat,
      goodHAL, noErr, kAudioObjectUnknown]
  · rw [example_byte_rates.1, example_byte_rates.2]
    norm_num
  · rw [hr, example_byte_rates.1, example_byte_rates.2]
    norm_num

/-- C9, amended: whenever `maccoreaudio_initConverter` succeeds, it has called
`AudioConverterNew` with the recorded source and destination formats, and the
stored ratio is application over device; for an input stream
(`isJavaFormatSource` false) this is destination over source, for an output
stream (`isJavaFormatSource` true) it is source over destination. -/
theorem initConverter_ratio_source_destination {W : Type} (os : HAL W)
    (deviceUID : String) (javaFormat : AudioStreamBasicDescription)
    (isJavaFormatSource : Bool) (converter : Nat) (conversionRatio : ℚ)
    (deviceFormat : AudioStreamBasicDescription) (w : W)
    (h : (maccoreaudio_initConverter os deviceUID javaFormat isJavaFormatSource
        converter conversionRatio deviceFormat w).err = noErr) :
    Event.AudioConverterNew
        (maccoreaudio_initConverter os deviceUID javaFormat isJavaFormatSource
          converter conversionRatio deviceFormat w).inFormat
        (maccoreaudio_initConverter os deviceUID javaFormat isJavaFormatSource
          converter conversionRatio deviceFormat w).outFormat
      ∈ (maccoreaudio_initConverter os deviceUID javaFormat isJavaFormatSource
          converter conversionRatio deviceFormat w).trace
    ∧ (isJavaFormatSource = false →
        (maccoreaudio_initConverter os deviceUID javaFormat isJavaFormatSource
          converter conversionRatio deviceFormat w).conversionRatio
        = (((maccoreaudio_initConverter os deviceUID javaFormat
              isJavaFormatSource converter conversionRatio deviceFormat
              w).outFormat.mBytesPerFrame : ℚ)
            * (maccoreaudio_initConverter os deviceUID javaFormat
              isJavaFormatSource converter conversionRatio deviceFormat
              w).outFormat.mSampleRate)
          / (((maccoreaudio_initConverter os deviceUID javaFormat
              isJavaFormatSource converter conversionRatio deviceFormat
              w).inFormat.mBytesPerFrame : ℚ)
            * (maccoreaudio_initConverter os deviceUID javaFormat
              isJavaFormatSource converter conversionRatio deviceFormat
              w).inFormat.mSampleRate))
    ∧ (isJavaFormatSource = true →
        (maccoreaudio_initConverter os deviceUID javaFormat isJavaFormatSource
          converter conversionRatio deviceFormat w).conversionRatio
        = (((maccoreaudio_initConverter os deviceUID javaFormat
              isJavaFormatSource converter conversionRatio deviceFormat
              w).inFormat.mBytesPerFrame : ℚ)
            * (maccoreaudio_initConverter os deviceUID javaFormat
              isJavaFormatSource converter conversionRatio deviceFormat
              w).inFormat.mSampleRate)
          / (((maccoreaudio_initConverter os deviceUID javaFormat
              isJavaFormatSource converter conversionRatio deviceFormat
              w).outFormat.mBytesPerFrame : ℚ)
            * (maccoreaudio_initConverter os deviceUID javaFormat
              isJavaFormatSource converter conversionRatio deviceFormat
              w).outFormat.mSampleRate)) := by
  have hf := initConverter_formats os deviceUID javaFormat isJavaFormatSource
    converter conversionRatio deviceFormat w
  have hr := initConverter_ratio_eq os deviceUID javaFormat isJavaFormatSource
    converter conversionRatio deviceFormat w h
  refine ⟨?_, ?_, ?_⟩
  · cases isJavaFormatSource <;>
      simp only [maccoreaudio_initConverter, Bool.not_false, Bool.not_true, if_true,
        Bool.false_eq_true, if_false] <;>
      split_ifs <;> simp
  · intro hs
    subst hs
    rw [hr, hf.2.1, hf.2.2]
    simp
  · intro hs
    subst hs
    rw [hr, hf.2.1, hf.2.2]
    simp

/-- C9 amended, at the output stream of the end-to-end scenario. -/
theorem initConverter_ratio_source_destination_witness :
    (maccoreaudio_initConverter goodHAL "dev" javaFormat16 true 0 0 zeroFormat
        ()).err = noErr
    ∧ (maccoreaudio_initConverter goodHAL "dev" javaFormat16 true 0 0 zeroFormat
        ()).conversionRatio
      = (((maccoreaudio_initConverter goodHAL "dev" javaFormat16 true 0 0
            zeroFormat ()).inFormat.mBytesPerFrame : ℚ)
          * (maccoreaudio_initConverter goodHAL "dev" javaFormat16 true 0 0
            zeroFormat ()).inFormat.mSampleRate)
        / (((maccoreaudio_initConverter goodHAL "dev" javaFormat16 true 0 0
            zeroFormat ()).outFormat.mBytesPerFrame : ℚ)
          * (maccoreaudio_initConverter goodHAL "dev" javaFormat16 true 0 0
            zeroFormat ()).outFormat.mSampleRate) :=
  ⟨(initConverter_goodHAL javaFormat16 true).1,
    (initConverter_ratio_source_destination goodHAL "dev" javaFormat16 true 0 0
      zeroFormat () (initConverter_goodHAL javaFormat16 true).1).2.2 rfl⟩

/-- The default format, field by field. -/
theorem getDefaultFormat_eq :
    maccoreaudio_getDefaultFormat
      = { mSampleRate := 44100, mFormatID := kAudioFormatLinearPCM
          mFormatFlags := 17, mBytesPerPacket := 8, mFramesPerPacket := 1
          mBytesPerFrame := 8, mChannelsPerFrame := 2, mBitsPerChannel := 32 } :=
  rfl

/-- C10: whenever `maccoreaudio_getDeviceFormat` returns an error and
`maccoreaudio_getDeviceFormatDeprecated` (called on what the first call left
behind) returns an error too, the device format `maccoreaudio_initConverter`
works with, and hands to `AudioConverterNew` on the device side, is the one of
`maccoreaudio_getDefaultFormat`: 44100 Hz, 2 channels, 32 valid bits of 32,
float flag set, big-endian and non-interleaved flags clear, 8 bytes per frame,
8 bytes per packet, 1 frame per packet. -/
theorem initConverter_default_on_double_failure {W : Type} (os : HAL W)
    (deviceUID : String) (javaFormat : AudioStreamBasicDescription)
    (isJavaFormatSource : Bool) (converter : Nat) (conversionRatio : ℚ)
    (deviceFormat : AudioStreamBasicDescription) (w : W)
    (h1 : (maccoreaudio_getDeviceFormat os deviceUID isJavaFormatSource
        deviceFormat w).err ≠ noErr)
    (h2 : (maccoreaudio_getDeviceFormatDeprecated os deviceUID isJavaFormatSource
        (maccoreaudio_getDeviceFormat os deviceUID isJavaFormatSource
          deviceFormat w).format
        (maccoreaudio_getDeviceFormat os deviceUID isJavaFormatSource
          deviceFormat w).world).err ≠ noErr) :
    (maccoreaudio_initConverter os deviceUID javaFormat isJavaFormatSource
        converter conversionRatio deviceFormat w).deviceFormat
      = maccoreaudio_getDefaultFormat
    ∧ (if isJavaFormatSource
        then (maccoreaudio_initConverter os deviceUID javaFormat
          isJavaFormatSource converter conversionRatio deviceFormat w).outFormat
        else (maccoreaudio_initConverter os deviceUID javaFormat
          isJavaFormatSource converter conversionRatio deviceFormat w).inFormat)
      = maccoreaudio_getDefaultFormat
    ∧ maccoreaudio_getDefaultFormat
      = FillOutASBDForLPCM 44100 2 32 32 true false false
    ∧ maccoreaudio_getDefaultFormat.mSampleRate = 44100
    ∧ maccoreaudio_getDefaultFormat.mChannelsPerFrame = 2
    ∧ maccoreaudio_getDefaultFormat.mBitsPerChannel = 32
    ∧ flagSet maccoreaudio_getDefaultFormat.mFormatFlags kAudioFormatFlagIsFloat
        = true
    ∧ flagSet maccoreaudio_getDefaultFormat.mFormatFlags
        kAudioFormatFlagIsBigEndian = false
    ∧ flagSet maccoreaudio_getDefaultFormat.mFormatFlags
        kAudioFormatFlagIsNonInterleaved = false
    ∧ maccoreaudio_getDefaultFormat.mBytesPerFrame = 8
    ∧ maccoreaudio_getDefaultFormat.mBytesPerPacket = 8
    ∧ maccoreaudio_getDefaultFormat.mFramesPerPacket = 1 := by
  have hf := initConverter_formats os deviceUID javaFormat isJavaFormatSource
    converter conversionRatio deviceFormat w
  have hd : (initConverter_deviceFormat os deviceUID isJavaFormatSource
      deviceFormat w).format = maccoreaudio_getDefaultFormat := by
    simp only [initConverter_deviceFormat]
    rw [if_pos h1, if_pos h2]
  refine ⟨by rw [hf.1, hd], ?_, rfl, rfl, rfl, rfl, by decide, by decide,
    by decide, rfl, rfl, rfl⟩
  cases isJavaFormatSource
  · rw [if_neg (by decide), hf.2.1, if_neg (by decide), hd]
  · rw [if_pos rfl, hf.2.2, if_pos rfl, hd]

/-- C10, in a system whose two format queries fail. -/
theorem initConverter_default_on_double_failure_witness :
    (maccoreaudio_getDeviceFormat noFormatHAL "dev" true zeroFormat ()).err ≠ noErr
    ∧ (maccoreaudio_getDeviceFormatDeprecated noFormatHAL "dev" true
        (maccoreaudio_getDeviceFormat noFormatHAL "dev" true zeroFormat ()).format
        (maccoreaudio_getDeviceFormat noFormatHAL "dev" true zeroFormat
          ()).world).err ≠ noErr
    ∧ (maccoreaudio_initConverter noFormatHAL "dev" javaFormat16 true 0 0
        zeroFormat ()).deviceFormat = maccoreaudio_getDefaultFormat :=
  ⟨by decide, by decide,
    (initConverter_default_on_double_failure noFormatHAL "dev" javaFormat16 true
      0 0 zeroFormat () (by decide) (by decide)).1⟩

/-! ## Theorems: the real-time handlers -/

/-- Without the lock, or on a stream whose registration is null, the input
handler neither converts nor calls back. -/
theorem readInputStream_idle {W : Type} (rt : RealTime W)
    (stream : maccoreaudio_stream) (inInputData : List AudioBuffer)
    (tmpBuffer : Bytes) (w : W)
    (h : ¬ ((pthread_mutex_trylock rt stream.mutex w).ret = 0
      ∧ stream.ioProcId ≠ 0)) :
    ∀ e ∈ (maccoreaudio_readInputStream rt stream inInputData tmpBuffer w).trace,
      e.isConvert = false ∧ e.isCallback = false := by
  intro e he
  simp only [maccoreaudio_readInputStream] at he
  split_ifs at he with h1 h2 h3 h4 h5 <;>
    first
      | (exfalso; apply h; constructor <;> assumption)
      | (simp at he
         rcases he with rfl | rfl | rfl <;> exact ⟨rfl, rfl⟩)

/-- Without the lock, or on a stream whose registration is null, the output
handler neither converts nor calls back. -/
theorem writeOutputStream_idle {W : Type} (rt : RealTime W)
    (stream : maccoreaudio_stream) (outOutputData : List AudioBuffer)
    (tmpBuffer : Bytes) (w : W)
    (h : ¬ ((pthread_mutex_trylock rt stream.mutex w).ret = 0
      ∧ stream.ioProcId ≠ 0)) :
    ∀ e ∈ (maccoreaudio_writeOutputStream rt stream outOutputData tmpBuffer
        w).trace,
      e.isConvert = false ∧ e.isCallback = false := by
  intro e he
  cases outOutputData with
  | nil => simp [maccoreaudio_writeOutputStream] at he
  | cons b0 rest =>
    simp only [maccoreaudio_writeOutputStream] at he
    split_ifs at he with h1 h2 h3 h4 h5 <;>
      first
        | (exfalso; apply h; constructor <;> assumption)
        | (simp at he
           rcases he with rfl | rfl | rfl <;> exact ⟨rfl, rfl⟩)

/-- C1: in a cycle of `maccoreaudio_readInputStream` or of
`maccoreaudio_writeOutputStream`, for every stream state and buffer list, the
converter or the application callback is invoked only if the non-blocking
lock attempt returned 0 and `ioProcId` is non-zero; on a stream whose
`ioProcId` is 0, as `stop` leaves it, neither handler invokes either. -/
theorem handlers_gate {W : Type} (rt : RealTime W)
    (stream : maccoreaudio_stream) (buffers : List AudioBuffer)
    (tmpBuffer : Bytes) (w : W) :
    ((∃ e ∈ (maccoreaudio_readInputStream rt stream buffers tmpBuffer w).trace,
        e.isConvert = true ∨ e.isCallback = true) →
      (pthread_mutex_trylock rt stream.mutex w).ret = 0 ∧ stream.ioProcId ≠ 0)
    ∧ ((∃ e ∈ (maccoreaudio_writeOutputStream rt stream buffers tmpBuffer
          w).trace,
        e.isConvert = true ∨ e.isCallback = true) →
      (pthread_mutex_trylock rt stream.mutex w).ret = 0 ∧ stream.ioProcId ≠ 0)
    ∧ (stream.ioProcId = 0 →
      (∀ e ∈ (maccoreaudio_readInputStream rt stream buffers tmpBuffer w).trace,
        e.isConvert = false ∧ e.isCallback = false)
      ∧ (∀ e ∈ (maccoreaudio_writeOutputStream rt stream buffers tmpBuffer
          w).trace,
        e.isConvert = false ∧ e.isCallback = false)) := by
  refine ⟨?_, ?_, ?_⟩
  · rintro ⟨e, he, hc⟩
    by_contra hn
    have := readInputStream_idle rt stream buffers tmpBuffer w hn e he
    rcases hc with hc | hc
    · rw [this.1] at hc
      exact Bool.noConfusion hc
    · rw [this.2] at hc
      exact Bool.noConfusion hc
  · rintro ⟨e, he, hc⟩
    by_contra hn
    have := writeOutputStream_idle rt stream buffers tmpBuffer w hn e he
    rcases hc with hc | hc
    · rw [this.1] at hc
      exact Bool.noConfusion hc
    · rw [this.2] at hc
      exact Bool.noConfusion hc
  · intro h0
    exact ⟨readInputStream_idle rt stream buffers tmpBuffer w
        (fun h => h.2 h0),
      writeOutputStream_idle rt stream buffers tmpBuffer w (fun h => h.2 h0)⟩

/-- C1, on a running stream with a free mutex and one buffer of 960 bytes:
both handlers do run the converter, the lock attempt returned 0 and the
registration is non-zero. -/
theorem handlers_gate_witness :
    (∃ e ∈ (maccoreaudio_readInputStream plainRT (liveStream (147 / 320))
          [constBuffer 960 0] (fun _ => 0) ()).trace,
        e.isConvert = true ∨ e.isCallback = true)
    ∧ (∃ e ∈ (maccoreaudio_writeOutputStream plainRT (liveStream (147 / 320))
          [constBuffer 960 0] (fun _ => 0) ()).trace,
        e.isConvert = true ∨ e.isCallback = true)
    ∧ ((pthread_mutex_trylock plainRT (liveStream (147 / 320)).mutex ()).ret = 0
      ∧ (liveStream (147 / 320)).ioProcId ≠ 0) := by
  have h : ∃ e ∈ (maccoreaudio_readInputStream plainRT (liveStream (147 / 320))
      [constBuffer 960 0] (fun _ => 0) ()).trace,
      e.isConvert = true ∨ e.isCallback = true := by
    simp [maccoreaudio_readInputStream, readInputStream_loop,
      pthread_mutex_trylock, pthread_mutex_unlock, plainRT, liveStream,
      constBuffer, noErr, Event.isConvert, Event.isCallback]
  have h2 : ∃ e ∈ (maccoreaudio_writeOutputStream plainRT (liveStream (147 / 320))
      [constBuffer 960 0] (fun _ => 0) ()).trace,
      e.isConvert = true ∨ e.isCallback = true := by
    simp [maccoreaudio_writeOutputStream,
      pthread_mutex_trylock, pthread_mutex_unlock, plainRT, liveStream,
      constBuffer, noErr, Event.isConvert, Event.isCallback]
  exact ⟨h, h2,
    (handlers_gate plainRT (liveStream (147 / 320)) [constBuffer 960 0]
      (fun _ => 0) ()).1 h⟩

/-- One pass of the replication loop: the size field of the additional buffer
is kept, its first `min N M` bytes are those of the first buffer, and the
bytes from `N` up to `M` are zero. -/
theorem writeOutputStream_copy_spec (b0 b : AudioBuffer) :
    (writeOutputStream_copy b0 b).mDataByteSize = b.mDataByteSize
    ∧ (∀ k, k < min b0.mDataByteSize b.mDataByteSize →
        (writeOutputStream_copy b0 b).bytes k = b0.bytes k)
    ∧ (∀ k, b0.mDataByteSize ≤ k → k < b.mDataByteSize →
        (writeOutputStream_copy b0 b).bytes k = 0) := by
  unfold writeOutputStream_copy
  by_cases hgt : b.mDataByteSize > b0.mDataByteSize
  · simp only [hgt, if_true]
    refine ⟨trivial, ?_, ?_⟩
    · intro k hk
      have hk0 : k < b0.mDataByteSize := lt_of_lt_of_le hk (min_le_left _ _)
      have hn : ¬ (b0.mDataByteSize ≤ k
          ∧ k < b0.mDataByteSize + (b.mDataByteSize - b0.mDataByteSize)) :=
        fun h => absurd hk0 (not_lt.mpr h.1)
      simp only [memset, memcpy, if_neg hn, if_pos hk0]
    · intro k h1 h2
      have hp : b0.mDataByteSize ≤ k
          ∧ k < b0.mDataByteSize + (b.mDataByteSize - b0.mDataByteSize) :=
        ⟨h1, by omega⟩
      simp only [memset, if_pos hp]
  · simp only [hgt, if_false]
    refine ⟨trivial, ?_, ?_⟩
    · intro k hk
      have hk1 : k < b.mDataByteSize := lt_of_lt_of_le hk (min_le_right _ _)
      simp only [memcpy, if_pos hk1]
    · intro k h1 h2
      omega

/-- On every path of the output handler that returns `noErr` with at least one
buffer, the buffer list it leaves is a first buffer followed by the additional
buffers, each passed through the replication loop against that first buffer. -/
theorem writeOutputStream_buffers {W : Type} (rt : RealTime W)
    (stream : maccoreaudio_stream) (b0 : AudioBuffer) (rest : List AudioBuffer)
    (tmpBuffer : Bytes) (w : W)
    (h : (maccoreaudio_writeOutputStream rt stream (b0 :: rest) tmpBuffer
        w).ret = noErr) :
    ∃ b1, (maccoreaudio_writeOutputStream rt stream (b0 :: rest) tmpBuffer
        w).buffers = b1 :: rest.map (writeOutputStream_copy b1) := by
  simp only [maccoreaudio_writeOutputStream] at h ⊢
  split_ifs at h ⊢ <;>
    first
      | exact ⟨_, rfl⟩
      | contradiction

/-- C2: on every path of `maccoreaudio_writeOutputStream` that reaches the
replication loop (the handler returns `noErr` exactly on those paths and on
the return for an empty list), for every additional buffer `i + 1` with
capacity `M`, unchanged by the handler, and with `N` the final size of buffer
0, the first `min N M` bytes of buffer `i + 1` equal those of buffer 0, and the
bytes at the offsets `N .. M - 1` of buffer `i + 1` are zero. -/
theorem writeOutputStream_replication {W : Type} (rt : RealTime W)
    (stream : maccoreaudio_stream) (outOutputData : List AudioBuffer)
    (tmpBuffer : Bytes) (w : W) (i : Nat) (first other : AudioBuffer)
    (h : (maccoreaudio_writeOutputStream rt stream outOutputData tmpBuffer
        w).ret = noErr)
    (h0 : (maccoreaudio_writeOutputStream rt stream outOutputData tmpBuffer
        w).buffers[0]? = some first)
    (hi : (maccoreaudio_writeOutputStream rt stream outOutputData tmpBuffer
        w).buffers[i + 1]? = some other) :
    (outOutputData[i + 1]?).map AudioBuffer.mDataByteSize
      = some other.mDataByteSize
    ∧ (∀ k, k < min first.mDataByteSize other.mDataByteSize →
        other.bytes k = first.bytes k)
    ∧ (∀ k, first.mDataByteSize ≤ k → k < other.mDataByteSize →
        other.bytes k = 0) := by
  cases outOutputData with
  | nil => simp [maccoreaudio_writeOutputStream] at h0
  | cons b0 rest =>
    obtain ⟨b1, hb⟩ := writeOutputStream_buffers rt stream b0 rest tmpBuffer w h
    rw [hb] at h0 hi
    simp only [List.getElem?_cons_zero, Option.some.injEq] at h0
    subst h0
    simp only [List.getElem?_cons_succ, List.getElem?_map] at hi ⊢
    cases hr : rest[i]? with
    | none => simp [hr] at hi
    | some b =>
      simp only [hr, Option.map_some', Option.some.injEq] at hi ⊢
      subst hi
      have hs := writeOutputStream_copy_spec b1 b
      exact ⟨hs.1.symm, by rw [hs.1]; exact hs.2.1, by rw [hs.1]; exact hs.2.2⟩

/-- The cycle of the output handler on `liveStream (1 / 2)` in `plainRT` with
buffers of 8 and 12 bytes. -/
theorem writeOutputStream_example :
    (maccoreaudio_writeOutputStream plainRT (liveStream (1 / 2))
        [constBuffer 8 1, constBuffer 12 2] (fun _ => 0) ()).ret = noErr
    ∧ (maccoreaudio_writeOutputStream plainRT (liveStream (1 / 2))
        [constBuffer 8 1, constBuffer 12 2] (fun _ => 0) ()).buffers
      = [filledBuffer, writeOutputStream_copy filledBuffer (constBuffer 12 2)] := by
  have ht : (truncate ((8 : ℚ) * 2⁻¹) % 4294967296).toNat = 4 := by
    have h4 : truncate ((8 : ℚ) * 2⁻¹) = 4 := by norm_num [truncate]
    rw [h4]
    rfl
  constructor
  · simp [maccoreaudio_writeOutputStream, pthread_mutex_trylock,
      pthread_mutex_unlock, plainRT, liveStream, constBuffer, noErr]
  · simp [maccoreaudio_writeOutputStream, pthread_mutex_trylock,
      pthread_mutex_unlock, plainRT, liveStream, constBuffer, noErr, ht,
      uint32OfInt, filledBuffer]

/-- C2, on a running stream with a first buffer of 8 bytes, of which the cycle
fills 4, and a second buffer of 12 bytes: the second buffer keeps its size,
starts with the 4 bytes of the first and is zero from offset 4 to offset 11. -/
theorem writeOutputStream_replication_witness :
    (maccoreaudio_writeOutputStream plainRT (liveStream (1 / 2))
        [constBuffer 8 1, constBuffer 12 2] (fun _ => 0) ()).ret = noErr
    ∧ ([constBuffer 8 1, constBuffer 12 2][0 + 1]?).map AudioBuffer.mDataByteSize
        = some (writeOutputStream_copy filledBuffer
            (constBuffer 12 2)).mDataByteSize
    ∧ (∀ k, k < min filledBuffer.mDataByteSize
          (writeOutputStream_copy filledBuffer (constBuffer 12 2)).mDataByteSize →
        (writeOutputStream_copy filledBuffer (constBuffer 12 2)).bytes k
          = filledBuffer.bytes k)
    ∧ (∀ k, filledBuffer.mDataByteSize ≤ k →
        k < (writeOutputStream_copy filledBuffer (constBuffer 12 2)).mDataByteSize →
        (writeOutputStream_copy filledBuffer (constBuffer 12 2)).bytes k = 0) :=
  ⟨writeOutputStream_example.1,
    writeOutputStream_replication plainRT (liveStream (1 / 2))
      [constBuffer 8 1, constBuffer 12 2] (fun _ => 0) () 0 filledBuffer
      (writeOutputStream_copy filledBuffer (constBuffer 12 2))
      writeOutputStream_example.1
      (by rw [writeOutputStream_example.2]; rfl)
      (by rw [writeOutputStream_example.2]; rfl)⟩

/-- The lengths the output handler passes to the application callback: none
without the lock or on a stream whose registration is null, and otherwise the
one value (size of the first buffer times the ratio), truncated. -/
theorem writeOutputStream_callbackLengths {W : Type} (rt : RealTime W)
    (stream : maccoreaudio_stream) (b0 : AudioBuffer) (rest : List AudioBuffer)
    (tmpBuffer : Bytes) (w : W) :
    callbackLengths (maccoreaudio_writeOutputStream rt stream (b0 :: rest)
        tmpBuffer w).trace
      = if (pthread_mutex_trylock rt stream.mutex w).ret = 0
            ∧ stream.ioProcId ≠ 0
        then [truncate ((b0.mDataByteSize : ℚ) * stream.conversionRatio)]
        else [] := by
  simp only [maccoreaudio_writeOutputStream, callbackLengths]
  split_ifs <;> simp_all [Event.callbackLength]

/-- The scratch length for 960 device bytes at the ratio 147/320. -/
theorem truncate_960 : truncate ((960 : ℚ) * (147 / 320)) = 441 := by
  norm_num [truncate]

/-- The same length under IEEE binary64 arithmetic.  Let `r` be any value
within half a unit in the last place of 147/320 (which is what the rounded
quotient of 176400 by 384000 is), and let `p` be a binary64 value from 256
upwards, hence a multiple of `2 ^ (-44)`, that is at least as near to
`960 * r` as the binary64 value 441 is (which is what the rounded product
is).  Then `p` is 441, and its truncation is 441. -/
theorem truncate_960_binary64 (r p : ℚ) (k : ℤ)
    (hr : |r - 147 / 320| ≤ 1 / 2 ^ 55) (hp : p = k / 2 ^ 44)
    (hn : |p - 960 * r| ≤ |441 - 960 * r|) : truncate p = 441 := by
  have h1 : |p - 441| ≤ 2 * |441 - 960 * r| := by
    calc |p - 441| = |(p - 960 * r) + (960 * r - 441)| := by ring_nf
      _ ≤ |p - 960 * r| + |960 * r - 441| := abs_add _ _
      _ ≤ 2 * |441 - 960 * r| := by
        rw [abs_sub_comm (960 * r) 441]
        linarith
  have h2 : |441 - 960 * r| = 960 * |r - 147 / 320| := by
    rw [show (441 : ℚ) - 960 * r = -(960 * (r - 147 / 320)) by ring, abs_neg,
      abs_mul]
    norm_num
  have h3 : |p - 441| < 1 / 2 ^ 44 := by
    rw [h2] at h1
    have : (2 : ℚ) * (960 * (1 / 2 ^ 55)) < 1 / 2 ^ 44 := by norm_num
    linarith
  have h4 := abs_lt.mp h3
  have hk : k = 441 * 2 ^ 44 := by
    rw [hp] at h4
    have h5 : (k : ℚ) / 2 ^ 44 * 2 ^ 44 = k := by field_simp
    have ha : ((441 * 2 ^ 44 - 1 : ℤ) : ℚ) < (k : ℚ) := by
      have := h4.1
      push_cast
      nlinarith
    have hb : (k : ℚ) < ((441 * 2 ^ 44 + 1 : ℤ) : ℚ) := by
      have := h4.2
      push_cast
      nlinarith
    have ha1 : 441 * 2 ^ 44 - 1 < k := by exact_mod_cast ha
    have hb1 : k < 441 * 2 ^ 44 + 1 := by exact_mod_cast hb
    omega
  have hp1 : p = 441 := by
    rw [hp, hk]
    push_cast
    norm_num
  rw [hp1]
  norm_num [truncate]

/-- C7, refuted: for the stream set up by `maccoreaudio_initConverter` with the
application format 44100 Hz / 2 ch / 16-bit integer against the device format
48000 Hz / 2 ch / 32-bit float, the output handler, given a first buffer of
960 bytes, calls the application callback once, with the length 441 and not
440. -/
theorem writeOutputStream_scratch_length_not_440 :
    (maccoreaudio_initConverter goodHAL "dev" javaFormat16 true 0 0 zeroFormat
        ()).err = noErr
    ∧ (maccoreaudio_initConverter goodHAL "dev" javaFormat16 true 0 0 zeroFormat
        ()).deviceFormat = deviceFormat48
    ∧ callbackLengths (maccoreaudio_writeOutputStream plainRT
        (liveStream (maccoreaudio_initConverter goodHAL "dev" javaFormat16 true
          0 0 zeroFormat ()).conversionRatio)
        [constBuffer 960 0] (fun _ => 0) ()).trace = [441]
    ∧ callbackLengths (maccoreaudio_writeOutputStream plainRT
        (liveStream (maccoreaudio_initConverter goodHAL "dev" javaFormat16 true
          0 0 zeroFormat ()).conversionRatio)
        [constBuffer 960 0] (fun _ => 0) ()).trace ≠ [440] := by
  have hr : (maccoreaudio_initConverter goodHAL "dev" javaFormat16 true 0 0
      zeroFormat ()).conversionRatio = 147 / 320 := by
    rw [initConverter_ratio_eq goodHAL "dev" javaFormat16 true 0 0 zeroFormat ()
      (initConverter_goodHAL javaFormat16 true).1,
      ← (initConverter_formats goodHAL "dev" javaFormat16 true 0 0 zeroFormat
        ()).1,
      (initConverter_goodHAL javaFormat16 true).2, example_byte_rates.1,
      example_byte_rates.2]
    norm_num
  have hl : callbackLengths (maccoreaudio_writeOutputStream plainRT
      (liveStream (maccoreaudio_initConverter goodHAL "dev" javaFormat16 true
        0 0 zeroFormat ()).conversionRatio)
      [constBuffer 960 0] (fun _ => 0) ()).trace = [441] := by
    rw [writeOutputStream_callbackLengths, hr,
      if_pos (show (pthread_mutex_trylock plainRT
          (liveStream (147 / 320)).mutex ()).ret = 0
        ∧ (liveStream (147 / 320)).ioProcId ≠ 0 from ⟨rfl, by decide⟩)]
    show [truncate (((960 : ℕ) : ℚ) * (147 / 320))] = [441]
    rw [Nat.cast_ofNat, truncate_960]
  refine ⟨(initConverter_goodHAL javaFormat16 true).1,
    (initConverter_goodHAL javaFormat16 true).2, hl, ?_⟩
  rw [hl]
  decide

/-- C7, amended: for a stream whose ratio was stored by
`maccoreaudio_initConverter` for the application format 44100 Hz / 2 ch /
16-bit integer, little endian, interleaved, against the device format
48000 Hz / 2 ch / 32-bit float, interleaved, `maccoreaudio_writeOutputStream`
given a first output buffer of 960 bytes passes no other length than 441 to
the application callback, and passes it exactly once when it holds the lock
and the registration is live. -/
theorem writeOutputStream_scratch_length {V W : Type} (os : HAL V)
    (deviceUID : String) (converter : Nat) (conversionRatio : ℚ)
    (deviceFormat : AudioStreamBasicDescription) (v : V) (rt : RealTime W)
    (stream : maccoreaudio_stream) (b0 : AudioBuffer) (rest : List AudioBuffer)
    (tmpBuffer : Bytes) (w : W)
    (hs : (maccoreaudio_initConverter os deviceUID javaFormat16 true converter
        conversionRatio deviceFormat v).err = noErr)
    (hd : (maccoreaudio_initConverter os deviceUID javaFormat16 true converter
        conversionRatio deviceFormat v).deviceFormat = deviceFormat48)
    (hr : stream.conversionRatio
      = (maccoreaudio_initConverter os deviceUID javaFormat16 true converter
        conversionRatio deviceFormat v).conversionRatio)
    (hb : b0.mDataByteSize = 960) :
    (∀ l ∈ callbackLengths (maccoreaudio_writeOutputStream rt stream
        (b0 :: rest) tmpBuffer w).trace, l = 441)
    ∧ ((pthread_mutex_trylock rt stream.mutex w).ret = 0 →
        stream.ioProcId ≠ 0 →
        callbackLengths (maccoreaudio_writeOutputStream rt stream (b0 :: rest)
          tmpBuffer w).trace = [441]) := by
  have hq : stream.conversionRatio = 147 / 320 := by
    rw [hr, initConverter_ratio_eq os deviceUID javaFormat16 true converter
      conversionRatio deviceFormat v hs,
      ← (initConverter_formats os deviceUID javaFormat16 true converter
        conversionRatio deviceFormat v).1,
      hd, example_byte_rates.1, example_byte_rates.2]
    norm_num
  have ht : truncate ((b0.mDataByteSize : ℚ) * stream.conversionRatio) = 441 := by
    rw [hb, hq, Nat.cast_ofNat, truncate_960]
  rw [writeOutputStream_callbackLengths, ht]
  constructor
  · intro l hl
    split_ifs at hl
    · simpa using hl
    · simp at hl
  · intro h1 h2
    rw [if_pos ⟨h1, h2⟩]

/-- C7 amended, in the system `goodHAL` with the environment `plainRT`. -/
theorem writeOutputStream_scratch_length_witness :
    (maccoreaudio_initConverter goodHAL "dev" javaFormat16 true 0 0 zeroFormat
        ()).err = noErr
    ∧ (maccoreaudio_initConverter goodHAL "dev" javaFormat16 true 0 0 zeroFormat
        ()).deviceFormat = deviceFormat48
    ∧ (constBuffer 960 0).mDataByteSize = 960
    ∧ callbackLengths (maccoreaudio_writeOutputStream plainRT
        (liveStream (maccoreaudio_initConverter goodHAL "dev" javaFormat16 true
          0 0 zeroFormat ()).conversionRatio)
        (constBuffer 960 0 :: []) (fun _ => 0) ()).trace = [441] :=
  ⟨(initConverter_goodHAL javaFormat16 true).1,
    (initConverter_goodHAL javaFormat16 true).2, rfl,
    (writeOutputStream_scratch_length goodHAL "dev" 0 0 zeroFormat () plainRT
      (liveStream (maccoreaudio_initConverter goodHAL "dev" javaFormat16 true
        0 0 zeroFormat ()).conversionRatio)
      (constBuffer 960 0) [] (fun _ => 0) ()
      (initConverter_goodHAL javaFormat16 true).1
      (initConverter_goodHAL javaFormat16 true).2 rfl rfl).2 rfl (by decide)⟩

/-! ## Theorems: the output handler, path by path -/

/-- The output handler when the lock attempt fails. -/
theorem writeOutputStream_of_contention {W : Type} (rt : RealTime W)
    (stream : maccoreaudio_stream) (b0 : AudioBuffer) (rest : List AudioBuffer)
    (tmpBuffer : Bytes) (w : W)
    (h : (pthread_mutex_trylock rt stream.mutex w).ret ≠ 0) :
    maccoreaudio_writeOutputStream rt stream (b0 :: rest) tmpBuffer w
      = { ret := noErr
          stream := { stream with
            mutex := (pthread_mutex_trylock rt stream.mutex w).mutex }
          buffers := { b0 with mDataByteSize := 0 }
            :: rest.map (writeOutputStream_copy { b0 with mDataByteSize := 0 })
          world := (pthread_mutex_trylock rt stream.mutex w).world
          trace := [.pthread_mutex_trylock]
            ++ (if (pthread_mutex_trylock rt stream.mutex w).ret ≠ EBUSY then
                [.maccoreaudio_log "maccoreaudio_writeOutputStream: pthread_mutex_lock"]
              else []) } := by
  simp only [maccoreaudio_writeOutputStream]
  rw [if_neg h]

/-- The output handler on a live stream whose lock attempt succeeds: the
returned status, the first buffer and the calls made. -/
theorem writeOutputStream_of_live {W : Type} (rt : RealTime W)
    (stream : maccoreaudio_stream) (b0 : AudioBuffer) (rest : List AudioBuffer)
    (tmpBuffer : Bytes) (w : W)
    (hl : (pthread_mutex_trylock rt stream.mutex w).ret = 0)
    (hi : stream.ioProcId ≠ 0) :
    (maccoreaudio_writeOutputStream rt stream (b0 :: rest) tmpBuffer w).ret
      = (writeOutputStream_conversion rt stream b0 tmpBuffer w).1.1
    ∧ (maccoreaudio_writeOutputStream rt stream (b0 :: rest) tmpBuffer
        w).buffers.head?
      = some { b0 with
          mDataByteSize :=
            (writeOutputStream_conversion rt stream b0 tmpBuffer w).1.2.1
          bytes :=
            if (writeOutputStream_conversion rt stream b0 tmpBuffer w).1.1
                ≠ noErr then
              memset (writeOutputStream_conversion rt stream b0 tmpBuffer
                w).1.2.2 0 0
                (writeOutputStream_conversion rt stream b0 tmpBuffer w).1.2.1
            else (writeOutputStream_conversion rt stream b0 tmpBuffer w).1.2.2 }
    ∧ ∃ tail,
        (maccoreaudio_writeOutputStream rt stream (b0 :: rest) tmpBuffer w).trace
          = [.pthread_mutex_trylock,
              .callbackFunction stream.callbackFunction tmpBuffer
                (writeOutputStream_tmpLength stream b0) stream.callbackObject
                stream.callbackMethod,
              .AudioConverterConvertBuffer stream.converter
                (uint32OfInt (writeOutputStream_tmpLength stream b0))
                (writeOutputStream_callback rt stream b0 tmpBuffer w).1
                b0.mDataByteSize] ++ tail
        ∧ ∀ e ∈ tail, e.isConvert = false ∧ e.isCallback = false := by
  simp only [maccoreaudio_writeOutputStream, writeOutputStream_conversion,
    writeOutputStream_callback, writeOutputStream_tmpLength]
  rw [if_pos hl, if_pos hi]
  split_ifs with h1 h2
  · refine ⟨rfl, rfl, _, rfl, ?_⟩
    intro e he
    simp at he
    rcases he with rfl | rfl <;> exact ⟨rfl, rfl⟩
  · refine ⟨(not_not.mp h1).symm, rfl, _, rfl, ?_⟩
    intro e he
    simp at he
    rcases he with rfl | rfl <;> exact ⟨rfl, rfl⟩
  · refine ⟨(not_not.mp h1).symm, rfl, _, rfl, ?_⟩
    intro e he
    simp at he
    subst he
    exact ⟨rfl, rfl⟩

/-- C11: for every non-zero result of the lock attempt, `EBUSY` or any other,
and every output buffer list with at least one buffer,
`maccoreaudio_writeOutputStream` sets `mBuffers[0].mDataByteSize` to 0, invokes
neither the application callback nor the converter, and returns `noErr`. -/
theorem writeOutputStream_contention {W : Type} (rt : RealTime W)
    (stream : maccoreaudio_stream) (b0 : AudioBuffer) (rest : List AudioBuffer)
    (tmpBuffer : Bytes) (w : W)
    (h : (pthread_mutex_trylock rt stream.mutex w).ret ≠ 0) :
    (maccoreaudio_writeOutputStream rt stream (b0 :: rest) tmpBuffer w).ret
      = noErr
    ∧ (maccoreaudio_writeOutputStream rt stream (b0 :: rest) tmpBuffer
        w).buffers.head?.map AudioBuffer.mDataByteSize = some 0
    ∧ ∀ e ∈ (maccoreaudio_writeOutputStream rt stream (b0 :: rest) tmpBuffer
        w).trace, e.isConvert = false ∧ e.isCallback = false := by
  refine ⟨?_, ?_, ?_⟩
  · rw [writeOutputStream_of_contention rt stream b0 rest tmpBuffer w h]
  · rw [writeOutputStream_of_contention rt stream b0 rest tmpBuffer w h]
    rfl
  · exact writeOutputStream_idle rt stream (b0 :: rest) tmpBuffer w
      (fun hc => h hc.1)

/-- C11, on a stream whose mutex is held (the lock attempt returns `EBUSY`)
and, with a free mutex, in an environment whose mutex operations fail with
another error. -/
theorem writeOutputStream_contention_witness :
    (pthread_mutex_trylock plainRT heldStream.mutex ()).ret = EBUSY
    ∧ (maccoreaudio_writeOutputStream plainRT heldStream
        (constBuffer 8 1 :: [constBuffer 12 2]) (fun _ => 0) ()).ret = noErr
    ∧ (pthread_mutex_trylock faultyRT (liveStream 1).mutex ()).ret = 22
    ∧ (maccoreaudio_writeOutputStream faultyRT (liveStream 1)
        (constBuffer 8 1 :: [constBuffer 12 2]) (fun _ => 0)
        ()).buffers.head?.map AudioBuffer.mDataByteSize = some 0 :=
  ⟨rfl,
    (writeOutputStream_contention plainRT heldStream (constBuffer 8 1)
      [constBuffer 12 2] (fun _ => 0) () (by decide)).1,
    rfl,
    (writeOutputStream_contention faultyRT (liveStream 1) (constBuffer 8 1)
      [constBuffer 12 2] (fun _ => 0) () (by decide)).2.1⟩

/-- C12: when the lock is acquired, `ioProcId` is non-zero and there is at
least one output buffer, `maccoreaudio_writeOutputStream` calls the
application callback exactly once, before the converter, with the scratch
buffer, the length (size of the first buffer times the ratio) truncated to an
integer, and the `callbackObject` and `callbackMethod` of the stream; it then
runs the converter exactly once, with that length (converted to `UInt32`,
which leaves any length from 0 up to `2 ^ 32 - 1` as it is) as the source size,
the scratch buffer as the callback left it as the source, and the first
output buffer as the destination, whose size becomes the one the converter
reports. -/
theorem writeOutputStream_live {W : Type} (rt : RealTime W)
    (stream : maccoreaudio_stream) (b0 : AudioBuffer) (rest : List AudioBuffer)
    (tmpBuffer : Bytes) (w : W)
    (hl : (pthread_mutex_trylock rt stream.mutex w).ret = 0)
    (hi : stream.ioProcId ≠ 0) :
    (∃ tail,
        (maccoreaudio_writeOutputStream rt stream (b0 :: rest) tmpBuffer w).trace
          = [.pthread_mutex_trylock,
              .callbackFunction stream.callbackFunction tmpBuffer
                (writeOutputStream_tmpLength stream b0) stream.callbackObject
                stream.callbackMethod,
              .AudioConverterConvertBuffer stream.converter
                (uint32OfInt (writeOutputStream_tmpLength stream b0))
                (rt.callbackFunction stream.callbackFunction tmpBuffer
                  (writeOutputStream_tmpLength stream b0) stream.callbackObject
                  stream.callbackMethod
                  (pthread_mutex_trylock rt stream.mutex w).world).1
                b0.mDataByteSize] ++ tail
        ∧ ∀ e ∈ tail, e.isConvert = false ∧ e.isCallback = false)
    ∧ writeOutputStream_tmpLength stream b0
      = truncate ((b0.mDataByteSize : ℚ) * stream.conversionRatio)
    ∧ (0 ≤ writeOutputStream_tmpLength stream b0 →
        writeOutputStream_tmpLength stream b0 < 2 ^ 32 →
        ((uint32OfInt (writeOutputStream_tmpLength stream b0) : Nat) : Int)
          = writeOutputStream_tmpLength stream b0)
    ∧ (maccoreaudio_writeOutputStream rt stream (b0 :: rest) tmpBuffer
        w).buffers.head?.map AudioBuffer.mDataByteSize
      = some (rt.AudioConverterConvertBuffer stream.converter
          (uint32OfInt (writeOutputStream_tmpLength stream b0))
          (writeOutputStream_callback rt stream b0 tmpBuffer w).1
          b0.mDataByteSize b0.bytes
          (writeOutputStream_callback rt stream b0 tmpBuffer w).2).1.2.1 := by
  have h := writeOutputStream_of_live rt stream b0 rest tmpBuffer w hl hi
  refine ⟨h.2.2, rfl, ?_, ?_⟩
  · intro h0 h1
    unfold uint32OfInt
    rw [Int.emod_eq_of_lt h0 h1, Int.toNat_of_nonneg h0]
  · rw [h.2.1]
    rfl

/-- C12, on the running stream of the end-to-end scenario with one buffer of
960 bytes: the callback is asked for 441 bytes and the converter is given 441
bytes. -/
theorem writeOutputStream_live_witness :
    (pthread_mutex_trylock plainRT (liveStream (147 / 320)).mutex ()).ret = 0
    ∧ (liveStream (147 / 320)).ioProcId ≠ 0
    ∧ writeOutputStream_tmpLength (liveStream (147 / 320)) (constBuffer 960 0)
      = 441
    ∧ ∃ tail,
        (maccoreaudio_writeOutputStream plainRT (liveStream (147 / 320))
          (constBuffer 960 0 :: []) (fun _ => 0) ()).trace
          = [.pthread_mutex_trylock,
              .callbackFunction 11 (fun _ => 0)
                (writeOutputStream_tmpLength (liveStream (147 / 320))
                  (constBuffer 960 0)) 12 13,
              .AudioConverterConvertBuffer 99
                (uint32OfInt (writeOutputStream_tmpLength
                  (liveStream (147 / 320)) (constBuffer 960 0)))
                (fun _ => 7) 960] ++ tail
        ∧ ∀ e ∈ tail, e.isConvert = false ∧ e.isCallback = false :=
  ⟨rfl, by decide,
    by
      show truncate (((960 : ℕ) : ℚ) * (147 / 320)) = 441
      rw [Nat.cast_ofNat]
      norm_num [truncate],
    (writeOutputStream_live plainRT (liveStream (147 / 320)) (constBuffer 960 0)
      [] (fun _ => 0) () rfl (by decide)).1⟩

/-- C14: when the converter returns an error in
`maccoreaudio_writeOutputStream`, the first output buffer, with the size the
converter left in `mDataByteSize`, holds the byte 0 at every offset from 0 to
`mDataByteSize - 1` when the handler returns. -/
theorem writeOutputStream_silence {W : Type} (rt : RealTime W)
    (stream : maccoreaudio_stream) (b0 : AudioBuffer) (rest : List AudioBuffer)
    (tmpBuffer : Bytes) (w : W)
    (hl : (pthread_mutex_trylock rt stream.mutex w).ret = 0)
    (hi : stream.ioProcId ≠ 0)
    (hf : (writeOutputStream_conversion rt stream b0 tmpBuffer w).1.1 ≠ noErr) :
    ∃ b, (maccoreaudio_writeOutputStream rt stream (b0 :: rest) tmpBuffer
          w).buffers.head? = some b
      ∧ b.mDataByteSize
        = (writeOutputStream_conversion rt stream b0 tmpBuffer w).1.2.1
      ∧ ∀ k, k < b.mDataByteSize → b.bytes k = 0 := by
  have h := writeOutputStream_of_live rt stream b0 rest tmpBuffer w hl hi
  refine ⟨_, h.2.1, rfl, ?_⟩
  intro k hk
  simp only [if_pos hf, memset]
  rw [if_pos ⟨Nat.zero_le k, by simpa using hk⟩]

/-- C14, on a running stream whose converter fails: the 8 bytes of the first
buffer, all 1 before the cycle, are all 0 after it. -/
theorem writeOutputStream_silence_witness :
    (pthread_mutex_trylock failingRT (liveStream 1).mutex ()).ret = 0
    ∧ (liveStream 1).ioProcId ≠ 0
    ∧ (writeOutputStream_conversion failingRT (liveStream 1) (constBuffer 8 1)
        (fun _ => 0) ()).1.1 ≠ noErr
    ∧ ∃ b, (maccoreaudio_writeOutputStream failingRT (liveStream 1)
          (constBuffer 8 1 :: []) (fun _ => 0) ()).buffers.head? = some b
      ∧ b.mDataByteSize
        = (writeOutputStream_conversion failingRT (liveStream 1)
            (constBuffer 8 1) (fun _ => 0) ()).1.2.1
      ∧ ∀ k, k < b.mDataByteSize → b.bytes k = 0 :=
  ⟨rfl, by decide, by decide,
    writeOutputStream_silence failingRT (liveStream 1) (constBuffer 8 1) []
      (fun _ => 0) () rfl (by decide) (by decide)⟩

/-! ## Theorems: the input handler -/

/-- Once a conversion has failed, the remaining buffers change nothing. -/
theorem inputCycle_foldl_failed {W : Type} (rt : RealTime W)
    (stream : maccoreaudio_stream) (bufs : List AudioBuffer) (s : InputCycle W)
    (e : OSStatus) (h : s.failed = some e) :
    bufs.foldl (inputCycle_step rt stream) s = s := by
  induction bufs with
  | nil => rfl
  | cons b bs ih =>
    have hs : inputCycle_step rt stream s b = s := by
      unfold inputCycle_step
      rw [h]
    rw [List.foldl_cons, hs, ih]

/-- The loop of the input handler computes the cycle of the specification,
from any state in which no conversion has failed yet. -/
theorem readInputStream_loop_spec {W : Type} (rt : RealTime W)
    (stream : maccoreaudio_stream) (bufs : List AudioBuffer) :
    ∀ s : InputCycle W, s.failed = none →
      (bufs.foldl (inputCycle_step rt stream) s).trace
        = s.trace ++ (readInputStream_loop rt stream bufs s.tmpLength
            s.tmpBuffer s.world).trace
      ∧ (bufs.foldl (inputCycle_step rt stream) s).world
        = (readInputStream_loop rt stream bufs s.tmpLength s.tmpBuffer
            s.world).world
      ∧ (bufs.foldl (inputCycle_step rt stream) s).failed.getD noErr
        = (readInputStream_loop rt stream bufs s.tmpLength s.tmpBuffer
            s.world).err := by
  induction bufs with
  | nil =>
    intro s hs
    simp [readInputStream_loop, hs]
  | cons b bs ih =>
    intro s hs
    rw [List.foldl_cons]
    by_cases hb : b.mData ≠ 0 ∧ b.mDataByteSize > 0
    · have hb1 : ¬ (b.mData = 0 ∨ b.mDataByteSize = 0) := by
        rintro (h | h)
        · exact hb.1 h
        · exact absurd hb.2 (by omega)
      by_cases hc : (inputCycle_convert rt stream s b).1.1 = noErr
      · have hs1 : inputCycle_step rt stream s b
            = inputCycle_deliver rt stream s b := by
          unfold inputCycle_step
          rw [hs]
          simp only []
          rw [if_neg hb1, if_pos hc]
        have hstep := ih (inputCycle_deliver rt stream s b) rfl
        have hc2 := hc
        simp only [inputCycle_convert] at hc2
        rw [hs1]
        simp only [readInputStream_loop]
        rw [if_pos hb, if_neg (not_not.mpr hc2)]
        refine ⟨?_, hstep.2.1, hstep.2.2⟩
        rw [hstep.1]
        simp only [inputCycle_deliver, inputCycle_convert, List.append_assoc]
      · have hs1 : inputCycle_step rt stream s b
            = inputCycle_abort rt stream s b := by
          unfold inputCycle_step
          rw [hs]
          simp only []
          rw [if_neg hb1, if_neg hc]
        have hc2 := hc
        simp only [inputCycle_convert] at hc2
        rw [hs1, inputCycle_foldl_failed rt stream bs _ _ rfl]
        simp only [readInputStream_loop]
        rw [if_pos hb, if_pos hc2]
        exact ⟨rfl, rfl, rfl⟩
    · have hb1 : b.mData = 0 ∨ b.mDataByteSize = 0 := by
        by_contra hn
        push_neg at hn
        exact hb ⟨hn.1, Nat.pos_of_ne_zero hn.2⟩
      have hs1 : inputCycle_step rt stream s b = s := by
        unfold inputCycle_step
        rw [hs]
        simp only []
        rw [if_pos hb1]
      rw [hs1]
      have := ih s hs
      simp only [readInputStream_loop]
      rw [if_neg hb]
      exact this

/-- The input handler on a live stream whose lock attempt succeeds, in terms
of its loop. -/
theorem readInputStream_of_live {W : Type} (rt : RealTime W)
    (stream : maccoreaudio_stream) (inInputData : List AudioBuffer)
    (tmpBuffer : Bytes) (w : W)
    (hl : (pthread_mutex_trylock rt stream.mutex w).ret = 0)
    (hi : stream.ioProcId ≠ 0) :
    (maccoreaudio_readInputStream rt stream inInputData tmpBuffer w).ret
      = (readInputStream_loop rt stream inInputData
          (uint32OfInt (truncate
            ((((inInputData.head?.map AudioBuffer.mDataByteSize).getD 0 : Nat) : ℚ)
              * stream.conversionRatio)))
          tmpBuffer (pthread_mutex_trylock rt stream.mutex w).world).err
    ∧ ∃ tail,
        (maccoreaudio_readInputStream rt stream inInputData tmpBuffer w).trace
          = [.pthread_mutex_trylock] ++
            (readInputStream_loop rt stream inInputData
              (uint32OfInt (truncate
                ((((inInputData.head?.map AudioBuffer.mDataByteSize).getD 0
                    : Nat) : ℚ) * stream.conversionRatio)))
              tmpBuffer (pthread_mutex_trylock rt stream.mutex w).world).trace
            ++ tail
        ∧ ∀ e ∈ tail, e.isConvert = false ∧ e.isCallback = false := by
  simp only [maccoreaudio_readInputStream]
  rw [if_pos hl, if_pos hi]
  split_ifs with h1 h2
  · refine ⟨rfl, [.pthread_mutex_unlock], rfl, ?_⟩
    intro e he
    simp at he
    subst he
    exact ⟨rfl, rfl⟩
  · refine ⟨(not_not.mp h1).symm, _, by rw [List.append_assoc], ?_⟩
    intro e he
    simp at he
    rcases he with rfl | rfl <;> exact ⟨rfl, rfl⟩
  · refine ⟨(not_not.mp h1).symm, _, by rw [List.append_assoc], ?_⟩
    intro e he
    simp at he
    subst he
    exact ⟨rfl, rfl⟩

/-- C13: when the lock is acquired and `ioProcId` is non-zero, a cycle of
`maccoreaudio_readInputStream` is the input cycle of the specification
(`inputCycle_spec`): between the lock attempt and the unlock the buffers are
taken in index order; a buffer with non-null data and a size above 0 is
converted over exactly its `mDataByteSize` bytes and the application callback
is then invoked once with the converted bytes, the byte count reported by the
converter and the `callbackObject` and `callbackMethod` of the stream; a
buffer with null data or of size 0 triggers neither; and after the first
failed conversion no later buffer is converted or delivered, the handler
returning the status of that conversion. -/
theorem readInputStream_live {W : Type} (rt : RealTime W)
    (stream : maccoreaudio_stream) (inInputData : List AudioBuffer)
    (tmpBuffer : Bytes) (w : W)
    (hl : (pthread_mutex_trylock rt stream.mutex w).ret = 0)
    (hi : stream.ioProcId ≠ 0) :
    (maccoreaudio_readInputStream rt stream inInputData tmpBuffer w).ret
      = (inputCycle_spec rt stream inInputData
          (uint32OfInt (truncate
            ((((inInputData.head?.map AudioBuffer.mDataByteSize).getD 0 : Nat) : ℚ)
              * stream.conversionRatio)))
          tmpBuffer
          (pthread_mutex_trylock rt stream.mutex w).world).failed.getD noErr
    ∧ ∃ tail,
        (maccoreaudio_readInputStream rt stream inInputData tmpBuffer w).trace
          = [.pthread_mutex_trylock] ++
            (inputCycle_spec rt stream inInputData
              (uint32OfInt (truncate
                ((((inInputData.head?.map AudioBuffer.mDataByteSize).getD 0
                    : Nat) : ℚ) * stream.conversionRatio)))
              tmpBuffer (pthread_mutex_trylock rt stream.mutex w).world).trace
            ++ tail
        ∧ ∀ e ∈ tail, e.isConvert = false ∧ e.isCallback = false := by
  have h := readInputStream_of_live rt stream inInputData tmpBuffer w hl hi
  have hs := readInputStream_loop_spec rt stream inInputData
    { failed := none
      tmpLength := uint32OfInt (truncate
        ((((inInputData.head?.map AudioBuffer.mDataByteSize).getD 0 : Nat) : ℚ)
          * stream.conversionRatio))
      tmpBuffer := tmpBuffer
      world := (pthread_mutex_trylock rt stream.mutex w).world
      trace := [] } rfl
  simp only [List.nil_append] at hs
  unfold inputCycle_spec
  rw [hs.1, hs.2.2]
  exact h

/-- The initial scratch length of the input handler on `liveStream 1` with
the buffers `inputBuffers`. -/
theorem inputBuffers_tmpLength :
    uint32OfInt (truncate
      ((((inputBuffers.head?.map AudioBuffer.mDataByteSize).getD 0 : Nat) : ℚ)
        * (liveStream 1).conversionRatio)) = 8 := by
  have h : truncate ((((inputBuffers.head?.map AudioBuffer.mDataByteSize).getD 0
      : Nat) : ℚ) * (liveStream 1).conversionRatio) = 8 := by
    show truncate (((8 : ℕ) : ℚ) * 1) = 8
    rw [Nat.cast_ofNat]
    norm_num [truncate]
  rw [h]
  rfl

/-- C13, on a running stream with three input buffers, the second with null
data: the handler returns what the cycle of the specification returns, which
converts and delivers the first and the third buffer, passing 8 and then 4 as
the byte counts. -/
theorem readInputStream_live_witness :
    (pthread_mutex_trylock plainRT (liveStream 1).mutex ()).ret = 0
    ∧ (liveStream 1).ioProcId ≠ 0
    ∧ (maccoreaudio_readInputStream plainRT (liveStream 1) inputBuffers
        (fun _ => 0) ()).ret
      = (inputCycle_spec plainRT (liveStream 1) inputBuffers
          (uint32OfInt (truncate
            ((((inputBuffers.head?.map AudioBuffer.mDataByteSize).getD 0
                : Nat) : ℚ) * (liveStream 1).conversionRatio)))
          (fun _ => 0)
          (pthread_mutex_trylock plainRT (liveStream 1).mutex
            ()).world).failed.getD noErr
    ∧ callbackLengths (inputCycle_spec plainRT (liveStream 1) inputBuffers
          (uint32OfInt (truncate
            ((((inputBuffers.head?.map AudioBuffer.mDataByteSize).getD 0
                : Nat) : ℚ) * (liveStream 1).conversionRatio)))
          (fun _ => 0)
          (pthread_mutex_trylock plainRT (liveStream 1).mutex ()).world).trace
        = [8, 4] :=
  ⟨rfl, by decide,
    (readInputStream_live plainRT (liveStream 1) inputBuffers (fun _ => 0) ()
      rfl (by decide)).1,
    by
      rw [inputBuffers_tmpLength]
      rfl⟩

/-! ## Theorems: the status returned by the handlers -/

/-- The status with which the loop of the input handler ends is `noErr` or the
status of a run of the converter. -/
theorem readInputStream_loop_err {W : Type} (rt : RealTime W)
    (stream : maccoreaudio_stream) (bufs : List AudioBuffer) :
    ∀ (tmpLength : Nat) (tmpBuffer : Bytes) (w : W),
      (readInputStream_loop rt stream bufs tmpLength tmpBuffer w).err = noErr
      ∨ ∃ c n d m o v,
          (readInputStream_loop rt stream bufs tmpLength tmpBuffer w).err
            = (rt.AudioConverterConvertBuffer c n d m o v).1.1 := by
  induction bufs with
  | nil =>
    intro tmpLength tmpBuffer w
    exact Or.inl rfl
  | cons b bs ih =>
    intro tmpLength tmpBuffer w
    simp only [readInputStream_loop]
    split_ifs with hb hc
    · exact Or.inr ⟨_, _, _, _, _, _, rfl⟩
    · exact ih _ _ _
    · exact ih _ _ _

/-- Without the lock, or on a stream whose registration is null, both handlers
return `noErr`. -/
theorem handlers_idle_ret {W : Type} (rt : RealTime W)
    (stream : maccoreaudio_stream) (buffers : List AudioBuffer)
    (tmpBuffer : Bytes) (w : W)
    (h : ¬ ((pthread_mutex_trylock rt stream.mutex w).ret = 0
      ∧ stream.ioProcId ≠ 0)) :
    (maccoreaudio_readInputStream rt stream buffers tmpBuffer w).ret = noErr
    ∧ (maccoreaudio_writeOutputStream rt stream buffers tmpBuffer w).ret
      = noErr := by
  constructor
  · simp only [maccoreaudio_readInputStream]
    split_ifs <;>
      first
        | rfl
        | (exfalso; apply h; constructor <;> assumption)
  · cases buffers with
    | nil => rfl
    | cons b0 rest =>
      simp only [maccoreaudio_writeOutputStream]
      split_ifs <;>
        first
          | rfl
          | (exfalso; apply h; constructor <;> assumption)

/-- C15, refuted: on a running stream with a free mutex, when the converter
fails with -50, the input handler and the output handler both return -50 to
the audio thread, not `noErr`. -/
theorem handlers_return_converter_error :
    (maccoreaudio_readInputStream failingRT (liveStream 1) [constBuffer 8 1]
        (fun _ => 0) ()).ret = -50
    ∧ (maccoreaudio_writeOutputStream failingRT (liveStream 1) [constBuffer 8 1]
        (fun _ => 0) ()).ret = -50
    ∧ (maccoreaudio_readInputStream failingRT (liveStream 1) [constBuffer 8 1]
        (fun _ => 0) ()).ret ≠ noErr
    ∧ (maccoreaudio_writeOutputStream failingRT (liveStream 1) [constBuffer 8 1]
        (fun _ => 0) ()).ret ≠ noErr := by
  refine ⟨rfl, rfl, ?_, ?_⟩ <;> decide

/-- The first conversion of an input cycle that fails fixes the status of the
cycle: when no conversion has failed over the buffers `pre` and the
conversion of the next buffer, which has data, fails, the cycle over
`pre ++ b :: post` ends with the status of that conversion. -/
theorem inputCycle_first_failure {W : Type} (rt : RealTime W)
    (stream : maccoreaudio_stream) (pre : List AudioBuffer) (b : AudioBuffer)
    (post : List AudioBuffer) (s : InputCycle W)
    (hnone : (pre.foldl (inputCycle_step rt stream) s).failed = none)
    (hd1 : b.mData ≠ 0) (hd2 : 0 < b.mDataByteSize)
    (hfail : (inputCycle_convert rt stream
      (pre.foldl (inputCycle_step rt stream) s) b).1.1 ≠ noErr) :
    ((pre ++ b :: post).foldl (inputCycle_step rt stream) s).failed
      = some (inputCycle_convert rt stream
          (pre.foldl (inputCycle_step rt stream) s) b).1.1 := by
  have hb1 : ¬ (b.mData = 0 ∨ b.mDataByteSize = 0) := by
    rintro (h | h)
    · exact hd1 h
    · omega
  rw [List.foldl_append, List.foldl_cons]
  generalize pre.foldl (inputCycle_step rt stream) s = t at hnone hfail ⊢
  have hstep : inputCycle_step rt stream t b = inputCycle_abort rt stream t b := by
    unfold inputCycle_step
    rw [hnone]
    simp only []
    rw [if_neg hb1, if_neg hfail]
  rw [hstep, inputCycle_foldl_failed rt stream post _ _ rfl]
  rfl

/-- C15, amended: both handlers return `noErr` whenever the lock attempt
fails or the registration is null.  With the lock held on a live stream, the
output handler with at least one buffer returns the status of its one run of
the converter, whatever it is.  The input handler returns the status the
input cycle ends with (`inputCycle_spec`): `noErr` when no conversion of the
cycle fails, and otherwise the status of the first conversion that fails,
that is, for every split of the buffers into `pre`, `b` and `post` such that
no conversion over `pre` has failed and the conversion of `b`, run in the
state `pre` left, fails, the status of that conversion. -/
theorem handlers_return {W : Type} (rt : RealTime W)
    (stream : maccoreaudio_stream) (buffers : List AudioBuffer)
    (tmpBuffer : Bytes) (w : W) :
    (¬ ((pthread_mutex_trylock rt stream.mutex w).ret = 0
        ∧ stream.ioProcId ≠ 0) →
      (maccoreaudio_readInputStream rt stream buffers tmpBuffer w).ret = noErr
      ∧ (maccoreaudio_writeOutputStream rt stream buffers tmpBuffer w).ret
        = noErr)
    ∧ ((∀ c n d m o v, (rt.AudioConverterConvertBuffer c n d m o v).1.1 = noErr) →
      (maccoreaudio_readInputStream rt stream buffers tmpBuffer w).ret = noErr
      ∧ (maccoreaudio_writeOutputStream rt stream buffers tmpBuffer w).ret
        = noErr)
    ∧ ((maccoreaudio_readInputStream rt stream buffers tmpBuffer w).ret = noErr
      ∨ ∃ c n d m o v,
          (maccoreaudio_readInputStream rt stream buffers tmpBuffer w).ret
            = (rt.AudioConverterConvertBuffer c n d m o v).1.1)
    ∧ (∀ b0 rest, buffers = b0 :: rest →
        (pthread_mutex_trylock rt stream.mutex w).ret = 0 →
        stream.ioProcId ≠ 0 →
        (maccoreaudio_writeOutputStream rt stream buffers tmpBuffer w).ret
          = (writeOutputStream_conversion rt stream b0 tmpBuffer w).1.1)
    ∧ ((pthread_mutex_trylock rt stream.mutex w).ret = 0 →
        stream.ioProcId ≠ 0 →
        (maccoreaudio_readInputStream rt stream buffers tmpBuffer w).ret
          = (inputCycle_spec rt stream buffers
              (readInputStream_tmpLength stream
                ((buffers.head?.map AudioBuffer.mDataByteSize).getD 0))
              tmpBuffer
              (pthread_mutex_trylock rt stream.mutex w).world).failed.getD
                noErr)
    ∧ ((pthread_mutex_trylock rt stream.mutex w).ret = 0 →
        stream.ioProcId ≠ 0 →
        (inputCycle_spec rt stream buffers
          (readInputStream_tmpLength stream
            ((buffers.head?.map AudioBuffer.mDataByteSize).getD 0))
          tmpBuffer (pthread_mutex_trylock rt stream.mutex w).world).failed
          = none →
        (maccoreaudio_readInputStream rt stream buffers tmpBuffer w).ret
          = noErr)
    ∧ (∀ pre b post, buffers = pre ++ b :: post →
        (pthread_mutex_trylock rt stream.mutex w).ret = 0 →
        stream.ioProcId ≠ 0 →
        (inputCycle_spec rt stream pre
          (readInputStream_tmpLength stream
            ((buffers.head?.map AudioBuffer.mDataByteSize).getD 0))
          tmpBuffer (pthread_mutex_trylock rt stream.mutex w).world).failed
          = none →
        b.mData ≠ 0 → 0 < b.mDataByteSize →
        (inputCycle_convert rt stream
          (inputCycle_spec rt stream pre
            (readInputStream_tmpLength stream
              ((buffers.head?.map AudioBuffer.mDataByteSize).getD 0))
            tmpBuffer (pthread_mutex_trylock rt stream.mutex w).world)
          b).1.1 ≠ noErr →
        (maccoreaudio_readInputStream rt stream buffers tmpBuffer w).ret
          = (inputCycle_convert rt stream
              (inputCycle_spec rt stream pre
                (readInputStream_tmpLength stream
                  ((buffers.head?.map AudioBuffer.mDataByteSize).getD 0))
                tmpBuffer (pthread_mutex_trylock rt stream.mutex w).world)
              b).1.1
        ∧ (maccoreaudio_readInputStream rt stream buffers tmpBuffer w).ret
          ≠ noErr) := by
  have hread : (maccoreaudio_readInputStream rt stream buffers tmpBuffer w).ret
      = noErr
      ∨ ∃ c n d m o v,
          (maccoreaudio_readInputStream rt stream buffers tmpBuffer w).ret
            = (rt.AudioConverterConvertBuffer c n d m o v).1.1 := by
    by_cases hg : (pthread_mutex_trylock rt stream.mutex w).ret = 0
        ∧ stream.ioProcId ≠ 0
    · rw [(readInputStream_of_live rt stream buffers tmpBuffer w hg.1 hg.2).1]
      exact readInputStream_loop_err rt stream buffers _ _ _
    · exact Or.inl (handlers_idle_ret rt stream buffers tmpBuffer w hg).1
  have hwrite : ∀ b0 rest, buffers = b0 :: rest →
      (pthread_mutex_trylock rt stream.mutex w).ret = 0 →
      stream.ioProcId ≠ 0 →
      (maccoreaudio_writeOutputStream rt stream buffers tmpBuffer w).ret
        = (writeOutputStream_conversion rt stream b0 tmpBuffer w).1.1 := by
    intro b0 rest hb hl hi
    subst hb
    exact (writeOutputStream_of_live rt stream b0 rest tmpBuffer w hl hi).1
  have hcycle : (pthread_mutex_trylock rt stream.mutex w).ret = 0 →
      stream.ioProcId ≠ 0 →
      (maccoreaudio_readInputStream rt stream buffers tmpBuffer w).ret
        = (inputCycle_spec rt stream buffers
            (readInputStream_tmpLength stream
              ((buffers.head?.map AudioBuffer.mDataByteSize).getD 0))
            tmpBuffer
            (pthread_mutex_trylock rt stream.mutex w).world).failed.getD
              noErr := by
    intro hl hi
    have h := (readInputStream_of_live rt stream buffers tmpBuffer w hl hi).1
    have hs := (readInputStream_loop_spec rt stream buffers
      { failed := none
        tmpLength := uint32OfInt (truncate
          ((((buffers.head?.map AudioBuffer.mDataByteSize).getD 0 : Nat) : ℚ)
            * stream.conversionRatio))
        tmpBuffer := tmpBuffer
        world := (pthread_mutex_trylock rt stream.mutex w).world
        trace := [] } rfl).2.2
    unfold inputCycle_spec readInputStream_tmpLength
    rw [hs]
    exact h
  refine ⟨handlers_idle_ret rt stream buffers tmpBuffer w, ?_, hread, hwrite,
    hcycle, ?_, ?_⟩
  · intro hok
    constructor
    · rcases hread with h | ⟨c, n, d, m, o, v, h⟩
      · exact h
      · rw [h]
        exact hok c n d m o v
    · by_cases hg : (pthread_mutex_trylock rt stream.mutex w).ret = 0
          ∧ stream.ioProcId ≠ 0
      · cases hb : buffers with
        | nil => rfl
        | cons b0 rest =>
          rw [← hb, hwrite b0 rest hb hg.1 hg.2]
          exact hok _ _ _ _ _ _
      · exact (handlers_idle_ret rt stream buffers tmpBuffer w hg).2
  · intro hl hi hnone
    rw [hcycle hl hi, hnone]
    rfl
  · intro pre b post hb hl hi hnone hd1 hd2 hfail
    have hc := hcycle hl hi
    have hf := inputCycle_first_failure rt stream pre b post
      { failed := none
        tmpLength := readInputStream_tmpLength stream
          ((buffers.head?.map AudioBuffer.mDataByteSize).getD 0)
        tmpBuffer := tmpBuffer
        world := (pthread_mutex_trylock rt stream.mutex w).world
        trace := [] } hnone hd1 hd2 hfail
    have he : (inputCycle_spec rt stream buffers
        (readInputStream_tmpLength stream
          ((buffers.head?.map AudioBuffer.mDataByteSize).getD 0))
        tmpBuffer (pthread_mutex_trylock rt stream.mutex w).world).failed
        = some (inputCycle_convert rt stream
            (inputCycle_spec rt stream pre
              (readInputStream_tmpLength stream
                ((buffers.head?.map AudioBuffer.mDataByteSize).getD 0))
              tmpBuffer (pthread_mutex_trylock rt stream.mutex w).world)
            b).1.1 := by
      unfold inputCycle_spec
      rw [hb]
      rw [hb] at hf
      exact hf
    rw [hc, he]
    exact ⟨rfl, hfail⟩

/-- C15 as amended, on a running stream whose converter fails with -50, with
a first buffer without data and a second one of 4 bytes: no conversion is run
for the first buffer, the conversion of the second fails, and the input
handler returns -50. -/
theorem handlers_return_witness :
    (maccoreaudio_readInputStream failingRT (liveStream 1)
        ([nullBuffer] ++ constBuffer 4 3 :: []) (fun _ => 0) ()).ret
      = (inputCycle_convert failingRT (liveStream 1)
          (inputCycle_spec failingRT (liveStream 1) [nullBuffer]
            (readInputStream_tmpLength (liveStream 1)
              ((([nullBuffer] ++ constBuffer 4 3 :: []).head?.map
                AudioBuffer.mDataByteSize).getD 0))
            (fun _ => 0)
            (pthread_mutex_trylock failingRT (liveStream 1).mutex ()).world)
          (constBuffer 4 3)).1.1
    ∧ (inputCycle_convert failingRT (liveStream 1)
          (inputCycle_spec failingRT (liveStream 1) [nullBuffer]
            (readInputStream_tmpLength (liveStream 1)
              ((([nullBuffer] ++ constBuffer 4 3 :: []).head?.map
                AudioBuffer.mDataByteSize).getD 0))
            (fun _ => 0)
            (pthread_mutex_trylock failingRT (liveStream 1).mutex ()).world)
          (constBuffer 4 3)).1.1 = -50 :=
  ⟨((handlers_return failingRT (liveStream 1)
      ([nullBuffer] ++ constBuffer 4 3 :: []) (fun _ => 0) ()).2.2.2.2.2.2
      [nullBuffer] (constBuffer 4 3) [] rfl rfl (by decide) rfl (by decide)
      (by decide) (by decide)).1,
    rfl⟩

/-! ## Theorems: the status of the converter set-up and of the queries -/

/-- C18: for every outcome of the two device-format queries, the status
returned by `maccoreaudio_initConverter` is exactly the status returned by its
call of `AudioConverterNew`, so that it differs from `noErr` if and only if
that one does; a failure of the format queries alone does not make it fail. -/
theorem initConverter_status {W : Type} (os : HAL W) (deviceUID : String)
    (javaFormat : AudioStreamBasicDescription) (isJavaFormatSource : Bool)
    (converter : Nat) (conversionRatio : ℚ)
    (deviceFormat : AudioStreamBasicDescription) (w : W) :
    (maccoreaudio_initConverter os deviceUID javaFormat isJavaFormatSource
        converter conversionRatio deviceFormat w).err
      = (os.AudioConverterNew
          (maccoreaudio_initConverter os deviceUID javaFormat
            isJavaFormatSource converter conversionRatio deviceFormat w).inFormat
          (maccoreaudio_initConverter os deviceUID javaFormat
            isJavaFormatSource converter conversionRatio deviceFormat w).outFormat
          converter
          (initConverter_deviceFormat os deviceUID isJavaFormatSource
            deviceFormat w).world).1.1
    ∧ ((maccoreaudio_initConverter os deviceUID javaFormat isJavaFormatSource
          converter conversionRatio deviceFormat w).err ≠ noErr
      ↔ (os.AudioConverterNew
          (maccoreaudio_initConverter os deviceUID javaFormat
            isJavaFormatSource converter conversionRatio deviceFormat w).inFormat
          (maccoreaudio_initConverter os deviceUID javaFormat
            isJavaFormatSource converter conversionRatio deviceFormat w).outFormat
          converter
          (initConverter_deviceFormat os deviceUID isJavaFormatSource
            deviceFormat w).world).1.1 ≠ noErr)
    ∧ Event.AudioConverterNew
        (maccoreaudio_initConverter os deviceUID javaFormat isJavaFormatSource
          converter conversionRatio deviceFormat w).inFormat
        (maccoreaudio_initConverter os deviceUID javaFormat isJavaFormatSource
          converter conversionRatio deviceFormat w).outFormat
      ∈ (maccoreaudio_initConverter os deviceUID javaFormat isJavaFormatSource
          converter conversionRatio deviceFormat w).trace := by
  have he : (maccoreaudio_initConverter os deviceUID javaFormat
      isJavaFormatSource converter conversionRatio deviceFormat w).err
      = (os.AudioConverterNew
          (maccoreaudio_initConverter os deviceUID javaFormat
            isJavaFormatSource converter conversionRatio deviceFormat w).inFormat
          (maccoreaudio_initConverter os deviceUID javaFormat
            isJavaFormatSource converter conversionRatio deviceFormat w).outFormat
          converter
          (initConverter_deviceFormat os deviceUID isJavaFormatSource
            deviceFormat w).world).1.1 := by
    cases isJavaFormatSource <;>
      simp only [maccoreaudio_initConverter, Bool.not_false, Bool.not_true,
        if_true, Bool.false_eq_true, if_false] <;>
      split_ifs <;> rfl
  refine ⟨he, by rw [he], ?_⟩
  cases isJavaFormatSource <;>
    simp only [maccoreaudio_initConverter, Bool.not_false, Bool.not_true, if_true,
      Bool.false_eq_true, if_false] <;>
    split_ifs <;> simp

/-- C18, in two systems: where both format queries fail and
`AudioConverterNew` succeeds, the set-up returns `noErr`; where the queries
succeed and `AudioConverterNew` fails with `'fmt?'`, it returns `'fmt?'`. -/
theorem initConverter_status_witness :
    (maccoreaudio_getDeviceFormat noFormatHAL "dev" true zeroFormat ()).err ≠ noErr
    ∧ (maccoreaudio_initConverter noFormatHAL "dev" javaFormat16 true 0 0
        zeroFormat ()).err = noErr
    ∧ (maccoreaudio_initConverter noConverterHAL "dev" javaFormat16 true 0 0
        zeroFormat ()).err = 0x666D743F := by
  refine ⟨by decide, ?_, ?_⟩
  · rw [(initConverter_status noFormatHAL "dev" javaFormat16 true 0 0 zeroFormat
      ()).1]
    rfl
  · rw [(initConverter_status noConverterHAL "dev" javaFormat16 true 0 0
      zeroFormat ()).1]
    rfl

/-- On a device that does not resolve, the two format queries return the value
of `kAudioObjectUnknown` and leave the caller's variable as it was. -/
theorem getDeviceFormat_of_unknown {W : Type} (os : HAL W) (deviceUID : String)
    (isOutput : Bool) (deviceFormat : AudioStreamBasicDescription) (w : W)
    (h : (maccoreaudio_getDevice os deviceUID w).device = kAudioObjectUnknown) :
    (maccoreaudio_getDeviceFormat os deviceUID isOutput deviceFormat w).err
      = (kAudioObjectUnknown : Int)
    ∧ (maccoreaudio_getDeviceFormat os deviceUID isOutput deviceFormat w).format
      = deviceFormat
    ∧ (maccoreaudio_getDeviceFormatDeprecated os deviceUID isOutput deviceFormat
        w).err = (kAudioObjectUnknown : Int)
    ∧ (maccoreaudio_getDeviceFormatDeprecated os deviceUID isOutput deviceFormat
        w).format = deviceFormat := by
  simp only [maccoreaudio_getDeviceFormat, maccoreaudio_getDeviceFormatDeprecated]
  rw [if_pos h, if_pos h]
  exact ⟨rfl, rfl, rfl, rfl⟩

/-- C19, the code at a UID that does not resolve: `maccoreaudio_getDevice`
returns `kAudioObjectUnknown`, and `maccoreaudio_getDeviceFormat` and
`maccoreaudio_getDeviceFormatDeprecated` both return `noErr`, the value of
`kAudioObjectUnknown` being 0; the fallback chain of
`maccoreaudio_initConverter` is then not entered and the device format it
works with is the uninitialised local, not the default format. -/
theorem getDeviceFormat_unknown_device_noErr :
    (maccoreaudio_getDevice unknownHAL "gone" ()).device = kAudioObjectUnknown
    ∧ (maccoreaudio_getDeviceFormat unknownHAL "gone" true zeroFormat ()).err
      = noErr
    ∧ (maccoreaudio_getDeviceFormatDeprecated unknownHAL "gone" true zeroFormat
        ()).err = noErr
    ∧ (maccoreaudio_initConverter unknownHAL "gone" javaFormat16 true 0 0
        zeroFormat ()).deviceFormat = zeroFormat
    ∧ (maccoreaudio_initConverter unknownHAL "gone" javaFormat16 true 0 0
        zeroFormat ()).deviceFormat ≠ maccoreaudio_getDefaultFormat := by
  refine ⟨rfl, rfl, rfl, rfl, ?_⟩
  have h : (maccoreaudio_initConverter unknownHAL "gone" javaFormat16 true 0 0
      zeroFormat ()).deviceFormat = zeroFormat := rfl
  rw [h]
  intro hz
  have := congrArg AudioStreamBasicDescription.mChannelsPerFrame hz
  exact absurd this (by decide)

/-! ## Theorems: the calls of the queries and of the converter set-up -/

/-- The look-up of a device makes no call on a resource of a stream. -/
theorem getDevice_trace {W : Type} (os : HAL W) (deviceUID : String) (w : W)
    (src : Bool) (javaFormat : AudioStreamBasicDescription) (handler : Nat) :
    (maccoreaudio_getDevice os deviceUID w).trace.filterMap Event.acquires = []
    ∧ (maccoreaudio_getDevice os deviceUID w).trace.filterMap Event.releases = []
    ∧ (maccoreaudio_getDevice os deviceUID w).trace.filter Event.isTeardown = []
    ∧ (maccoreaudio_getDevice os deviceUID w).trace.all
        (Event.directed src javaFormat handler) = true := by
  simp only [maccoreaudio_getDevice, maccoreaudio_getDeviceForSpecificScope]
  split_ifs <;>
    simp [Event.acquires, Event.releases, Event.isTeardown, Event.directed]

/-- The per-stream format query makes no call on a resource of a stream and
asks in the scope of its direction. -/
theorem getDeviceFormat_trace {W : Type} (os : HAL W) (deviceUID : String)
    (isOutput : Bool) (deviceFormat : AudioStreamBasicDescription) (w : W)
    (javaFormat : AudioStreamBasicDescription) (handler : Nat) :
    (maccoreaudio_getDeviceFormat os deviceUID isOutput deviceFormat
        w).trace.filterMap Event.acquires = []
    ∧ (maccoreaudio_getDeviceFormat os deviceUID isOutput deviceFormat
        w).trace.filterMap Event.releases = []
    ∧ (maccoreaudio_getDeviceFormat os deviceUID isOutput deviceFormat
        w).trace.filter Event.isTeardown = []
    ∧ (maccoreaudio_getDeviceFormat os deviceUID isOutput deviceFormat
        w).trace.all (Event.directed isOutput javaFormat handler) = true := by
  have hd := getDevice_trace os deviceUID w isOutput javaFormat handler
  simp only [maccoreaudio_getDeviceFormat, maccoreaudio_getStreamVirtualFormat]
  split_ifs <;>
    simp only [List.filterMap_append, List.filter_append, List.all_append,
      hd.1, hd.2.1, hd.2.2.1, hd.2.2.2] <;>
    simp [Event.acquires, Event.releases, Event.isTeardown, Event.directed,
      directionScope, *]

/-- The deprecated format query makes no call on a resource of a stream and
asks in the scope of its direction. -/
theorem getDeviceFormatDeprecated_trace {W : Type} (os : HAL W)
    (deviceUID : String) (isOutput : Bool)
    (deviceFormat : AudioStreamBasicDescription) (w : W)
    (javaFormat : AudioStreamBasicDescription) (handler : Nat) :
    (maccoreaudio_getDeviceFormatDeprecated os deviceUID isOutput deviceFormat
        w).trace.filterMap Event.acquires = []
    ∧ (maccoreaudio_getDeviceFormatDeprecated os deviceUID isOutput deviceFormat
        w).trace.filterMap Event.releases = []
    ∧ (maccoreaudio_getDeviceFormatDeprecated os deviceUID isOutput deviceFormat
        w).trace.filter Event.isTeardown = []
    ∧ (maccoreaudio_getDeviceFormatDeprecated os deviceUID isOutput deviceFormat
        w).trace.all (Event.directed isOutput javaFormat handler) = true := by
  have hd := getDevice_trace os deviceUID w isOutput javaFormat handler
  simp only [maccoreaudio_getDeviceFormatDeprecated]
  split_ifs <;>
    simp only [List.filterMap_append, List.filter_append, List.all_append,
      hd.1, hd.2.1, hd.2.2.1, hd.2.2.2] <;>
    simp [Event.acquires, Event.releases, Event.isTeardown, Event.directed,
      directionScope, *]

/-- The fallback chain makes no call on a resource of a stream and asks in the
scope of its direction. -/
theorem initConverter_deviceFormat_trace {W : Type} (os : HAL W)
    (deviceUID : String) (src : Bool)
    (deviceFormat : AudioStreamBasicDescription) (w : W)
    (javaFormat : AudioStreamBasicDescription) (handler : Nat) :
    (initConverter_deviceFormat os deviceUID src deviceFormat
        w).trace.filterMap Event.acquires = []
    ∧ (initConverter_deviceFormat os deviceUID src deviceFormat
        w).trace.filterMap Event.releases = []
    ∧ (initConverter_deviceFormat os deviceUID src deviceFormat
        w).trace.filter Event.isTeardown = []
    ∧ (initConverter_deviceFormat os deviceUID src deviceFormat
        w).trace.all (Event.directed src javaFormat handler) = true := by
  have h1 := getDeviceFormat_trace os deviceUID src deviceFormat w javaFormat
    handler
  have h2 := getDeviceFormatDeprecated_trace os deviceUID src
    (maccoreaudio_getDeviceFormat os deviceUID src deviceFormat w).format
    (maccoreaudio_getDeviceFormat os deviceUID src deviceFormat w).world
    javaFormat handler
  simp only [initConverter_deviceFormat]
  split_ifs <;>
    simp only [List.filterMap_append, List.filter_append, List.all_append,
      h1.1, h1.2.1, h1.2.2.1, h1.2.2.2, h2.1, h2.2.1, h2.2.2.1, h2.2.2.2] <;>
    simp [Event.acquires, Event.releases, Event.isTeardown, Event.directed]

/-- The converter set-up acquires the converter, releases nothing, and creates
the converter and queries the device as its direction demands. -/
theorem initConverter_trace {W : Type} (os : HAL W) (deviceUID : String)
    (javaFormat : AudioStreamBasicDescription) (src : Bool)
    (converter : Nat) (conversionRatio : ℚ)
    (deviceFormat : AudioStreamBasicDescription) (w : W) (handler : Nat) :
    (maccoreaudio_initConverter os deviceUID javaFormat src converter
        conversionRatio deviceFormat w).trace.filterMap Event.acquires
      = [.converter]
    ∧ (maccoreaudio_initConverter os deviceUID javaFormat src converter
        conversionRatio deviceFormat w).trace.filterMap Event.releases = []
    ∧ (maccoreaudio_initConverter os deviceUID javaFormat src converter
        conversionRatio deviceFormat w).trace.filter Event.isTeardown = []
    ∧ (maccoreaudio_initConverter os deviceUID javaFormat src converter
        conversionRatio deviceFormat w).trace.all
          (Event.directed src javaFormat handler) = true := by
  have h := initConverter_deviceFormat_trace os deviceUID src deviceFormat w
    javaFormat handler
  cases src <;>
    simp only [maccoreaudio_initConverter, Bool.not_false, Bool.not_true, if_true,
      Bool.false_eq_true, if_false] <;>
    split_ifs <;>
    simp only [List.filterMap_append, List.filter_append, List.all_append,
      h.1, h.2.1, h.2.2.1, h.2.2.2] <;>
    simp [Event.acquires, Event.releases, Event.isTeardown, Event.directed]

/-! ## Theorems: the stream controller -/

/-- Every return path of `maccoreaudio_startStream` releases in reverse
order. -/
theorem startStream_shape {W : Type} (os : HAL W) (rt : RealTime W)
    (ctl : Control W) (deviceUID : String)
    (callbackFunction callbackObject callbackMethod readWriteFunction : Nat)
    (isJavaFormatSource : Bool) (sampleRate : ℚ)
    (nbChannels bitsPerChannel : Nat)
    (isFloat isBigEndian isNonInterleaved : Bool)
    (deviceFormat : AudioStreamBasicDescription) (w : W) :
    (maccoreaudio_startStream os rt ctl deviceUID callbackFunction
      callbackObject callbackMethod readWriteFunction isJavaFormatSource
      sampleRate nbChannels bitsPerChannel isFloat isBigEndian
      isNonInterleaved deviceFormat w).releasesInReverse := by
  have hd := getDevice_trace os deviceUID w isJavaFormatSource
    (FillOutASBDForLPCM sampleRate nbChannels bitsPerChannel bitsPerChannel
      isFloat isBigEndian isNonInterleaved) readWriteFunction
  have hc1 : ∀ c q v, (maccoreaudio_initConverter os deviceUID
      (FillOutASBDForLPCM sampleRate nbChannels bitsPerChannel bitsPerChannel
        isFloat isBigEndian isNonInterleaved) isJavaFormatSource c q
      deviceFormat v).trace.filterMap Event.acquires = [.converter] :=
    fun c q v => (initConverter_trace os deviceUID _ isJavaFormatSource c q
      deviceFormat v readWriteFunction).1
  have hc2 : ∀ c q v, (maccoreaudio_initConverter os deviceUID
      (FillOutASBDForLPCM sampleRate nbChannels bitsPerChannel bitsPerChannel
        isFloat isBigEndian isNonInterleaved) isJavaFormatSource c q
      deviceFormat v).trace.filterMap Event.releases = [] :=
    fun c q v => (initConverter_trace os deviceUID _ isJavaFormatSource c q
      deviceFormat v readWriteFunction).2.1
  simp only [maccoreaudio_startStream]
  split_ifs with hdev
  · refine ⟨by simp, _, _, rfl, ?_, ?_, ?_, ?_⟩ <;>
      simp [List.filterMap_append, hd.1, hd.2.1, Event.acquires, Event.releases,
        StartOutcome.acquired]
  · split
    · refine ⟨by simp, _, _, rfl, ?_, ?_, ?_, ?_⟩ <;>
        simp [List.filterMap_append, hd.1, hd.2.1, Event.acquires,
          Event.releases, StartOutcome.acquired]
    · split_ifs <;>
        refine ⟨by simp, _, _, rfl, ?_, ?_, ?_, ?_⟩ <;>
        simp [List.filterMap_append, hd.1, hd.2.1, hc1, hc2, Event.acquires,
          Event.releases, StartOutcome.acquired]

/-- The teardown steps of the second part of `maccoreaudio_stopStream`,
whatever the unlock and the destruction of the mutex return. -/
theorem stopStream_release_teardown (unlockRet destroyRet : Int) :
    (stopStream_release unlockRet destroyRet).filter Event.isTeardown
      = [.pthread_mutex_unlock, .pthread_mutex_destroy, .free] := by
  simp only [stopStream_release]
  split_ifs <;> simp [Event.isTeardown]

/-- The teardown steps of the first part of `maccoreaudio_stopStream`, and the
registration it leaves in the stream. -/
theorem stopStream_locked_teardown {W : Type} (os : HAL W) (rt : RealTime W)
    (ctl : Control W) (deviceUID : String) (stream : maccoreaudio_stream)
    (w : W) :
    (stopStream_locked os rt ctl deviceUID stream w).stream.ioProcId = 0
    ∧ (stopStream_locked os rt ctl deviceUID stream w).trace.filter
        Event.isTeardown
      = (if (maccoreaudio_getDevice os deviceUID
              (pthread_mutex_lock rt stream.mutex w).world).device
            = kAudioObjectUnknown then []
          else
            [.AudioDeviceStop
                (maccoreaudio_getDevice os deviceUID
                  (pthread_mutex_lock rt stream.mutex w).world).device
                stream.ioProcId,
              .AudioDeviceDestroyIOProcID
                (maccoreaudio_getDevice os deviceUID
                  (pthread_mutex_lock rt stream.mutex w).world).device
                stream.ioProcId])
        ++ [.AudioConverterDispose stream.converter] := by
  have hd := getDevice_trace os deviceUID
    (pthread_mutex_lock rt stream.mutex w).world true zeroFormat 0
  simp only [stopStream_locked]
  split_ifs <;>
    simp only [List.filter_append, hd.2.2.1] <;>
    simp [Event.isTeardown]

/-- C17: for every outcome of the lock acquisition, of the device look-up and
of `AudioDeviceStop`, `AudioDeviceDestroyIOProcID` and
`AudioConverterDispose`, the calls of `maccoreaudio_stopStream` are those of
its first part followed by those of its second part; the first part, when the
device resolves, calls `AudioDeviceStop` and then
`AudioDeviceDestroyIOProcID` (whatever the first returned) and, when it does
not resolve, neither; it then disposes of the converter, once, and leaves
`ioProcId` at 0; the second part unlocks the mutex, destroys it and frees the
stream, in that order. -/
theorem stopStream_teardown {W : Type} (os : HAL W) (rt : RealTime W)
    (ctl : Control W) (deviceUID : String) (stream : maccoreaudio_stream)
    (w : W) :
    (maccoreaudio_stopStream os rt ctl deviceUID stream w).trace.filter
        Event.isTeardown
      = (if (maccoreaudio_getDevice os deviceUID
              (pthread_mutex_lock rt stream.mutex w).world).device
            = kAudioObjectUnknown then []
          else
            [.AudioDeviceStop
                (maccoreaudio_getDevice os deviceUID
                  (pthread_mutex_lock rt stream.mutex w).world).device
                stream.ioProcId,
              .AudioDeviceDestroyIOProcID
                (maccoreaudio_getDevice os deviceUID
                  (pthread_mutex_lock rt stream.mutex w).world).device
                stream.ioProcId])
        ++ [.AudioConverterDispose stream.converter, .pthread_mutex_unlock,
            .pthread_mutex_destroy, .free]
    ∧ (∃ unlockRet destroyRet,
        (maccoreaudio_stopStream os rt ctl deviceUID stream w).trace
          = (stopStream_locked os rt ctl deviceUID stream w).trace
            ++ stopStream_release unlockRet destroyRet)
    ∧ (stopStream_locked os rt ctl deviceUID stream w).stream.ioProcId = 0
    ∧ (stopStream_locked os rt ctl deviceUID stream w).trace.filter
        Event.isTeardown
      = (if (maccoreaudio_getDevice os deviceUID
              (pthread_mutex_lock rt stream.mutex w).world).device
            = kAudioObjectUnknown then []
          else
            [.AudioDeviceStop
                (maccoreaudio_getDevice os deviceUID
                  (pthread_mutex_lock rt stream.mutex w).world).device
                stream.ioProcId,
              .AudioDeviceDestroyIOProcID
                (maccoreaudio_getDevice os deviceUID
                  (pthread_mutex_lock rt stream.mutex w).world).device
                stream.ioProcId])
        ++ [.AudioConverterDispose stream.converter]
    ∧ (∀ unlockRet destroyRet,
        (stopStream_release unlockRet destroyRet).filter Event.isTeardown
          = [.pthread_mutex_unlock, .pthread_mutex_destroy, .free])
    ∧ (maccoreaudio_stopStream os rt ctl deviceUID stream w).stream.ioProcId
      = 0 := by
  have hl := stopStream_locked_teardown os rt ctl deviceUID stream w
  refine ⟨?_, ⟨_, _, rfl⟩, hl.1, hl.2, stopStream_release_teardown, hl.1⟩
  simp only [maccoreaudio_stopStream, List.filter_append, hl.2,
    stopStream_release_teardown, List.append_assoc, List.singleton_append]

/-- C17, on a running stream: where the device resolves and refuses to stop,
the IOProc is still destroyed and the teardown completes; where the device no
longer resolves, neither call on the device is made and the teardown
completes. -/
theorem stopStream_teardown_witness :
    (maccoreaudio_stopStream goodHAL plainRT noStartControl "dev" (liveStream 1)
        ()).trace.filter Event.isTeardown
      = [.AudioDeviceStop 42 5, .AudioDeviceDestroyIOProcID 42 5,
          .AudioConverterDispose 99, .pthread_mutex_unlock,
          .pthread_mutex_destroy, .free]
    ∧ (maccoreaudio_stopStream unknownHAL plainRT plainControl "gone"
        (liveStream 1) ()).trace.filter Event.isTeardown
      = [.AudioConverterDispose 99, .pthread_mutex_unlock,
          .pthread_mutex_destroy, .free] :=
  ⟨(stopStream_teardown goodHAL plainRT noStartControl "dev" (liveStream 1)
      ()).1.trans rfl,
    (stopStream_teardown unknownHAL plainRT plainControl "gone" (liveStream 1)
      ()).1.trans rfl⟩

/-- The converter set-up calls `AudioConverterNew` with the two formats it
records. -/
theorem initConverter_converterNew_mem {W : Type} (os : HAL W)
    (deviceUID : String) (javaFormat : AudioStreamBasicDescription)
    (isJavaFormatSource : Bool) (converter : Nat) (conversionRatio : ℚ)
    (deviceFormat : AudioStreamBasicDescription) (w : W) :
    Event.AudioConverterNew
        (maccoreaudio_initConverter os deviceUID javaFormat isJavaFormatSource
          converter conversionRatio deviceFormat w).inFormat
        (maccoreaudio_initConverter os deviceUID javaFormat isJavaFormatSource
          converter conversionRatio deviceFormat w).outFormat
      ∈ (maccoreaudio_initConverter os deviceUID javaFormat isJavaFormatSource
          converter conversionRatio deviceFormat w).trace := by
  cases isJavaFormatSource <;>
    simp only [maccoreaudio_initConverter, Bool.not_false, Bool.not_true, if_true,
      Bool.false_eq_true, if_false] <;>
    split_ifs <;> simp

/-- Every call of `maccoreaudio_startStream` is as the direction and the
handler it was given demand. -/
theorem startStream_directed {W : Type} (os : HAL W) (rt : RealTime W)
    (ctl : Control W) (deviceUID : String)
    (callbackFunction callbackObject callbackMethod readWriteFunction : Nat)
    (isJavaFormatSource : Bool) (sampleRate : ℚ)
    (nbChannels bitsPerChannel : Nat)
    (isFloat isBigEndian isNonInterleaved : Bool)
    (deviceFormat : AudioStreamBasicDescription) (w : W) :
    (maccoreaudio_startStream os rt ctl deviceUID callbackFunction
      callbackObject callbackMethod readWriteFunction isJavaFormatSource
      sampleRate nbChannels bitsPerChannel isFloat isBigEndian
      isNonInterleaved deviceFormat w).trace.all
        (Event.directed isJavaFormatSource
          (FillOutASBDForLPCM sampleRate nbChannels bitsPerChannel
            bitsPerChannel isFloat isBigEndian isNonInterleaved)
          readWriteFunction) = true := by
  have hd := getDevice_trace os deviceUID w isJavaFormatSource
    (FillOutASBDForLPCM sampleRate nbChannels bitsPerChannel bitsPerChannel
      isFloat isBigEndian isNonInterleaved) readWriteFunction
  have hc : ∀ c q v, (maccoreaudio_initConverter os deviceUID
      (FillOutASBDForLPCM sampleRate nbChannels bitsPerChannel bitsPerChannel
        isFloat isBigEndian isNonInterleaved) isJavaFormatSource c q
      deviceFormat v).trace.all
        (Event.directed isJavaFormatSource
          (FillOutASBDForLPCM sampleRate nbChannels bitsPerChannel
            bitsPerChannel isFloat isBigEndian isNonInterleaved)
          readWriteFunction) = true :=
    fun c q v => (initConverter_trace os deviceUID _ isJavaFormatSource c q
      deviceFormat v readWriteFunction).2.2.2
  simp only [maccoreaudio_startStream]
  split_ifs with hdev
  · simp only [List.all_append, hd.2.2.2]
    simp [Event.directed]
  · split
    · simp only [List.all_append, hd.2.2.2]
      simp [Event.directed]
    · split_ifs <;>
        simp only [List.all_append, hd.2.2.2, hc] <;>
        simp [Event.directed]

/-- C20: `maccoreaudio_initConverter` hands (application format, device
format) to `AudioConverterNew` as (source, destination) when
`isJavaFormatSource` is true and (device format, application format) when it
is false, and queries the device in the output scope in the first case and in
the input scope in the second; `maccoreaudio_startOutputStream` always runs
`maccoreaudio_startStream` in the first orientation with the output handler,
`maccoreaudio_startInputStream` always in the second with the input
handler. -/
theorem stream_direction {W : Type} (os : HAL W) (rt : RealTime W)
    (ctl : Control W) (deviceUID : String)
    (javaFormat : AudioStreamBasicDescription) (isJavaFormatSource : Bool)
    (converter : Nat) (conversionRatio : ℚ)
    (callbackFunction callbackObject callbackMethod handler : Nat)
    (sampleRate : ℚ) (nbChannels bitsPerChannel : Nat)
    (isFloat isBigEndian isNonInterleaved : Bool)
    (deviceFormat : AudioStreamBasicDescription) (w : W) :
    (maccoreaudio_initConverter os deviceUID javaFormat isJavaFormatSource
        converter conversionRatio deviceFormat w).inFormat
      = (if isJavaFormatSource then javaFormat
          else (maccoreaudio_initConverter os deviceUID javaFormat
            isJavaFormatSource converter conversionRatio deviceFormat
            w).deviceFormat)
    ∧ (maccoreaudio_initConverter os deviceUID javaFormat isJavaFormatSource
        converter conversionRatio deviceFormat w).outFormat
      = (if isJavaFormatSource
          then (maccoreaudio_initConverter os deviceUID javaFormat
            isJavaFormatSource converter conversionRatio deviceFormat
            w).deviceFormat
          else javaFormat)
    ∧ Event.AudioConverterNew
        (maccoreaudio_initConverter os deviceUID javaFormat isJavaFormatSource
          converter conversionRatio deviceFormat w).inFormat
        (maccoreaudio_initConverter os deviceUID javaFormat isJavaFormatSource
          converter conversionRatio deviceFormat w).outFormat
      ∈ (maccoreaudio_initConverter os deviceUID javaFormat isJavaFormatSource
          converter conversionRatio deviceFormat w).trace
    ∧ (maccoreaudio_initConverter os deviceUID javaFormat isJavaFormatSource
        converter conversionRatio deviceFormat w).trace.all
          (Event.directed isJavaFormatSource javaFormat handler) = true
    ∧ directionScope true = kAudioDevicePropertyScopeOutput
    ∧ directionScope false = kAudioDevicePropertyScopeInput
    ∧ maccoreaudio_startOutputStream os rt ctl deviceUID callbackFunction
        callbackObject callbackMethod sampleRate nbChannels bitsPerChannel
        isFloat isBigEndian isNonInterleaved deviceFormat w
      = maccoreaudio_startStream os rt ctl deviceUID callbackFunction
        callbackObject callbackMethod writeOutputStream_address true sampleRate
        nbChannels bitsPerChannel isFloat isBigEndian isNonInterleaved
        deviceFormat w
    ∧ (maccoreaudio_startOutputStream os rt ctl deviceUID callbackFunction
        callbackObject callbackMethod sampleRate nbChannels bitsPerChannel
        isFloat isBigEndian isNonInterleaved deviceFormat w).trace.all
          (Event.directed true
            (FillOutASBDForLPCM sampleRate nbChannels bitsPerChannel
              bitsPerChannel isFloat isBigEndian isNonInterleaved)
            writeOutputStream_address) = true
    ∧ maccoreaudio_startInputStream os rt ctl deviceUID callbackFunction
        callbackObject callbackMethod sampleRate nbChannels bitsPerChannel
        isFloat isBigEndian isNonInterleaved deviceFormat w
      = maccoreaudio_startStream os rt ctl deviceUID callbackFunction
        callbackObject callbackMethod readInputStream_address false sampleRate
        nbChannels bitsPerChannel isFloat isBigEndian isNonInterleaved
        deviceFormat w
    ∧ (maccoreaudio_startInputStream os rt ctl deviceUID callbackFunction
        callbackObject callbackMethod sampleRate nbChannels bitsPerChannel
        isFloat isBigEndian isNonInterleaved deviceFormat w).trace.all
          (Event.directed false
            (FillOutASBDForLPCM sampleRate nbChannels bitsPerChannel
              bitsPerChannel isFloat isBigEndian isNonInterleaved)
            readInputStream_address) = true
    ∧ readInputStream_address ≠ writeOutputStream_address := by
  have hf := initConverter_formats os deviceUID javaFormat isJavaFormatSource
    converter conversionRatio deviceFormat w
  refine ⟨by rw [hf.1]; exact hf.2.1, by rw [hf.1]; exact hf.2.2,
    initConverter_converterNew_mem os deviceUID javaFormat isJavaFormatSource
      converter conversionRatio deviceFormat w,
    (initConverter_trace os deviceUID javaFormat isJavaFormatSource converter
      conversionRatio deviceFormat w handler).2.2.2,
    rfl, rfl, rfl,
    startStream_directed os rt ctl deviceUID callbackFunction callbackObject
      callbackMethod writeOutputStream_address true sampleRate nbChannels
      bitsPerChannel isFloat isBigEndian isNonInterleaved deviceFormat w,
    rfl,
    startStream_directed os rt ctl deviceUID callbackFunction callbackObject
      callbackMethod readInputStream_address false sampleRate nbChannels
      bitsPerChannel isFloat isBigEndian isNonInterleaved deviceFormat w,
    by decide⟩

/-- C20, in a system where everything succeeds: the calls of
`maccoreaudio_startOutputStream` create the converter from the application
format to the device format, query the output scope and register the output
handler; those of `maccoreaudio_startInputStream` create the converter from
the device format to the application format, query the input scope and
register the input handler. -/
theorem stream_direction_witness :
    (maccoreaudio_startOutputStream goodHAL plainRT plainControl "dev" 11 12 13
        44100 2 16 false false false zeroFormat ()).trace
      = [.CFStringCreateWithCString "dev",
          .getDeviceForUID kAudioObjectPropertyScopeGlobal 1, .CFRelease 1,
          .malloc, .pthread_mutex_init,
          .CFStringCreateWithCString "dev",
          .getDeviceForUID kAudioObjectPropertyScopeGlobal 1, .CFRelease 1,
          .getStreams 42 kAudioDevicePropertyScopeOutput, .getVirtualFormat 7,
          .AudioConverterNew javaFormat16 deviceFormat48,
          .AudioDeviceCreateIOProcID 42 writeOutputStream_address,
          .AudioDeviceStart 42 5]
    ∧ (maccoreaudio_startInputStream goodHAL plainRT plainControl "dev" 11 12 13
        44100 2 16 false false false zeroFormat ()).trace
      = [.CFStringCreateWithCString "dev",
          .getDeviceForUID kAudioObjectPropertyScopeGlobal 1, .CFRelease 1,
          .malloc, .pthread_mutex_init,
          .CFStringCreateWithCString "dev",
          .getDeviceForUID kAudioObjectPropertyScopeGlobal 1, .CFRelease 1,
          .getStreams 42 kAudioDevicePropertyScopeInput, .getVirtualFormat 7,
          .AudioConverterNew deviceFormat48 javaFormat16,
          .AudioDeviceCreateIOProcID 42 readInputStream_address,
          .AudioDeviceStart 42 5]
    ∧ (maccoreaudio_startOutputStream goodHAL plainRT plainControl "dev" 11 12 13
        44100 2 16 false false false zeroFormat ()).trace.all
          (Event.directed true
            (FillOutASBDForLPCM 44100 2 16 16 false false false)
            writeOutputStream_address) = true :=
  ⟨rfl, rfl,
    (stream_direction goodHAL plainRT plainControl "dev" javaFormat16 true 0 0
      11 12 13 0 44100 2 16 false false false zeroFormat ()).2.2.2.2.2.2.2.1⟩

/-! ## Theorems: the output handler without buffers, stopped, and contended -/

/-- C25: when the list of output buffers is empty (`mNumberBuffers` is 0),
`maccoreaudio_writeOutputStream` returns `noErr` having made no call at all
(no lock attempt, no callback, no run of the converter), and leaves the
stream, the world and the empty buffer list as they were. -/
theorem writeOutputStream_no_buffers {W : Type} (rt : RealTime W)
    (stream : maccoreaudio_stream) (tmpBuffer : Bytes) (w : W) :
    (maccoreaudio_writeOutputStream rt stream [] tmpBuffer w).ret = noErr
    ∧ (maccoreaudio_writeOutputStream rt stream [] tmpBuffer w).trace = []
    ∧ (maccoreaudio_writeOutputStream rt stream [] tmpBuffer w).buffers = []
    ∧ (maccoreaudio_writeOutputStream rt stream [] tmpBuffer w).stream = stream
    ∧ (maccoreaudio_writeOutputStream rt stream [] tmpBuffer w).world = w :=
  ⟨rfl, rfl, rfl, rfl, rfl⟩

/-- The output handler on a stream whose registration is null, once the lock
attempt has gone through: the status and the buffers it leaves. -/
theorem writeOutputStream_of_stopped {W : Type} (rt : RealTime W)
    (stream : maccoreaudio_stream) (b0 : AudioBuffer) (rest : List AudioBuffer)
    (tmpBuffer : Bytes) (w : W)
    (hl : (pthread_mutex_trylock rt stream.mutex w).ret = 0)
    (hi : stream.ioProcId = 0) :
    (maccoreaudio_writeOutputStream rt stream (b0 :: rest) tmpBuffer w).ret
      = noErr
    ∧ (maccoreaudio_writeOutputStream rt stream (b0 :: rest) tmpBuffer w).buffers
      = b0 :: rest.map (writeOutputStream_copy b0) := by
  simp only [maccoreaudio_writeOutputStream]
  rw [if_pos hl, if_neg (not_not.mpr hi)]
  exact ⟨rfl, rfl⟩

/-- The additional buffer `i + 1` of a list left by the replication loop. -/
theorem replicated_getElem (b1 : AudioBuffer) (rest : List AudioBuffer)
    (i : Nat) (b : AudioBuffer) (h : rest[i]? = some b) :
    (b1 :: rest.map (writeOutputStream_copy b1))[i + 1]?
      = some (writeOutputStream_copy b1 b) := by
  simp only [List.getElem?_cons_succ, List.getElem?_map, h, Option.map_some']

/-- C28: when the lock is acquired and `ioProcId` is 0,
`maccoreaudio_writeOutputStream` returns `noErr`, leaves the first output
buffer as the system supplied it (bytes and `mDataByteSize`), invokes neither
the callback nor the converter, and passes every additional buffer through the
replication loop against that first buffer: the additional buffer keeps its
size `M`, its first `min N M` bytes become those found in the first buffer
(`N` being the size of the first buffer), and its bytes from `N` to `M - 1`
become zero. -/
theorem writeOutputStream_stopped {W : Type} (rt : RealTime W)
    (stream : maccoreaudio_stream) (b0 : AudioBuffer) (rest : List AudioBuffer)
    (tmpBuffer : Bytes) (w : W)
    (hl : (pthread_mutex_trylock rt stream.mutex w).ret = 0)
    (hi : stream.ioProcId = 0) :
    (maccoreaudio_writeOutputStream rt stream (b0 :: rest) tmpBuffer w).ret
      = noErr
    ∧ (maccoreaudio_writeOutputStream rt stream (b0 :: rest) tmpBuffer
        w).buffers.head? = some b0
    ∧ (∀ e ∈ (maccoreaudio_writeOutputStream rt stream (b0 :: rest) tmpBuffer
        w).trace, e.isConvert = false ∧ e.isCallback = false)
    ∧ ∀ i b, rest[i]? = some b →
        ∃ other, (maccoreaudio_writeOutputStream rt stream (b0 :: rest)
            tmpBuffer w).buffers[i + 1]? = some other
          ∧ other.mDataByteSize = b.mDataByteSize
          ∧ (∀ k, k < min b0.mDataByteSize b.mDataByteSize →
              other.bytes k = b0.bytes k)
          ∧ (∀ k, b0.mDataByteSize ≤ k → k < b.mDataByteSize →
              other.bytes k = 0) := by
  have h := writeOutputStream_of_stopped rt stream b0 rest tmpBuffer w hl hi
  refine ⟨h.1, by rw [h.2]; rfl, ?_, ?_⟩
  · exact writeOutputStream_idle rt stream (b0 :: rest) tmpBuffer w
      (fun hc => hc.2 hi)
  · intro i b hb
    refine ⟨writeOutputStream_copy b0 b, ?_, writeOutputStream_copy_spec b0 b⟩
    rw [h.2]
    exact replicated_getElem b0 rest i b hb

/-- C28, on a stopped stream with buffers of 8 bytes (all 1) and 12 bytes (all
2): the first buffer is untouched, the second starts with 8 bytes equal to 1
and ends with 4 bytes equal to 0. -/
theorem writeOutputStream_stopped_witness :
    (pthread_mutex_trylock plainRT
        ({ liveStream 1 with ioProcId := 0 } : maccoreaudio_stream).mutex
        ()).ret = 0
    ∧ ({ liveStream 1 with ioProcId := 0 } : maccoreaudio_stream).ioProcId = 0
    ∧ (maccoreaudio_writeOutputStream plainRT { liveStream 1 with ioProcId := 0 }
        (constBuffer 8 1 :: [constBuffer 12 2]) (fun _ => 0) ()).buffers.head?
      = some (constBuffer 8 1)
    ∧ ∃ other, (maccoreaudio_writeOutputStream plainRT
            { liveStream 1 with ioProcId := 0 }
            (constBuffer 8 1 :: [constBuffer 12 2]) (fun _ => 0)
            ()).buffers[0 + 1]? = some other
          ∧ other.mDataByteSize = (constBuffer 12 2).mDataByteSize
          ∧ (∀ k, k < min (constBuffer 8 1).mDataByteSize
                (constBuffer 12 2).mDataByteSize →
              other.bytes k = (constBuffer 8 1).bytes k)
          ∧ (∀ k, (constBuffer 8 1).mDataByteSize ≤ k →
              k < (constBuffer 12 2).mDataByteSize → other.bytes k = 0) :=
  ⟨rfl, rfl,
    (writeOutputStream_stopped plainRT { liveStream 1 with ioProcId := 0 }
      (constBuffer 8 1) [constBuffer 12 2] (fun _ => 0) () rfl rfl).2.1,
    (writeOutputStream_stopped plainRT { liveStream 1 with ioProcId := 0 }
      (constBuffer 8 1) [constBuffer 12 2] (fun _ => 0) () rfl rfl).2.2.2
      0 (constBuffer 12 2) rfl⟩

/-- C29: when the lock attempt fails in `maccoreaudio_writeOutputStream`, the
first buffer is left with its bytes as they were and the size 0, and every
additional buffer keeps its `mDataByteSize` and holds the byte 0 at every
offset below it when the handler returns. -/
theorem writeOutputStream_contention_silences {W : Type} (rt : RealTime W)
    (stream : maccoreaudio_stream) (b0 : AudioBuffer) (rest : List AudioBuffer)
    (tmpBuffer : Bytes) (w : W)
    (h : (pthread_mutex_trylock rt stream.mutex w).ret ≠ 0) :
    (maccoreaudio_writeOutputStream rt stream (b0 :: rest) tmpBuffer
        w).buffers.head? = some { b0 with mDataByteSize := 0 }
    ∧ ∀ i b, rest[i]? = some b →
        ∃ other, (maccoreaudio_writeOutputStream rt stream (b0 :: rest)
            tmpBuffer w).buffers[i + 1]? = some other
          ∧ other.mDataByteSize = b.mDataByteSize
          ∧ ∀ k, k < b.mDataByteSize → other.bytes k = 0 := by
  rw [writeOutputStream_of_contention rt stream b0 rest tmpBuffer w h]
  refine ⟨rfl, ?_⟩
  intro i b hb
  have hs := writeOutputStream_copy_spec { b0 with mDataByteSize := 0 } b
  refine ⟨_, replicated_getElem _ rest i b hb, hs.1, ?_⟩
  intro k hk
  exact hs.2.2 k (Nat.zero_le k) hk

/-- C29, on a stream whose mutex is held, with buffers of 8 bytes (all 1) and
12 bytes (all 2): the first buffer keeps its bytes and gets the size 0, the
second keeps the size 12 and is zero at the offsets 0 to 11. -/
theorem writeOutputStream_contention_silences_witness :
    (pthread_mutex_trylock plainRT heldStream.mutex ()).ret ≠ 0
    ∧ (maccoreaudio_writeOutputStream plainRT heldStream
        (constBuffer 8 1 :: [constBuffer 12 2]) (fun _ => 0) ()).buffers.head?
      = some { constBuffer 8 1 with mDataByteSize := 0 }
    ∧ ∃ other, (maccoreaudio_writeOutputStream plainRT heldStream
            (constBuffer 8 1 :: [constBuffer 12 2]) (fun _ => 0)
            ()).buffers[0 + 1]? = some other
          ∧ other.mDataByteSize = (constBuffer 12 2).mDataByteSize
          ∧ ∀ k, k < (constBuffer 12 2).mDataByteSize → other.bytes k = 0 :=
  ⟨by decide,
    (writeOutputStream_contention_silences plainRT heldStream (constBuffer 8 1)
      [constBuffer 12 2] (fun _ => 0) () (by decide)).1,
    (writeOutputStream_contention_silences plainRT heldStream (constBuffer 8 1)
      [constBuffer 12 2] (fun _ => 0) () (by decide)).2 0 (constBuffer 12 2) rfl⟩

/-! ## Theorems: the tiers of the fallback chain -/

/-- The per-stream format query does not make the deprecated query. -/
theorem getDeviceFormat_no_deprecated {W : Type} (os : HAL W)
    (deviceUID : String) (isOutput : Bool)
    (deviceFormat : AudioStreamBasicDescription) (w : W) :
    (maccoreaudio_getDeviceFormat os deviceUID isOutput deviceFormat
        w).trace.filter Event.isDeprecatedQuery = [] := by
  have hd : (maccoreaudio_getDevice os deviceUID w).trace.filter
      Event.isDeprecatedQuery = [] := by
    simp only [maccoreaudio_getDevice, maccoreaudio_getDeviceForSpecificScope]
    split_ifs <;> simp [Event.isDeprecatedQuery]
  simp only [maccoreaudio_getDeviceFormat, maccoreaudio_getStreamVirtualFormat]
  split_ifs <;>
    simp only [List.filter_append, hd] <;>
    simp [Event.isDeprecatedQuery]

/-- C24: the device format used by `maccoreaudio_initConverter` is the one
written by `maccoreaudio_getDeviceFormat` whenever that call returns `noErr`,
and the fallback chain then consists of that call alone (the deprecated query
is not made); when it returns an error, the format is the one written by
`maccoreaudio_getDeviceFormatDeprecated` (called on what the first call left)
whenever that call returns `noErr`; and when both return an error, and in no
other case, it is the default format. -/
theorem initConverter_fallback_tiers {W : Type} (os : HAL W)
    (deviceUID : String) (javaFormat : AudioStreamBasicDescription)
    (isJavaFormatSource : Bool) (converter : Nat) (conversionRatio : ℚ)
    (deviceFormat : AudioStreamBasicDescription) (w : W) :
    ((maccoreaudio_getDeviceFormat os deviceUID isJavaFormatSource deviceFormat
        w).err = noErr →
      (maccoreaudio_initConverter os deviceUID javaFormat isJavaFormatSource
          converter conversionRatio deviceFormat w).deviceFormat
        = (maccoreaudio_getDeviceFormat os deviceUID isJavaFormatSource
            deviceFormat w).format
      ∧ initConverter_deviceFormat os deviceUID isJavaFormatSource deviceFormat w
        = maccoreaudio_getDeviceFormat os deviceUID isJavaFormatSource
            deviceFormat w
      ∧ (maccoreaudio_initConverter os deviceUID javaFormat isJavaFormatSource
          converter conversionRatio deviceFormat w).trace.filter
            Event.isDeprecatedQuery = [])
    ∧ ((maccoreaudio_getDeviceFormat os deviceUID isJavaFormatSource deviceFormat
        w).err ≠ noErr →
      (maccoreaudio_getDeviceFormatDeprecated os deviceUID isJavaFormatSource
        (maccoreaudio_getDeviceFormat os deviceUID isJavaFormatSource
          deviceFormat w).format
        (maccoreaudio_getDeviceFormat os deviceUID isJavaFormatSource
          deviceFormat w).world).err = noErr →
      (maccoreaudio_initConverter os deviceUID javaFormat isJavaFormatSource
          converter conversionRatio deviceFormat w).deviceFormat
        = (maccoreaudio_getDeviceFormatDeprecated os deviceUID
            isJavaFormatSource
            (maccoreaudio_getDeviceFormat os deviceUID isJavaFormatSource
              deviceFormat w).format
            (maccoreaudio_getDeviceFormat os deviceUID isJavaFormatSource
              deviceFormat w).world).format)
    ∧ ((maccoreaudio_getDeviceFormat os deviceUID isJavaFormatSource deviceFormat
        w).err ≠ noErr →
      (maccoreaudio_getDeviceFormatDeprecated os deviceUID isJavaFormatSource
        (maccoreaudio_getDeviceFormat os deviceUID isJavaFormatSource
          deviceFormat w).format
        (maccoreaudio_getDeviceFormat os deviceUID isJavaFormatSource
          deviceFormat w).world).err ≠ noErr →
      (maccoreaudio_initConverter os deviceUID javaFormat isJavaFormatSource
          converter conversionRatio deviceFormat w).deviceFormat
        = maccoreaudio_getDefaultFormat) := by
  have hf := (initConverter_formats os deviceUID javaFormat isJavaFormatSource
    converter conversionRatio deviceFormat w).1
  refine ⟨?_, ?_, ?_⟩
  · intro h1
    have hc : initConverter_deviceFormat os deviceUID isJavaFormatSource
        deviceFormat w
        = maccoreaudio_getDeviceFormat os deviceUID isJavaFormatSource
            deviceFormat w := by
      simp only [initConverter_deviceFormat]
      rw [if_neg (not_not.mpr h1)]
    refine ⟨by rw [hf, hc], hc, ?_⟩
    have hq := getDeviceFormat_no_deprecated os deviceUID isJavaFormatSource
      deviceFormat w
    cases isJavaFormatSource <;>
      simp only [maccoreaudio_initConverter, Bool.not_false, Bool.not_true,
        if_true, Bool.false_eq_true, if_false] <;>
      split_ifs <;>
      simp only [List.filter_append, hc, hq] <;>
      simp [Event.isDeprecatedQuery]
  · intro h1 h2
    rw [hf]
    simp only [initConverter_deviceFormat]
    rw [if_pos h1, if_neg (not_not.mpr h2)]
  · intro h1 h2
    rw [hf]
    simp only [initConverter_deviceFormat]
    rw [if_pos h1, if_pos h2]

/-- C24, in three systems: with `goodHAL` the first query succeeds and its
format (48000 Hz) is used; with `legacyHAL` the first query fails, the
deprecated one succeeds and its format (44100 Hz, 16 bit) is used; with
`noFormatHAL` both fail and the default format is used. -/
theorem initConverter_fallback_tiers_witness :
    (maccoreaudio_initConverter goodHAL "dev" javaFormat16 true 0 0 zeroFormat
        ()).deviceFormat = deviceFormat48
    ∧ (maccoreaudio_initConverter legacyHAL "dev" javaFormat16 true 0 0
        zeroFormat ()).deviceFormat = deviceFormat44
    ∧ (maccoreaudio_initConverter noFormatHAL "dev" javaFormat16 true 0 0
        zeroFormat ()).deviceFormat = maccoreaudio_getDefaultFormat :=
  ⟨((initConverter_fallback_tiers goodHAL "dev" javaFormat16 true 0 0
      zeroFormat ()).1 rfl).1,
    (initConverter_fallback_tiers legacyHAL "dev" javaFormat16 true 0 0
      zeroFormat ()).2.1 (by decide) rfl,
    (initConverter_fallback_tiers noFormatHAL "dev" javaFormat16 true 0 0
      zeroFormat ()).2.2 (by decide) (by decide)⟩

/-! ## Theorems: the scratch capacity of the input handler -/

/-- A call that is not a run of the converter offers no capacity, and a call
that is not an invocation of the callback passes no length. -/
theorem Event.no_capacity_no_length (e : Event) :
    (e.isConvert = false → e.convertCapacity = none)
    ∧ (e.isCallback = false → e.callbackLength = none) := by
  cases e <;> simp [Event.isConvert, Event.isCallback, Event.convertCapacity,
    Event.callbackLength]

/-- A list of calls without a run of the converter and without an invocation
of the callback contributes no capacity and no length. -/
theorem idle_capacities (tail : List Event)
    (h : ∀ e ∈ tail, e.isConvert = false ∧ e.isCallback = false) :
    convertCapacities tail = [] ∧ callbackLengths tail = [] := by
  induction tail with
  | nil => exact ⟨rfl, rfl⟩
  | cons e es ih =>
    have he := h e (List.mem_cons_self e es)
    have hes := ih (fun x hx => h x (List.mem_cons_of_mem e hx))
    have h1 := (Event.no_capacity_no_length e).1 he.1
    have h2 := (Event.no_capacity_no_length e).2 he.2
    unfold convertCapacities callbackLengths at hes ⊢
    rw [List.filterMap_cons, List.filterMap_cons, h1, h2]
    exact hes

/-- The capacities the loop of the input handler offers to the converter: none
when no buffer has data; otherwise the first one is the scratch length the
loop was entered with, and each later one, read as an `int`, is the length
passed to the callback after the conversion before it. -/
theorem readInputStream_loop_capacities {W : Type} (rt : RealTime W)
    (stream : maccoreaudio_stream) (bufs : List AudioBuffer) :
    ∀ (tmpLength : Nat) (tmpBuffer : Bytes) (w : W),
      (bufs.any AudioBuffer.hasData = false
        ∧ convertCapacities
            (readInputStream_loop rt stream bufs tmpLength tmpBuffer w).trace = [])
      ∨ (bufs.any AudioBuffer.hasData = true
        ∧ ∃ caps, convertCapacities
              (readInputStream_loop rt stream bufs tmpLength tmpBuffer w).trace
            = tmpLength :: caps
          ∧ caps.map intOfUInt32 <+: callbackLengths
              (readInputStream_loop rt stream bufs tmpLength tmpBuffer
                w).trace) := by
  induction bufs with
  | nil =>
    intro tmpLength tmpBuffer w
    exact Or.inl ⟨rfl, rfl⟩
  | cons b bs ih =>
    intro tmpLength tmpBuffer w
    by_cases hb : b.mData ≠ 0 ∧ b.mDataByteSize > 0
    · have hd : (b :: bs).any AudioBuffer.hasData = true := by
        simp only [List.any_cons, AudioBuffer.hasData, decide_eq_true hb,
          Bool.true_or]
      refine Or.inr ⟨hd, ?_⟩
      simp only [readInputStream_loop]
      rw [if_pos hb]
      generalize rt.AudioConverterConvertBuffer stream.converter b.mDataByteSize
        b.bytes tmpLength tmpBuffer w = cv
      by_cases hc : cv.1.1 ≠ noErr
      · rw [if_pos hc]
        exact ⟨[], rfl, List.nil_prefix⟩
      · rw [if_neg hc]
        generalize rt.callbackFunction stream.callbackFunction cv.1.2.2
          (intOfUInt32 cv.1.2.1) stream.callbackObject stream.callbackMethod
          cv.2 = cb
        rcases ih cv.1.2.1 cb.1 cb.2 with h | h
        · refine ⟨[], ?_, List.nil_prefix⟩
          simp only [convertCapacities, List.filterMap_append] at h ⊢
          rw [h.2]
          rfl
        · obtain ⟨caps, hcaps, hpre⟩ := h.2
          refine ⟨cv.1.2.1 :: caps, ?_, ?_⟩
          · simp only [convertCapacities, List.filterMap_append] at hcaps ⊢
            rw [hcaps]
            rfl
          · simp only [callbackLengths, List.filterMap_append] at hpre ⊢
            simp only [List.map_cons]
            exact (List.cons_prefix_cons).mpr ⟨rfl, hpre⟩
    · have hd : (b :: bs).any AudioBuffer.hasData
          = bs.any AudioBuffer.hasData := by
        simp only [List.any_cons, AudioBuffer.hasData, decide_eq_false hb,
          Bool.false_or]
      simp only [readInputStream_loop]
      rw [if_neg hb, hd]
      exact ih tmpLength tmpBuffer w

/-- The scratch lengths (size times ratio, truncated) of buffers of 8 and of 16
bytes on a stream of ratio 1. -/
theorem tmpLength_ratio_one :
    readInputStream_tmpLength (liveStream 1) 8 = 8
    ∧ readInputStream_tmpLength (liveStream 1) 16 = 16 := by
  have h8 : truncate (((8 : ℕ) : ℚ) * (liveStream 1).conversionRatio) = 8 := by
    show truncate (((8 : ℕ) : ℚ) * 1) = 8
    rw [Nat.cast_ofNat]
    norm_num [truncate]
  have h16 : truncate (((16 : ℕ) : ℚ) * (liveStream 1).conversionRatio) = 16 := by
    show truncate (((16 : ℕ) : ℚ) * 1) = 16
    rw [Nat.cast_ofNat]
    norm_num [truncate]
  unfold readInputStream_tmpLength
  rw [h8, h16]
  exact ⟨rfl, rfl⟩

/-- C27, refuted: on a running stream of ratio 1 with input buffers of 8 and of
16 bytes, both with data, in an environment whose converter reports as many
bytes as it was given room for, the converter is offered a capacity of 8 for
the first buffer and of 8 again for the second, whereas the size of the second
buffer times the ratio is 16. -/
theorem readInputStream_capacity_not_per_buffer :
    unevenBuffers.all AudioBuffer.hasData = true
    ∧ convertCapacities (maccoreaudio_readInputStream plainRT (liveStream 1)
        unevenBuffers (fun _ => 0) ()).trace = [8, 8]
    ∧ unevenBuffers.map
        (fun b => readInputStream_tmpLength (liveStream 1) b.mDataByteSize)
      = [8, 16] := by
  refine ⟨by decide, ?_, ?_⟩
  · have h := tmpLength_ratio_one.1
    unfold readInputStream_tmpLength at h
    simp only [maccoreaudio_readInputStream]
    have hh : ((unevenBuffers.head?.map AudioBuffer.mDataByteSize).getD 0) = 8 :=
      rfl
    rw [hh, h]
    rfl
  · show [readInputStream_tmpLength (liveStream 1) 8,
      readInputStream_tmpLength (liveStream 1) 16] = [8, 16]
    rw [tmpLength_ratio_one.1, tmpLength_ratio_one.2]

/-- The capacities offered to the converter in a cycle of the input handler
on a live stream whose lock attempt succeeds. -/
theorem readInputStream_capacities_of_live {W : Type} (rt : RealTime W)
    (stream : maccoreaudio_stream) (inInputData : List AudioBuffer)
    (tmpBuffer : Bytes) (w : W)
    (hl : (pthread_mutex_trylock rt stream.mutex w).ret = 0)
    (hi : stream.ioProcId ≠ 0) :
    (inInputData.any AudioBuffer.hasData = false
      ∧ convertCapacities (maccoreaudio_readInputStream rt stream inInputData
          tmpBuffer w).trace = [])
    ∨ (inInputData.any AudioBuffer.hasData = true
      ∧ ∃ caps, convertCapacities (maccoreaudio_readInputStream rt stream
            inInputData tmpBuffer w).trace
          = readInputStream_tmpLength stream
              ((inInputData.head?.map AudioBuffer.mDataByteSize).getD 0) :: caps
        ∧ caps.map intOfUInt32 <+: callbackLengths
            (maccoreaudio_readInputStream rt stream inInputData tmpBuffer
              w).trace) := by
  obtain ⟨tail, ht, hidle⟩ :=
    (readInputStream_of_live rt stream inInputData tmpBuffer w hl hi).2
  have htail := idle_capacities tail hidle
  have hc : convertCapacities (maccoreaudio_readInputStream rt stream
      inInputData tmpBuffer w).trace
      = convertCapacities (readInputStream_loop rt stream inInputData
          (readInputStream_tmpLength stream
            ((inInputData.head?.map AudioBuffer.mDataByteSize).getD 0))
          tmpBuffer (pthread_mutex_trylock rt stream.mutex w).world).trace := by
    rw [ht]
    unfold convertCapacities at htail ⊢
    rw [List.filterMap_append, List.filterMap_append, htail.1,
      List.append_nil]
    rfl
  have hk : callbackLengths (maccoreaudio_readInputStream rt stream
      inInputData tmpBuffer w).trace
      = callbackLengths (readInputStream_loop rt stream inInputData
          (readInputStream_tmpLength stream
            ((inInputData.head?.map AudioBuffer.mDataByteSize).getD 0))
          tmpBuffer (pthread_mutex_trylock rt stream.mutex w).world).trace := by
    rw [ht]
    unfold callbackLengths at htail ⊢
    rw [List.filterMap_append, List.filterMap_append, htail.2,
      List.append_nil]
    rfl
  rw [hc, hk]
  exact readInputStream_loop_capacities rt stream inInputData _ tmpBuffer _

/-- C27, amended: when the lock is acquired and `ioProcId` is non-zero, a cycle
of `maccoreaudio_readInputStream` in which no buffer has data runs the
converter not at all; in any other cycle the capacity offered to the first
run of the converter is (`mBuffers[0].mDataByteSize` times the conversion
ratio) truncated and converted to `UInt32`, whichever buffer that run
converts, and the capacity offered to each later run, read as an `int`, is the
length passed to the application callback after the run before it, that is,
the byte count reported by the previous conversion. -/
theorem readInputStream_capacities {W : Type} (rt : RealTime W)
    (stream : maccoreaudio_stream) (inInputData : List AudioBuffer)
    (tmpBuffer : Bytes) (w : W)
    (hl : (pthread_mutex_trylock rt stream.mutex w).ret = 0)
    (hi : stream.ioProcId ≠ 0) :
    (inInputData.any AudioBuffer.hasData = false
      ∧ convertCapacities (maccoreaudio_readInputStream rt stream inInputData
          tmpBuffer w).trace = [])
    ∨ (inInputData.any AudioBuffer.hasData = true
      ∧ ∃ caps, convertCapacities (maccoreaudio_readInputStream rt stream
            inInputData tmpBuffer w).trace
          = readInputStream_tmpLength stream
              ((inInputData.head?.map AudioBuffer.mDataByteSize).getD 0) :: caps
        ∧ caps.map intOfUInt32 <+: callbackLengths
            (maccoreaudio_readInputStream rt stream inInputData tmpBuffer
              w).trace) :=
  readInputStream_capacities_of_live rt stream inInputData tmpBuffer w hl hi

/-- C27 as amended, on the running stream of ratio 1 with the buffers of 8 and
of 16 bytes: the capacities offered are 8, from the first buffer, and then the
8 bytes the first conversion reported. -/
theorem readInputStream_capacities_witness :
    (pthread_mutex_trylock plainRT (liveStream 1).mutex ()).ret = 0
    ∧ (liveStream 1).ioProcId ≠ 0
    ∧ ((unevenBuffers.any AudioBuffer.hasData = false
        ∧ convertCapacities (maccoreaudio_readInputStream plainRT (liveStream 1)
            unevenBuffers (fun _ => 0) ()).trace = [])
      ∨ (unevenBuffers.any AudioBuffer.hasData = true
        ∧ ∃ caps, convertCapacities (maccoreaudio_readInputStream plainRT
              (liveStream 1) unevenBuffers (fun _ => 0) ()).trace
            = readInputStream_tmpLength (liveStream 1)
                ((unevenBuffers.head?.map AudioBuffer.mDataByteSize).getD 0)
              :: caps
          ∧ caps.map intOfUInt32 <+: callbackLengths
              (maccoreaudio_readInputStream plainRT (liveStream 1) unevenBuffers
                (fun _ => 0) ()).trace)) :=
  ⟨rfl, by decide,
    readInputStream_capacities plainRT (liveStream 1) unevenBuffers (fun _ => 0)
      () rfl (by decide)⟩

/-! ## Theorems: the balance of the guard -/

/-- The loop of the input handler never unlocks the mutex. -/
theorem readInputStream_loop_unlockCount {W : Type} (rt : RealTime W)
    (stream : maccoreaudio_stream) (bufs : List AudioBuffer) :
    ∀ (tmpLength : Nat) (tmpBuffer : Bytes) (w : W),
      unlockCount (readInputStream_loop rt stream bufs tmpLength tmpBuffer
        w).trace = 0 := by
  induction bufs with
  | nil =>
    intro tmpLength tmpBuffer w
    rfl
  | cons b bs ih =>
    intro tmpLength tmpBuffer w
    simp only [readInputStream_loop]
    split_ifs with hb hc
    · rfl
    · have h := ih (rt.AudioConverterConvertBuffer stream.converter
          b.mDataByteSize b.bytes tmpLength tmpBuffer w).1.2.1
        (rt.callbackFunction stream.callbackFunction
          (rt.AudioConverterConvertBuffer stream.converter b.mDataByteSize
            b.bytes tmpLength tmpBuffer w).1.2.2
          (intOfUInt32 (rt.AudioConverterConvertBuffer stream.converter
            b.mDataByteSize b.bytes tmpLength tmpBuffer w).1.2.1)
          stream.callbackObject stream.callbackMethod
          (rt.AudioConverterConvertBuffer stream.converter b.mDataByteSize
            b.bytes tmpLength tmpBuffer w).2).1
        (rt.callbackFunction stream.callbackFunction
          (rt.AudioConverterConvertBuffer stream.converter b.mDataByteSize
            b.bytes tmpLength tmpBuffer w).1.2.2
          (intOfUInt32 (rt.AudioConverterConvertBuffer stream.converter
            b.mDataByteSize b.bytes tmpLength tmpBuffer w).1.2.1)
          stream.callbackObject stream.callbackMethod
          (rt.AudioConverterConvertBuffer stream.converter b.mDataByteSize
            b.bytes tmpLength tmpBuffer w).2).2
      unfold unlockCount at h ⊢
      simp only [List.filter_append, List.length_append, h]
      rfl
    · exact ih tmpLength tmpBuffer w

/-- The number of unlocks in a cycle of the input handler: one when the lock
attempt returned 0, none otherwise. -/
theorem readInputStream_unlockCount {W : Type} (rt : RealTime W)
    (stream : maccoreaudio_stream) (inInputData : List AudioBuffer)
    (tmpBuffer : Bytes) (w : W) :
    unlockCount (maccoreaudio_readInputStream rt stream inInputData tmpBuffer
        w).trace
      = if (pthread_mutex_trylock rt stream.mutex w).ret = 0 then 1 else 0 := by
  have hloop := readInputStream_loop_unlockCount rt stream inInputData
  unfold unlockCount at hloop ⊢
  simp only [maccoreaudio_readInputStream]
  by_cases hl : (pthread_mutex_trylock rt stream.mutex w).ret = 0
  · rw [if_pos hl, if_pos hl]
    split_ifs <;>
      simp only [List.filter_append, List.length_append, hloop] <;>
      simp [Event.isUnlock]
  · rw [if_neg hl, if_neg hl]
    split_ifs <;> simp [Event.isUnlock]

/-- The number of unlocks in a cycle of the output handler: one when there is
a buffer and the lock attempt returned 0, none otherwise. -/
theorem writeOutputStream_unlockCount {W : Type} (rt : RealTime W)
    (stream : maccoreaudio_stream) (outOutputData : List AudioBuffer)
    (tmpBuffer : Bytes) (w : W) :
    unlockCount (maccoreaudio_writeOutputStream rt stream outOutputData
        tmpBuffer w).trace
      = if outOutputData.length ≠ 0
            ∧ (pthread_mutex_trylock rt stream.mutex w).ret = 0
        then 1 else 0 := by
  cases outOutputData with
  | nil => simp [maccoreaudio_writeOutputStream, unlockCount]
  | cons b0 rest =>
    unfold unlockCount
    simp only [maccoreaudio_writeOutputStream]
    by_cases hl : (pthread_mutex_trylock rt stream.mutex w).ret = 0
    · have hc : (b0 :: rest).length ≠ 0
          ∧ (pthread_mutex_trylock rt stream.mutex w).ret = 0 :=
        ⟨Nat.succ_ne_zero rest.length, hl⟩
      rw [if_pos hl, if_pos hc]
      split_ifs <;> simp [Event.isUnlock]
    · have hc : ¬ ((b0 :: rest).length ≠ 0
          ∧ (pthread_mutex_trylock rt stream.mutex w).ret = 0) :=
        fun h => hl h.2
      rw [if_neg hl, if_neg hc]
      split_ifs <;> simp [Event.isUnlock]

/-- A lock attempt that returns 0 found the mutex free and leaves it held; one
that does not return 0 leaves the mutex as it was. -/
theorem trylock_state {W : Type} (rt : RealTime W) (mutex : Bool) (w : W) :
    ((pthread_mutex_trylock rt mutex w).ret = 0 →
      mutex = false ∧ (pthread_mutex_trylock rt mutex w).mutex = true)
    ∧ ((pthread_mutex_trylock rt mutex w).ret ≠ 0 →
      (pthread_mutex_trylock rt mutex w).mutex = mutex) := by
  unfold pthread_mutex_trylock
  cases mutex <;> simp only [] <;> split_ifs <;> simp_all [EBUSY]

/-- The state of the mutex after a cycle of either handler, in terms of the
lock attempt and of the unlock that follows it. -/
theorem handlers_mutex {W : Type} (rt : RealTime W)
    (stream : maccoreaudio_stream) (buffers : List AudioBuffer)
    (tmpBuffer : Bytes) (w : W) :
    ((pthread_mutex_trylock rt stream.mutex w).ret ≠ 0 →
      (maccoreaudio_readInputStream rt stream buffers tmpBuffer w).stream.mutex
        = stream.mutex
      ∧ (maccoreaudio_writeOutputStream rt stream buffers tmpBuffer
          w).stream.mutex = stream.mutex)
    ∧ ((pthread_mutex_trylock rt stream.mutex w).ret = 0 →
      (∃ v, (maccoreaudio_readInputStream rt stream buffers tmpBuffer
          w).stream.mutex = (pthread_mutex_unlock rt true v).mutex)
      ∧ (buffers ≠ [] →
        ∃ v, (maccoreaudio_writeOutputStream rt stream buffers tmpBuffer
          w).stream.mutex = (pthread_mutex_unlock rt true v).mutex)) := by
  constructor
  · intro hl
    have hm := (trylock_state rt stream.mutex w).2 hl
    constructor
    · simp only [maccoreaudio_readInputStream]
      rw [if_neg hl]
      exact hm
    · cases buffers with
      | nil => rfl
      | cons b0 rest =>
        simp only [maccoreaudio_writeOutputStream]
        rw [if_neg hl]
        exact hm
  · intro hl
    have hm := ((trylock_state rt stream.mutex w).1 hl).2
    constructor
    · simp only [maccoreaudio_readInputStream]
      rw [if_pos hl, hm]
      split_ifs <;> exact ⟨_, rfl⟩
    · intro hne
      cases buffers with
      | nil => exact absurd rfl hne
      | cons b0 rest =>
        simp only [maccoreaudio_writeOutputStream]
        rw [if_pos hl, hm]
        split_ifs <;> exact ⟨_, rfl⟩

/-- C21: with the calls of a handler as an effect trace and the mutex as a
boolean of the stream, `maccoreaudio_readInputStream` unlocks exactly once on
every path on which the lock attempt returned 0 (the early return on a failed
conversion included) and never otherwise; `maccoreaudio_writeOutputStream`
unlocks exactly once on every path with at least one buffer on which the lock
attempt returned 0, and never on the return for an empty buffer list or after a
failed lock attempt; and when the operations on the mutex have no failure of
their own (a lock attempt fails only because the mutex is held, an unlock
always releases), the state of the mutex after either handler is its state
before. -/
theorem handlers_guard_balance {W : Type} (rt : RealTime W)
    (stream : maccoreaudio_stream) (buffers : List AudioBuffer)
    (tmpBuffer : Bytes) (w : W) :
    unlockCount (maccoreaudio_readInputStream rt stream buffers tmpBuffer
        w).trace
      = (if (pthread_mutex_trylock rt stream.mutex w).ret = 0 then 1 else 0)
    ∧ unlockCount (maccoreaudio_writeOutputStream rt stream buffers tmpBuffer
        w).trace
      = (if buffers.length ≠ 0
            ∧ (pthread_mutex_trylock rt stream.mutex w).ret = 0
          then 1 else 0)
    ∧ ((∀ v, (rt.mutexFault v).1 = 0) →
      (maccoreaudio_readInputStream rt stream buffers tmpBuffer w).stream.mutex
        = stream.mutex
      ∧ (maccoreaudio_writeOutputStream rt stream buffers tmpBuffer
          w).stream.mutex = stream.mutex) := by
  refine ⟨readInputStream_unlockCount rt stream buffers tmpBuffer w,
    writeOutputStream_unlockCount rt stream buffers tmpBuffer w, ?_⟩
  intro hf
  have hu : ∀ v, (pthread_mutex_unlock rt true v).mutex = false := by
    intro v
    unfold pthread_mutex_unlock
    simp only []
    rw [if_neg (not_not.mpr (hf v))]
  have hm := handlers_mutex rt stream buffers tmpBuffer w
  by_cases hl : (pthread_mutex_trylock rt stream.mutex w).ret = 0
  · have hfree := ((trylock_state rt stream.mutex w).1 hl).1
    constructor
    · obtain ⟨v, hv⟩ := (hm.2 hl).1
      rw [hv, hu v, hfree]
    · by_cases hne : buffers = []
      · subst hne
        rfl
      · obtain ⟨v, hv⟩ := (hm.2 hl).2 hne
        rw [hv, hu v, hfree]
  · exact hm.1 hl

/-- C21, on the running stream whose converter fails, with two output
buffers: the lock attempt returns 0, each handler unlocks once although it
returns early, and the mutex is free afterwards as it was before. -/
theorem handlers_guard_balance_witness :
    (pthread_mutex_trylock failingRT (liveStream 1).mutex ()).ret = 0
    ∧ (maccoreaudio_writeOutputStream failingRT (liveStream 1) outputBuffers
        (fun _ => 0) ()).ret ≠ noErr
    ∧ unlockCount (maccoreaudio_readInputStream failingRT (liveStream 1)
        outputBuffers (fun _ => 0) ()).trace = 1
    ∧ unlockCount (maccoreaudio_writeOutputStream failingRT (liveStream 1)
        outputBuffers (fun _ => 0) ()).trace = 1
    ∧ (maccoreaudio_readInputStream failingRT (liveStream 1) outputBuffers
        (fun _ => 0) ()).stream.mutex = (liveStream 1).mutex
    ∧ (maccoreaudio_writeOutputStream failingRT (liveStream 1) outputBuffers
        (fun _ => 0) ()).stream.mutex = (liveStream 1).mutex :=
  ⟨rfl, by decide,
    (handlers_guard_balance failingRT (liveStream 1) outputBuffers (fun _ => 0)
      ()).1,
    (handlers_guard_balance failingRT (liveStream 1) outputBuffers (fun _ => 0)
      ()).2.1,
    ((handlers_guard_balance failingRT (liveStream 1) outputBuffers (fun _ => 0)
      ()).2.2 (fun _ => rfl)).1,
    ((handlers_guard_balance failingRT (liveStream 1) outputBuffers (fun _ => 0)
      ()).2.2 (fun _ => rfl)).2⟩

/-- An unlock that fails leaves the mutex held: in an environment whose mutex
operations fail after the first one, the handlers return with the mutex held
although it was free before. -/
theorem handlers_unlock_fault :
    (liveStream 1).mutex = false
    ∧ (maccoreaudio_readInputStream unlockFaultRT (liveStream 1) outputBuffers
        (fun _ => 0) 0).stream.mutex = true
    ∧ (maccoreaudio_writeOutputStream unlockFaultRT (liveStream 1) outputBuffers
        (fun _ => 0) 0).stream.mutex = true := by
  exact ⟨rfl, rfl, rfl⟩

/-! ## Theorems: degenerate descriptors -/

/-- The descriptor of a sample format of fewer than 8 total bits, or of an
interleaved format without channels, has 0 bytes per frame. -/
theorem FillOutASBDForLPCM_degenerate (inSampleRate : ℚ)
    (inChannelsPerFrame inValidBitsPerChannel inTotalBitsPerChannel : Nat)
    (inIsFloat inIsBigEndian inIsNonInterleaved : Bool)
    (h : inTotalBitsPerChannel < 8
      ∨ (inIsNonInterleaved = false ∧ inChannelsPerFrame = 0)) :
    (FillOutASBDForLPCM inSampleRate inChannelsPerFrame inValidBitsPerChannel
      inTotalBitsPerChannel inIsFloat inIsBigEndian
      inIsNonInterleaved).mBytesPerFrame = 0 := by
  show ((if inIsNonInterleaved then 1 else inChannelsPerFrame)
    * (inTotalBitsPerChannel / 8)) % 2 ^ 32 = 0
  rcases h with h | ⟨h1, h2⟩
  · rw [Nat.div_eq_of_lt h, Nat.mul_zero, Nat.zero_mod]
  · rw [h1, h2]
    simp

/-- A stream returned by `maccoreaudio_startStream` carries the ratio stored by
a successful run of `maccoreaudio_initConverter` on the descriptor built from
the parameters as they came. -/
theorem startStream_ratio {W : Type} (os : HAL W) (rt : RealTime W)
    (ctl : Control W) (deviceUID : String)
    (callbackFunction callbackObject callbackMethod readWriteFunction : Nat)
    (isJavaFormatSource : Bool) (sampleRate : ℚ)
    (nbChannels bitsPerChannel : Nat)
    (isFloat isBigEndian isNonInterleaved : Bool)
    (deviceFormat : AudioStreamBasicDescription) (w : W)
    (s : maccoreaudio_stream)
    (hs : (maccoreaudio_startStream os rt ctl deviceUID callbackFunction
      callbackObject callbackMethod readWriteFunction isJavaFormatSource
      sampleRate nbChannels bitsPerChannel isFloat isBigEndian
      isNonInterleaved deviceFormat w).stream = some s) :
    ∃ c q v,
      (maccoreaudio_initConverter os deviceUID
        (FillOutASBDForLPCM sampleRate nbChannels bitsPerChannel bitsPerChannel
          isFloat isBigEndian isNonInterleaved) isJavaFormatSource c q
        deviceFormat v).err = noErr
      ∧ s.conversionRatio
        = (maccoreaudio_initConverter os deviceUID
            (FillOutASBDForLPCM sampleRate nbChannels bitsPerChannel
              bitsPerChannel isFloat isBigEndian isNonInterleaved)
            isJavaFormatSource c q deviceFormat v).conversionRatio := by
  simp only [maccoreaudio_startStream] at hs
  by_cases hdev : (maccoreaudio_getDevice os deviceUID w).device
      = kAudioObjectUnknown
  · rw [if_pos hdev] at hs
    cases hs
  · rw [if_neg hdev] at hs
    split at hs
    · cases hs
    · split_ifs at hs with h1 h2 h3 h4
      cases hs
      exact ⟨_, _, _, not_not.mp h2, rfl⟩

/-- C30: `FillOutASBDForLPCM` yields `mBytesPerFrame = 0` whenever the total
bits are fewer than 8, or the layout is interleaved and the channel count is
0; `maccoreaudio_startStream` passes `bitsPerChannel` and `nbChannels` on as
they came, so that every stream it returns for such parameters has the
conversion ratio 0: the numerator of the ratio is 0, which makes the quotient
0 for every device byte rate other than 0 (and, with the quotient by 0 of this
embedding, for the byte rate 0 as well).  In every cycle of a handler on that
stream the scratch length is then 0: the output handler asks the application
for 0 bytes, and the input handler offers the converter a capacity of 0 on its
first run. -/
theorem degenerate_descriptor_ratio {W : Type} (os : HAL W) (rt : RealTime W)
    (ctl : Control W) (deviceUID : String)
    (callbackFunction callbackObject callbackMethod readWriteFunction : Nat)
    (isJavaFormatSource : Bool) (sampleRate : ℚ)
    (nbChannels validBitsPerChannel bitsPerChannel : Nat)
    (isFloat isBigEndian isNonInterleaved : Bool)
    (deviceFormat : AudioStreamBasicDescription) (w : W)
    (h : bitsPerChannel < 8 ∨ (isNonInterleaved = false ∧ nbChannels = 0)) :
    (FillOutASBDForLPCM sampleRate nbChannels validBitsPerChannel bitsPerChannel
      isFloat isBigEndian isNonInterleaved).mBytesPerFrame = 0
    ∧ ∀ s, (maccoreaudio_startStream os rt ctl deviceUID callbackFunction
        callbackObject callbackMethod readWriteFunction isJavaFormatSource
        sampleRate nbChannels bitsPerChannel isFloat isBigEndian
        isNonInterleaved deviceFormat w).stream = some s →
      s.conversionRatio = 0
      ∧ (∀ b0, writeOutputStream_tmpLength s b0 = 0)
      ∧ (∀ n, readInputStream_tmpLength s n = 0)
      ∧ (∀ b0 rest tmpBuffer v,
          callbackLengths (maccoreaudio_writeOutputStream rt s (b0 :: rest)
              tmpBuffer v).trace
            = if (pthread_mutex_trylock rt s.mutex v).ret = 0 ∧ s.ioProcId ≠ 0
              then [0] else [])
      ∧ (∀ inInputData tmpBuffer v,
          (pthread_mutex_trylock rt s.mutex v).ret = 0 → s.ioProcId ≠ 0 →
          convertCapacities (maccoreaudio_readInputStream rt s inInputData
              tmpBuffer v).trace = []
          ∨ (convertCapacities (maccoreaudio_readInputStream rt s inInputData
              tmpBuffer v).trace).head? = some 0) := by
  refine ⟨FillOutASBDForLPCM_degenerate sampleRate nbChannels
    validBitsPerChannel bitsPerChannel isFloat isBigEndian isNonInterleaved h,
    ?_⟩
  intro s hs
  obtain ⟨c, q, v, herr, hr⟩ := startStream_ratio os rt ctl deviceUID
    callbackFunction callbackObject callbackMethod readWriteFunction
    isJavaFormatSource sampleRate nbChannels bitsPerChannel isFloat isBigEndian
    isNonInterleaved deviceFormat w s hs
  have hz : s.conversionRatio = 0 := by
    rw [hr, initConverter_ratio_eq os deviceUID _ isJavaFormatSource c q
      deviceFormat v herr,
      FillOutASBDForLPCM_degenerate sampleRate nbChannels bitsPerChannel
        bitsPerChannel isFloat isBigEndian isNonInterleaved h]
    simp
  have ht : ∀ n : Nat, truncate ((n : ℚ) * s.conversionRatio) = 0 := by
    intro n
    rw [hz, mul_zero]
    rfl
  refine ⟨hz, fun b0 => ht b0.mDataByteSize, ?_, ?_, ?_⟩
  · intro n
    unfold readInputStream_tmpLength
    rw [ht n]
    rfl
  · intro b0 rest tmpBuffer v
    rw [writeOutputStream_callbackLengths rt s b0 rest tmpBuffer v,
      ht b0.mDataByteSize]
  · intro inInputData tmpBuffer v hl hi
    rcases readInputStream_capacities_of_live rt s inInputData tmpBuffer v hl hi
      with h0 | ⟨_, caps, hc, _⟩
    · exact Or.inl h0.2
    · refine Or.inr ?_
      rw [hc]
      unfold readInputStream_tmpLength
      rw [ht]
      rfl

/-- C30, on a system in which every call succeeds: a start with 4 bits per
channel is not refused, and the stream it returns has the ratio 0. -/
theorem degenerate_descriptor_ratio_witness :
    ((4 : Nat) < 8 ∨ (false = false ∧ (2 : Nat) = 0))
    ∧ (maccoreaudio_startStream goodHAL plainRT plainControl "dev" 11 12 13
        writeOutputStream_address true 44100 2 4 false false false zeroFormat
        ()).outcome = .started
    ∧ ∀ s, (maccoreaudio_startStream goodHAL plainRT plainControl "dev" 11 12 13
        writeOutputStream_address true 44100 2 4 false false false zeroFormat
        ()).stream = some s → s.conversionRatio = 0 :=
  ⟨Or.inl (by decide), rfl,
    fun s hs =>
      ((degenerate_descriptor_ratio goodHAL plainRT plainControl "dev" 11 12 13
        writeOutputStream_address true 44100 2 4 4 false false false zeroFormat
        () (Or.inl (by decide))).2 s hs).1⟩

/-! ## Theorems: the additional buffers after a failed conversion -/

/-- The output handler on a live stream whose conversion fails: the status of
the converter is returned, the first buffer is zero-filled over the size the
converter left, and the list of the additional buffers is the one the handler
was given. -/
theorem writeOutputStream_of_failure {W : Type} (rt : RealTime W)
    (stream : maccoreaudio_stream) (b0 : AudioBuffer) (rest : List AudioBuffer)
    (tmpBuffer : Bytes) (w : W)
    (hl : (pthread_mutex_trylock rt stream.mutex w).ret = 0)
    (hi : stream.ioProcId ≠ 0)
    (hf : (writeOutputStream_conversion rt stream b0 tmpBuffer w).1.1 ≠ noErr) :
    (maccoreaudio_writeOutputStream rt stream (b0 :: rest) tmpBuffer w).ret
      = (writeOutputStream_conversion rt stream b0 tmpBuffer w).1.1
    ∧ (maccoreaudio_writeOutputStream rt stream (b0 :: rest) tmpBuffer
        w).buffers.tail = rest := by
  simp only [writeOutputStream_conversion, writeOutputStream_callback,
    writeOutputStream_tmpLength] at hf
  simp only [maccoreaudio_writeOutputStream, writeOutputStream_conversion,
    writeOutputStream_callback, writeOutputStream_tmpLength]
  rw [if_pos hl, if_pos hi, if_pos hf]
  exact ⟨rfl, rfl⟩

/-- C26, refuted: on a running stream whose converter fails, with
output buffers of 8 bytes (all 1) and of 12 bytes (all 2), the handler returns
the status of the converter with the first buffer zero-filled and the second
buffer exactly as it was given: its bytes are still 2, not 0. -/
theorem writeOutputStream_failure_skips_replication :
    (pthread_mutex_trylock failingRT (liveStream 1).mutex ()).ret = 0
    ∧ (liveStream 1).ioProcId ≠ 0
    ∧ (maccoreaudio_writeOutputStream failingRT (liveStream 1) outputBuffers
        (fun _ => 0) ()).ret = -50
    ∧ (∃ first, (maccoreaudio_writeOutputStream failingRT (liveStream 1)
          outputBuffers (fun _ => 0) ()).buffers.head? = some first
        ∧ first.mDataByteSize = 8
        ∧ ∀ k, k < 8 → first.bytes k = 0)
    ∧ (maccoreaudio_writeOutputStream failingRT (liveStream 1) outputBuffers
        (fun _ => 0) ()).buffers.tail = [constBuffer 12 2]
    ∧ (constBuffer 12 2).mDataByteSize = 12
    ∧ ∀ k, k < 12 → (constBuffer 12 2).bytes k = 2 := by
  have hf : (writeOutputStream_conversion failingRT (liveStream 1)
      (constBuffer 8 1) (fun _ => 0) ()).1.1 ≠ noErr := by decide
  have h := writeOutputStream_of_failure failingRT (liveStream 1)
    (constBuffer 8 1) [constBuffer 12 2] (fun _ => 0) () rfl (by decide) hf
  have hs := writeOutputStream_of_live failingRT (liveStream 1)
    (constBuffer 8 1) [constBuffer 12 2] (fun _ => 0) () rfl (by decide)
  refine ⟨rfl, by decide, h.1, ⟨_, hs.2.1, rfl, ?_⟩, h.2, rfl, fun _ _ => rfl⟩
  intro k hk
  simp only [if_pos hf, memset]
  rw [if_pos ⟨Nat.zero_le k, by simpa using hk⟩]

/-- The buffers the output handler leaves on a live stream whose lock attempt
succeeds: after a failed conversion, the first buffer zero-filled over the
size the converter left, followed by the additional buffers as they were
given; after a successful conversion, the first buffer as the converter left
it, followed by the additional buffers passed through the replication loop. -/
theorem writeOutputStream_live_buffers {W : Type} (rt : RealTime W)
    (stream : maccoreaudio_stream) (b0 : AudioBuffer) (rest : List AudioBuffer)
    (tmpBuffer : Bytes) (w : W)
    (hl : (pthread_mutex_trylock rt stream.mutex w).ret = 0)
    (hi : stream.ioProcId ≠ 0) :
    ((writeOutputStream_conversion rt stream b0 tmpBuffer w).1.1 ≠ noErr →
      (maccoreaudio_writeOutputStream rt stream (b0 :: rest) tmpBuffer
          w).buffers
        = { b0 with
            mDataByteSize :=
              (writeOutputStream_conversion rt stream b0 tmpBuffer w).1.2.1
            bytes := memset
              (writeOutputStream_conversion rt stream b0 tmpBuffer w).1.2.2 0 0
              (writeOutputStream_conversion rt stream b0 tmpBuffer w).1.2.1 }
          :: rest)
    ∧ ((writeOutputStream_conversion rt stream b0 tmpBuffer w).1.1 = noErr →
      (maccoreaudio_writeOutputStream rt stream (b0 :: rest) tmpBuffer
          w).buffers
        = { b0 with
            mDataByteSize :=
              (writeOutputStream_conversion rt stream b0 tmpBuffer w).1.2.1
            bytes :=
              (writeOutputStream_conversion rt stream b0 tmpBuffer w).1.2.2 }
          :: rest.map (writeOutputStream_copy
            { b0 with
              mDataByteSize :=
                (writeOutputStream_conversion rt stream b0 tmpBuffer w).1.2.1
              bytes :=
                (writeOutputStream_conversion rt stream b0 tmpBuffer
                  w).1.2.2 })) := by
  constructor
  · intro hf
    simp only [writeOutputStream_conversion, writeOutputStream_callback,
      writeOutputStream_tmpLength] at hf
    simp only [maccoreaudio_writeOutputStream, writeOutputStream_conversion,
      writeOutputStream_callback, writeOutputStream_tmpLength]
    rw [if_pos hl, if_pos hi, if_pos hf]
  · intro hf
    simp only [writeOutputStream_conversion, writeOutputStream_callback,
      writeOutputStream_tmpLength] at hf
    simp only [maccoreaudio_writeOutputStream, writeOutputStream_conversion,
      writeOutputStream_callback, writeOutputStream_tmpLength]
    rw [if_pos hl, if_pos hi, if_neg (not_not.mpr hf)]

/-- C26, amended: when the lock is acquired, `ioProcId` is non-zero and the
converter fails in `maccoreaudio_writeOutputStream`, the handler returns the
status of the converter at once: the first output buffer is zero over the
size the converter left, and every additional output buffer is left exactly
as it was given, bytes and size; there is no replication on this path.  When
the converter succeeds, every additional buffer is passed through the
replication loop against the first buffer as the converter left it. -/
theorem writeOutputStream_failure_leaves_rest {W : Type} (rt : RealTime W)
    (stream : maccoreaudio_stream) (b0 : AudioBuffer) (rest : List AudioBuffer)
    (tmpBuffer : Bytes) (w : W)
    (hl : (pthread_mutex_trylock rt stream.mutex w).ret = 0)
    (hi : stream.ioProcId ≠ 0) :
    ((writeOutputStream_conversion rt stream b0 tmpBuffer w).1.1 ≠ noErr →
      (maccoreaudio_writeOutputStream rt stream (b0 :: rest) tmpBuffer w).ret
        = (writeOutputStream_conversion rt stream b0 tmpBuffer w).1.1
      ∧ (∃ first, (maccoreaudio_writeOutputStream rt stream (b0 :: rest)
            tmpBuffer w).buffers[0]? = some first
          ∧ first.mDataByteSize
            = (writeOutputStream_conversion rt stream b0 tmpBuffer w).1.2.1
          ∧ ∀ k, k < first.mDataByteSize → first.bytes k = 0)
      ∧ (maccoreaudio_writeOutputStream rt stream (b0 :: rest) tmpBuffer
          w).buffers.length = rest.length + 1
      ∧ ∀ i, (maccoreaudio_writeOutputStream rt stream (b0 :: rest) tmpBuffer
          w).buffers[i + 1]? = rest[i]?)
    ∧ ((writeOutputStream_conversion rt stream b0 tmpBuffer w).1.1 = noErr →
      (maccoreaudio_writeOutputStream rt stream (b0 :: rest) tmpBuffer w).ret
        = noErr
      ∧ ∀ i b, rest[i]? = some b →
          (maccoreaudio_writeOutputStream rt stream (b0 :: rest) tmpBuffer
            w).buffers[i + 1]?
          = some (writeOutputStream_copy
              { b0 with
                mDataByteSize :=
                  (writeOutputStream_conversion rt stream b0 tmpBuffer w).1.2.1
                bytes :=
                  (writeOutputStream_conversion rt stream b0 tmpBuffer
                    w).1.2.2 } b)) := by
  have hb := writeOutputStream_live_buffers rt stream b0 rest tmpBuffer w hl hi
  have hr := (writeOutputStream_of_live rt stream b0 rest tmpBuffer w hl hi).1
  constructor
  · intro hf
    rw [hb.1 hf]
    refine ⟨hr, ⟨_, List.getElem?_cons_zero, rfl, ?_⟩, rfl,
      fun i => List.getElem?_cons_succ⟩
    intro k hk
    simp only [memset]
    rw [if_pos ⟨Nat.zero_le k, by simpa using hk⟩]
  · intro hf
    rw [hb.2 hf]
    refine ⟨by rw [hr, hf], ?_⟩
    intro i b hib
    exact replicated_getElem _ rest i b hib

/-- C26 as amended, on the running stream whose converter fails, with output
buffers of 8 bytes (all 1) and of 12 bytes (all 2): the handler returns the
status of the converter and the second buffer is the one it was given. -/
theorem writeOutputStream_failure_leaves_rest_witness :
    (pthread_mutex_trylock failingRT (liveStream 1).mutex ()).ret = 0
    ∧ (liveStream 1).ioProcId ≠ 0
    ∧ (writeOutputStream_conversion failingRT (liveStream 1) (constBuffer 8 1)
        (fun _ => 0) ()).1.1 ≠ noErr
    ∧ (maccoreaudio_writeOutputStream failingRT (liveStream 1)
        (constBuffer 8 1 :: [constBuffer 12 2]) (fun _ => 0) ()).ret
      = (writeOutputStream_conversion failingRT (liveStream 1)
          (constBuffer 8 1) (fun _ => 0) ()).1.1
    ∧ (maccoreaudio_writeOutputStream failingRT (liveStream 1)
        (constBuffer 8 1 :: [constBuffer 12 2]) (fun _ => 0) ()).buffers[0 + 1]?
      = [constBuffer 12 2][0]? :=
  ⟨rfl, by decide, by decide,
    ((writeOutputStream_failure_leaves_rest failingRT (liveStream 1)
      (constBuffer 8 1) [constBuffer 12 2] (fun _ => 0) () rfl (by decide)).1
      (by decide)).1,
    ((writeOutputStream_failure_leaves_rest failingRT (liveStream 1)
      (constBuffer 8 1) [constBuffer 12 2] (fun _ => 0) () rfl (by decide)).1
      (by decide)).2.2.2 0⟩

/-! ## Theorems: the status of the volume setter -/

/-- The status of `maccoreaudio_setDeviceVolume` on each of its paths: -1 when
the device does not resolve; `noErr`, the initial value of the local `err`,
when `maccoreaudio_getChannelsForStereo` fails; and otherwise the status the
loop over the elements ends with. -/
theorem setDeviceVolume_status {W : Type} (os : HAL W) (vh : VolumeHAL W)
    (deviceUID : String) (volume : ℚ) (inputOutputScope : Nat)
    (channels : Nat × Nat) (w : W) :
    ((maccoreaudio_getDevice os deviceUID w).device = kAudioObjectUnknown →
      (maccoreaudio_setDeviceVolume os vh deviceUID volume inputOutputScope
        channels w).err = -1)
    ∧ ((maccoreaudio_getDevice os deviceUID w).device ≠ kAudioObjectUnknown →
      (maccoreaudio_getChannelsForStereo os vh deviceUID channels
        (maccoreaudio_getDevice os deviceUID w).world).err ≠ noErr →
      (maccoreaudio_setDeviceVolume os vh deviceUID volume inputOutputScope
        channels w).err = noErr) := by
  constructor
  · intro hd
    simp only [maccoreaudio_setDeviceVolume]
    rw [if_pos hd]
  · intro hd hc
    simp only [maccoreaudio_setDeviceVolume]
    rw [if_neg hd, if_pos hc]

/-- The loop over the elements ends with `noErr` unless a call of
`AudioObjectSetPropertyData` failed, in which case it ends with the status of
that call. -/
theorem setDeviceVolume_loop_status {W : Type} (vh : VolumeHAL W)
    (device inputOutputScope : Nat) (volume : ℚ) (elements : List Nat) :
    ∀ (err : OSStatus) (w : W), err = noErr →
      (setDeviceVolume_loop vh device inputOutputScope volume elements err
        w).err = noErr
      ∨ ∃ element v,
          (setDeviceVolume_loop vh device inputOutputScope volume elements err
            w).err = (vh.setVolumeScalar device inputOutputScope element volume
              v).1
          ∧ (vh.setVolumeScalar device inputOutputScope element volume v).1
            ≠ noErr := by
  induction elements with
  | nil =>
    intro err w he
    exact Or.inl he
  | cons element elements ih =>
    intro err w he
    simp only [setDeviceVolume_loop]
    split_ifs with h1 h2
    · exact Or.inr ⟨_, _, rfl, h2⟩
    · exact ih _ _ (not_not.mp h2)
    · exact ih _ _ he

/-- C23, refuted on the code: on a device that resolves and whose query of the
preferred stereo channels fails (`maccoreaudio_getChannelsForStereo` returns
`'who?'`), `maccoreaudio_setDeviceVolume` sets no volume and returns
`noErr`. -/
theorem setDeviceVolume_stereo_failure_noErr :
    (maccoreaudio_getDevice goodHAL "dev" ()).device ≠ kAudioObjectUnknown
    ∧ (maccoreaudio_getChannelsForStereo goodHAL noStereoVolume "dev" (0, 0)
        ()).err = 0x77686F3F
    ∧ (maccoreaudio_getChannelsForStereo goodHAL noStereoVolume "dev" (0, 0)
        ()).err ≠ noErr
    ∧ (maccoreaudio_setDeviceVolume goodHAL noStereoVolume "dev" (1 / 2)
        kAudioDevicePropertyScopeOutput (0, 0) ()).err = noErr :=
  ⟨by decide, rfl, by decide,
    (setDeviceVolume_status goodHAL noStereoVolume "dev" (1 / 2)
      kAudioDevicePropertyScopeOutput (0, 0) ()).2 (by decide) (by decide)⟩

/-- The two other failures of the volume setter are reported: an unknown
device gives -1, and a refusal of the volume on the channel elements gives the
status of the refused call. -/
theorem setDeviceVolume_reported_failures :
    (maccoreaudio_setDeviceVolume unknownHAL plainVolume "gone" (1 / 2)
        kAudioDevicePropertyScopeOutput (0, 0) ()).err = -1
    ∧ (maccoreaudio_setDeviceVolume goodHAL noChannelVolume "dev" (1 / 2)
        kAudioDevicePropertyScopeOutput (0, 0) ()).err = 0x6E6F7065
    ∧ (maccoreaudio_setDeviceVolume goodHAL plainVolume "dev" (1 / 2)
        kAudioDevicePropertyScopeOutput (0, 0) ()).err = noErr :=
  ⟨rfl, rfl, rfl⟩

/-! ## Theorems: the failure points of `maccoreaudio_startStream` -/

/-- What `maccoreaudio_startStream` returns and which resources its calls set
out to acquire and release, at each of its failure points and on success; the
failure point is given by the results of the calls themselves. -/
theorem startStream_failure_points {W : Type} (os : HAL W) (rt : RealTime W)
    (ctl : Control W) (deviceUID : String)
    (callbackFunction callbackObject callbackMethod readWriteFunction : Nat)
    (isJavaFormatSource : Bool) (sampleRate : ℚ)
    (nbChannels bitsPerChannel : Nat)
    (isFloat isBigEndian isNonInterleaved : Bool)
    (deviceFormat : AudioStreamBasicDescription) (w : W) :
    ((maccoreaudio_getDevice os deviceUID w).device = kAudioObjectUnknown →
      (maccoreaudio_startStream os rt ctl deviceUID callbackFunction
        callbackObject callbackMethod readWriteFunction isJavaFormatSource
        sampleRate nbChannels bitsPerChannel isFloat isBigEndian
        isNonInterleaved deviceFormat w).stream = none
      ∧ (maccoreaudio_startStream os rt ctl deviceUID callbackFunction
        callbackObject callbackMethod readWriteFunction isJavaFormatSource
        sampleRate nbChannels bitsPerChannel isFloat isBigEndian
        isNonInterleaved deviceFormat w).trace.filterMap Event.acquires = []
      ∧ (maccoreaudio_startStream os rt ctl deviceUID callbackFunction
        callbackObject callbackMethod readWriteFunction isJavaFormatSource
        sampleRate nbChannels bitsPerChannel isFloat isBigEndian
        isNonInterleaved deviceFormat w).trace.filterMap Event.releases = [])
    ∧ ((maccoreaudio_getDevice os deviceUID w).device ≠ kAudioObjectUnknown →
      (startStream_malloc os ctl deviceUID w).1 = none →
      (maccoreaudio_startStream os rt ctl deviceUID callbackFunction
        callbackObject callbackMethod readWriteFunction isJavaFormatSource
        sampleRate nbChannels bitsPerChannel isFloat isBigEndian
        isNonInterleaved deviceFormat w).stream = none
      ∧ (maccoreaudio_startStream os rt ctl deviceUID callbackFunction
        callbackObject callbackMethod readWriteFunction isJavaFormatSource
        sampleRate nbChannels bitsPerChannel isFloat isBigEndian
        isNonInterleaved deviceFormat w).trace.filterMap Event.acquires
          = [.block]
      ∧ (maccoreaudio_startStream os rt ctl deviceUID callbackFunction
        callbackObject callbackMethod readWriteFunction isJavaFormatSource
        sampleRate nbChannels bitsPerChannel isFloat isBigEndian
        isNonInterleaved deviceFormat w).trace.filterMap Event.releases = [])
    ∧ (∀ block,
      (maccoreaudio_getDevice os deviceUID w).device ≠ kAudioObjectUnknown →
      (startStream_malloc os ctl deviceUID w).1 = some block →
      ((startStream_mutexInit os rt ctl deviceUID w block).ret ≠ 0 →
        (maccoreaudio_startStream os rt ctl deviceUID callbackFunction
          callbackObject callbackMethod readWriteFunction isJavaFormatSource
          sampleRate nbChannels bitsPerChannel isFloat isBigEndian
          isNonInterleaved deviceFormat w).stream = none
        ∧ (maccoreaudio_startStream os rt ctl deviceUID callbackFunction
          callbackObject callbackMethod readWriteFunction isJavaFormatSource
          sampleRate nbChannels bitsPerChannel isFloat isBigEndian
          isNonInterleaved deviceFormat w).trace.filterMap Event.acquires
            = [.block, .mutex]
        ∧ (maccoreaudio_startStream os rt ctl deviceUID callbackFunction
          callbackObject callbackMethod readWriteFunction isJavaFormatSource
          sampleRate nbChannels bitsPerChannel isFloat isBigEndian
          isNonInterleaved deviceFormat w).trace.filterMap Event.releases
            = [.block])
      ∧ ((startStream_mutexInit os rt ctl deviceUID w block).ret = 0 →
        (startStream_initConverter os rt ctl deviceUID isJavaFormatSource
          sampleRate nbChannels bitsPerChannel isFloat isBigEndian
          isNonInterleaved deviceFormat w block).err ≠ noErr →
        (maccoreaudio_startStream os rt ctl deviceUID callbackFunction
          callbackObject callbackMethod readWriteFunction isJavaFormatSource
          sampleRate nbChannels bitsPerChannel isFloat isBigEndian
          isNonInterleaved deviceFormat w).stream = none
        ∧ (maccoreaudio_startStream os rt ctl deviceUID callbackFunction
          callbackObject callbackMethod readWriteFunction isJavaFormatSource
          sampleRate nbChannels bitsPerChannel isFloat isBigEndian
          isNonInterleaved deviceFormat w).trace.filterMap Event.acquires
            = [.block, .mutex, .converter]
        ∧ (maccoreaudio_startStream os rt ctl deviceUID callbackFunction
          callbackObject callbackMethod readWriteFunction isJavaFormatSource
          sampleRate nbChannels bitsPerChannel isFloat isBigEndian
          isNonInterleaved deviceFormat w).trace.filterMap Event.releases
            = [.mutex, .block])
      ∧ ((startStream_mutexInit os rt ctl deviceUID w block).ret = 0 →
        (startStream_initConverter os rt ctl deviceUID isJavaFormatSource
          sampleRate nbChannels bitsPerChannel isFloat isBigEndian
          isNonInterleaved deviceFormat w block).err = noErr →
        (startStream_createIOProc os rt ctl deviceUID readWriteFunction
          isJavaFormatSource sampleRate nbChannels bitsPerChannel isFloat
          isBigEndian isNonInterleaved deviceFormat w block).1.1 ≠ noErr →
        (maccoreaudio_startStream os rt ctl deviceUID callbackFunction
          callbackObject callbackMethod readWriteFunction isJavaFormatSource
          sampleRate nbChannels bitsPerChannel isFloat isBigEndian
          isNonInterleaved deviceFormat w).stream = none
        ∧ (maccoreaudio_startStream os rt ctl deviceUID callbackFunction
          callbackObject callbackMethod readWriteFunction isJavaFormatSource
          sampleRate nbChannels bitsPerChannel isFloat isBigEndian
          isNonInterleaved deviceFormat w).trace.filterMap Event.acquires
            = [.block, .mutex, .converter, .registration]
        ∧ (maccoreaudio_startStream os rt ctl deviceUID callbackFunction
          callbackObject callbackMethod readWriteFunction isJavaFormatSource
          sampleRate nbChannels bitsPerChannel isFloat isBigEndian
          isNonInterleaved deviceFormat w).trace.filterMap Event.releases
            = [.converter, .mutex, .block])
      ∧ ((startStream_mutexInit os rt ctl deviceUID w block).ret = 0 →
        (startStream_initConverter os rt ctl deviceUID isJavaFormatSource
          sampleRate nbChannels bitsPerChannel isFloat isBigEndian
          isNonInterleaved deviceFormat w block).err = noErr →
        (startStream_createIOProc os rt ctl deviceUID readWriteFunction
          isJavaFormatSource sampleRate nbChannels bitsPerChannel isFloat
          isBigEndian isNonInterleaved deviceFormat w block).1.1 = noErr →
        (startStream_deviceStart os rt ctl deviceUID readWriteFunction
          isJavaFormatSource sampleRate nbChannels bitsPerChannel isFloat
          isBigEndian isNonInterleaved deviceFormat w block).1 ≠ noErr →
        (maccoreaudio_startStream os rt ctl deviceUID callbackFunction
          callbackObject callbackMethod readWriteFunction isJavaFormatSource
          sampleRate nbChannels bitsPerChannel isFloat isBigEndian
          isNonInterleaved deviceFormat w).stream = none
        ∧ (maccoreaudio_startStream os rt ctl deviceUID callbackFunction
          callbackObject callbackMethod readWriteFunction isJavaFormatSource
          sampleRate nbChannels bitsPerChannel isFloat isBigEndian
          isNonInterleaved deviceFormat w).trace.filterMap Event.acquires
            = [.block, .mutex, .converter, .registration]
        ∧ (maccoreaudio_startStream os rt ctl deviceUID callbackFunction
          callbackObject callbackMethod readWriteFunction isJavaFormatSource
          sampleRate nbChannels bitsPerChannel isFloat isBigEndian
          isNonInterleaved deviceFormat w).trace.filterMap Event.releases
            = [.registration, .converter, .mutex, .block])
      ∧ ((startStream_mutexInit os rt ctl deviceUID w block).ret = 0 →
        (startStream_initConverter os rt ctl deviceUID isJavaFormatSource
          sampleRate nbChannels bitsPerChannel isFloat isBigEndian
          isNonInterleaved deviceFormat w block).err = noErr →
        (startStream_createIOProc os rt ctl deviceUID readWriteFunction
          isJavaFormatSource sampleRate nbChannels bitsPerChannel isFloat
          isBigEndian isNonInterleaved deviceFormat w block).1.1 = noErr →
        (startStream_deviceStart os rt ctl deviceUID readWriteFunction
          isJavaFormatSource sampleRate nbChannels bitsPerChannel isFloat
          isBigEndian isNonInterleaved deviceFormat w block).1 = noErr →
        (maccoreaudio_startStream os rt ctl deviceUID callbackFunction
          callbackObject callbackMethod readWriteFunction isJavaFormatSource
          sampleRate nbChannels bitsPerChannel isFloat isBigEndian
          isNonInterleaved deviceFormat w).stream.isSome = true
        ∧ (maccoreaudio_startStream os rt ctl deviceUID callbackFunction
          callbackObject callbackMethod readWriteFunction isJavaFormatSource
          sampleRate nbChannels bitsPerChannel isFloat isBigEndian
          isNonInterleaved deviceFormat w).trace.filterMap Event.acquires
            = [.block, .mutex, .converter, .registration]
        ∧ (maccoreaudio_startStream os rt ctl deviceUID callbackFunction
          callbackObject callbackMethod readWriteFunction isJavaFormatSource
          sampleRate nbChannels bitsPerChannel isFloat isBigEndian
          isNonInterleaved deviceFormat w).trace.filterMap Event.releases
            = [])) := by
  have hd := getDevice_trace os deviceUID w isJavaFormatSource
    (FillOutASBDForLPCM sampleRate nbChannels bitsPerChannel bitsPerChannel
      isFloat isBigEndian isNonInterleaved) readWriteFunction
  have hc1 : ∀ c q v, (maccoreaudio_initConverter os deviceUID
      (FillOutASBDForLPCM sampleRate nbChannels bitsPerChannel bitsPerChannel
        isFloat isBigEndian isNonInterleaved) isJavaFormatSource c q
      deviceFormat v).trace.filterMap Event.acquires = [.converter] :=
    fun c q v => (initConverter_trace os deviceUID _ isJavaFormatSource c q
      deviceFormat v readWriteFunction).1
  have hc2 : ∀ c q v, (maccoreaudio_initConverter os deviceUID
      (FillOutASBDForLPCM sampleRate nbChannels bitsPerChannel bitsPerChannel
        isFloat isBigEndian isNonInterleaved) isJavaFormatSource c q
      deviceFormat v).trace.filterMap Event.releases = [] :=
    fun c q v => (initConverter_trace os deviceUID _ isJavaFormatSource c q
      deviceFormat v readWriteFunction).2.1
  refine ⟨?_, ?_, ?_⟩
  · intro hdev
    simp only [maccoreaudio_startStream]
    rw [if_pos hdev]
    refine ⟨rfl, ?_, ?_⟩ <;>
      simp [List.filterMap_append, hd.1, hd.2.1, Event.acquires, Event.releases]
  · intro hdev hmal
    simp only [startStream_malloc] at hmal
    simp only [maccoreaudio_startStream]
    rw [if_neg hdev]
    simp only [hmal]
    refine ⟨trivial, ?_, ?_⟩ <;>
      simp [List.filterMap_append, hd.1, hd.2.1, Event.acquires, Event.releases]
  · intro block hdev hmal
    simp only [startStream_malloc] at hmal
    refine ⟨?_, ?_, ?_, ?_, ?_⟩
    · intro h1
      simp only [startStream_mutexInit, startStream_malloc] at h1
      simp only [maccoreaudio_startStream]
      rw [if_neg hdev]
      simp only [hmal]
      rw [if_pos h1]
      refine ⟨rfl, ?_, ?_⟩ <;>
        simp [List.filterMap_append, hd.1, hd.2.1, Event.acquires,
          Event.releases]
    · intro h1 h2
      simp only [startStream_initConverter, startStream_mutexInit,
        startStream_malloc] at h1 h2
      simp only [maccoreaudio_startStream]
      rw [if_neg hdev]
      simp only [hmal]
      rw [if_neg (not_not.mpr h1), if_pos h2]
      refine ⟨rfl, ?_, ?_⟩ <;>
        simp [List.filterMap_append, hd.1, hd.2.1, hc1, hc2, Event.acquires,
          Event.releases]
    · intro h1 h2 h3
      simp only [startStream_createIOProc, startStream_initConverter,
        startStream_mutexInit, startStream_malloc] at h1 h2 h3
      simp only [maccoreaudio_startStream]
      rw [if_neg hdev]
      simp only [hmal]
      rw [if_neg (not_not.mpr h1), if_neg (not_not.mpr h2), if_pos h3]
      refine ⟨rfl, ?_, ?_⟩ <;>
        simp [List.filterMap_append, hd.1, hd.2.1, hc1, hc2, Event.acquires,
          Event.releases]
    · intro h1 h2 h3 h4
      simp only [startStream_deviceStart, startStream_createIOProc,
        startStream_initConverter, startStream_mutexInit,
        startStream_malloc] at h1 h2 h3 h4
      simp only [maccoreaudio_startStream]
      rw [if_neg hdev]
      simp only [hmal]
      rw [if_neg (not_not.mpr h1), if_neg (not_not.mpr h2),
        if_neg (not_not.mpr h3), if_pos h4]
      refine ⟨rfl, ?_, ?_⟩ <;>
        simp [List.filterMap_append, hd.1, hd.2.1, hc1, hc2, Event.acquires,
          Event.releases]
    · intro h1 h2 h3 h4
      simp only [startStream_deviceStart, startStream_createIOProc,
        startStream_initConverter, startStream_mutexInit,
        startStream_malloc] at h1 h2 h3 h4
      simp only [maccoreaudio_startStream]
      rw [if_neg hdev]
      simp only [hmal]
      rw [if_neg (not_not.mpr h1), if_neg (not_not.mpr h2),
        if_neg (not_not.mpr h3), if_neg (not_not.mpr h4)]
      refine ⟨rfl, ?_, ?_⟩ <;>
        simp [List.filterMap_append, hd.1, hd.2.1, hc1, hc2, Event.acquires,
          Event.releases]

/-- C16: with the calls of `maccoreaudio_startStream` as an effect trace, the
releases come after all the acquisitions and undo, last acquired first, the
acquisitions that had succeeded.  The failure point is the first call whose
own result reports a failure, each call being made in the state the calls
before it left: when the device is not found or `malloc` returns NULL, NULL is
returned and nothing is released; when `pthread_mutex_init` fails, NULL is
returned and the block is released (`free`); when the converter set-up fails,
the mutex and the block; when the registration of the IOProc fails, the
converter, the mutex and the block; when `AudioDeviceStart` fails, the
registration, the converter, the mutex and the block; when no call fails, a
stream is returned and nothing is released.  A stream is returned if and only
if no step fails. -/
theorem startStream_releases {W : Type} (os : HAL W) (rt : RealTime W)
    (ctl : Control W) (deviceUID : String)
    (callbackFunction callbackObject callbackMethod readWriteFunction : Nat)
    (isJavaFormatSource : Bool) (sampleRate : ℚ)
    (nbChannels bitsPerChannel : Nat)
    (isFloat isBigEndian isNonInterleaved : Bool)
    (deviceFormat : AudioStreamBasicDescription) (w : W) (r : StartResult W)
    (hr : r = maccoreaudio_startStream os rt ctl deviceUID callbackFunction
      callbackObject callbackMethod readWriteFunction isJavaFormatSource
      sampleRate nbChannels bitsPerChannel isFloat isBigEndian
      isNonInterleaved deviceFormat w) :
    (r.stream.isSome = true ↔ r.outcome = .started)
    ∧ (∃ pre post, r.trace = pre ++ post
        ∧ pre.filterMap Event.releases = []
        ∧ post.filterMap Event.acquires = []
        ∧ r.outcome.acquired <+: pre.filterMap Event.acquires
        ∧ post.filterMap Event.releases
          = if r.outcome = .started then [] else r.outcome.acquired.reverse)
    ∧ (r.outcome = .deviceNotFound → r.trace.filterMap Event.releases = [])
    ∧ (r.outcome = .mallocFailed → r.trace.filterMap Event.releases = [])
    ∧ (r.outcome = .mutexInitFailed →
        r.trace.filterMap Event.releases = [.block])
    ∧ (r.outcome = .converterFailed →
        r.trace.filterMap Event.releases = [.mutex, .block])
    ∧ (r.outcome = .registrationFailed →
        r.trace.filterMap Event.releases = [.converter, .mutex, .block])
    ∧ (r.outcome = .startFailed →
        r.trace.filterMap Event.releases
          = [.registration, .converter, .mutex, .block])
    ∧ (r.outcome = .started → r.trace.filterMap Event.releases = [])
    ∧ (((maccoreaudio_getDevice os deviceUID w).device = kAudioObjectUnknown →
      r.stream = none
      ∧ r.trace.filterMap Event.acquires = []
      ∧ r.trace.filterMap Event.releases = [])
    ∧ ((maccoreaudio_getDevice os deviceUID w).device ≠ kAudioObjectUnknown →
      (startStream_malloc os ctl deviceUID w).1 = none →
      r.stream = none
      ∧ r.trace.filterMap Event.acquires = [.block]
      ∧ r.trace.filterMap Event.releases = [])
    ∧ (∀ block,
      (maccoreaudio_getDevice os deviceUID w).device ≠ kAudioObjectUnknown →
      (startStream_malloc os ctl deviceUID w).1 = some block →
      ((startStream_mutexInit os rt ctl deviceUID w block).ret ≠ 0 →
        r.stream = none
        ∧ r.trace.filterMap Event.acquires
            = [.block, .mutex]
        ∧ r.trace.filterMap Event.releases
            = [.block])
      ∧ ((startStream_mutexInit os rt ctl deviceUID w block).ret = 0 →
        (startStream_initConverter os rt ctl deviceUID isJavaFormatSource
          sampleRate nbChannels bitsPerChannel isFloat isBigEndian
          isNonInterleaved deviceFormat w block).err ≠ noErr →
        r.stream = none
        ∧ r.trace.filterMap Event.acquires
            = [.block, .mutex, .converter]
        ∧ r.trace.filterMap Event.releases
            = [.mutex, .block])
      ∧ ((startStream_mutexInit os rt ctl deviceUID w block).ret = 0 →
        (startStream_initConverter os rt ctl deviceUID isJavaFormatSource
          sampleRate nbChannels bitsPerChannel isFloat isBigEndian
          isNonInterleaved deviceFormat w block).err = noErr →
        (startStream_createIOProc os rt ctl deviceUID readWriteFunction
          isJavaFormatSource sampleRate nbChannels bitsPerChannel isFloat
          isBigEndian isNonInterleaved deviceFormat w block).1.1 ≠ noErr →
        r.stream = none
        ∧ r.trace.filterMap Event.acquires
            = [.block, .mutex, .converter, .registration]
        ∧ r.trace.filterMap Event.releases
            = [.converter, .mutex, .block])
      ∧ ((startStream_mutexInit os rt ctl deviceUID w block).ret = 0 →
        (startStream_initConverter os rt ctl deviceUID isJavaFormatSource
          sampleRate nbChannels bitsPerChannel isFloat isBigEndian
          isNonInterleaved deviceFormat w block).err = noErr →
        (startStream_createIOProc os rt ctl deviceUID readWriteFunction
          isJavaFormatSource sampleRate nbChannels bitsPerChannel isFloat
          isBigEndian isNonInterleaved deviceFormat w block).1.1 = noErr →
        (startStream_deviceStart os rt ctl deviceUID readWriteFunction
          isJavaFormatSource sampleRate nbChannels bitsPerChannel isFloat
          isBigEndian isNonInterleaved deviceFormat w block).1 ≠ noErr →
        r.stream = none
        ∧ r.trace.filterMap Event.acquires
            = [.block, .mutex, .converter, .registration]
        ∧ r.trace.filterMap Event.releases
            = [.registration, .converter, .mutex, .block])
      ∧ ((startStream_mutexInit os rt ctl deviceUID w block).ret = 0 →
        (startStream_initConverter os rt ctl deviceUID isJavaFormatSource
          sampleRate nbChannels bitsPerChannel isFloat isBigEndian
          isNonInterleaved deviceFormat w block).err = noErr →
        (startStream_createIOProc os rt ctl deviceUID readWriteFunction
          isJavaFormatSource sampleRate nbChannels bitsPerChannel isFloat
          isBigEndian isNonInterleaved deviceFormat w block).1.1 = noErr →
        (startStream_deviceStart os rt ctl deviceUID readWriteFunction
          isJavaFormatSource sampleRate nbChannels bitsPerChannel isFloat
          isBigEndian isNonInterleaved deviceFormat w block).1 = noErr →
        r.stream.isSome = true
        ∧ r.trace.filterMap Event.acquires
            = [.block, .mutex, .converter, .registration]
        ∧ r.trace.filterMap Event.releases
            = [])))
    ∧ (r.stream.isSome = true ↔
      (maccoreaudio_getDevice os deviceUID w).device ≠ kAudioObjectUnknown
      ∧ ∃ block, (startStream_malloc os ctl deviceUID w).1 = some block
        ∧ (startStream_mutexInit os rt ctl deviceUID w block).ret = 0
        ∧ (startStream_initConverter os rt ctl deviceUID isJavaFormatSource
            sampleRate nbChannels bitsPerChannel isFloat isBigEndian
            isNonInterleaved deviceFormat w block).err = noErr
        ∧ (startStream_createIOProc os rt ctl deviceUID readWriteFunction
            isJavaFormatSource sampleRate nbChannels bitsPerChannel isFloat
            isBigEndian isNonInterleaved deviceFormat w block).1.1 = noErr
        ∧ (startStream_deviceStart os rt ctl deviceUID readWriteFunction
            isJavaFormatSource sampleRate nbChannels bitsPerChannel isFloat
            isBigEndian isNonInterleaved deviceFormat w block).1 = noErr) := by
  have h := startStream_shape os rt ctl deviceUID callbackFunction
    callbackObject callbackMethod readWriteFunction isJavaFormatSource
    sampleRate nbChannels bitsPerChannel isFloat isBigEndian isNonInterleaved
    deviceFormat w
  have hp := startStream_failure_points os rt ctl deviceUID callbackFunction
    callbackObject callbackMethod readWriteFunction isJavaFormatSource
    sampleRate nbChannels bitsPerChannel isFloat isBigEndian isNonInterleaved
    deviceFormat w
  rw [← hr] at h hp
  obtain ⟨h1, pre, post, ht, hp1, hq, hx, hy⟩ := h
  have hrel : r.trace.filterMap Event.releases
      = if r.outcome = .started then [] else r.outcome.acquired.reverse := by
    rw [ht, List.filterMap_append, hp1, hy, List.nil_append]
  have hiff : r.stream.isSome = true ↔
      (maccoreaudio_getDevice os deviceUID w).device ≠ kAudioObjectUnknown
      ∧ ∃ block, (startStream_malloc os ctl deviceUID w).1 = some block
        ∧ (startStream_mutexInit os rt ctl deviceUID w block).ret = 0
        ∧ (startStream_initConverter os rt ctl deviceUID isJavaFormatSource
            sampleRate nbChannels bitsPerChannel isFloat isBigEndian
            isNonInterleaved deviceFormat w block).err = noErr
        ∧ (startStream_createIOProc os rt ctl deviceUID readWriteFunction
            isJavaFormatSource sampleRate nbChannels bitsPerChannel isFloat
            isBigEndian isNonInterleaved deviceFormat w block).1.1 = noErr
        ∧ (startStream_deviceStart os rt ctl deviceUID readWriteFunction
            isJavaFormatSource sampleRate nbChannels bitsPerChannel isFloat
            isBigEndian isNonInterleaved deviceFormat w block).1 = noErr := by
    constructor
    · intro hs
      by_cases hdev : (maccoreaudio_getDevice os deviceUID w).device
          = kAudioObjectUnknown
      · rw [(hp.1 hdev).1] at hs
        cases hs
      · refine ⟨hdev, ?_⟩
        cases hmal : (startStream_malloc os ctl deviceUID w).1 with
        | none =>
          rw [(hp.2.1 hdev hmal).1] at hs
          cases hs
        | some block =>
          have hb := hp.2.2 block hdev hmal
          by_cases c1 : (startStream_mutexInit os rt ctl deviceUID w block).ret
              = 0
          · by_cases c2 : (startStream_initConverter os rt ctl deviceUID
                isJavaFormatSource sampleRate nbChannels bitsPerChannel isFloat
                isBigEndian isNonInterleaved deviceFormat w block).err = noErr
            · by_cases c3 : (startStream_createIOProc os rt ctl deviceUID
                  readWriteFunction isJavaFormatSource sampleRate nbChannels
                  bitsPerChannel isFloat isBigEndian isNonInterleaved
                  deviceFormat w block).1.1 = noErr
              · by_cases c4 : (startStream_deviceStart os rt ctl deviceUID
                    readWriteFunction isJavaFormatSource sampleRate nbChannels
                    bitsPerChannel isFloat isBigEndian isNonInterleaved
                    deviceFormat w block).1 = noErr
                · exact ⟨block, rfl, c1, c2, c3, c4⟩
                · rw [(hb.2.2.2.1 c1 c2 c3 c4).1] at hs
                  cases hs
              · rw [(hb.2.2.1 c1 c2 c3).1] at hs
                cases hs
            · rw [(hb.2.1 c1 c2).1] at hs
              cases hs
          · rw [(hb.1 c1).1] at hs
            cases hs
    · rintro ⟨hdev, block, hmal, c1, c2, c3, c4⟩
      exact ((hp.2.2 block hdev hmal).2.2.2.2 c1 c2 c3 c4).1
  refine ⟨h1, ⟨pre, post, ht, hp1, hq, hx, hy⟩, ?_, ?_, ?_, ?_, ?_, ?_, ?_, hp,
    hiff⟩ <;>
    intro ho <;> rw [hrel, ho] <;> rfl

/-- C16, at each failure point, with the block `rawStream` obtained from
`malloc`: a mutex that cannot be initialised, a converter that cannot be
created, a registration that is refused and a device that refuses to start
give NULL and release, in this order, the block; the mutex and the block; the
converter, the mutex and the block; the registration, the converter, the mutex
and the block.  A failed `malloc` releases nothing, and when every call
succeeds a stream is returned and nothing is released. -/
theorem startStream_releases_witness :
    (maccoreaudio_startStream goodHAL plainRT noMemoryControl "dev" 11 12 13
        writeOutputStream_address true 44100 2 16 false false false zeroFormat
        ()).trace.filterMap Event.releases = []
    ∧ (maccoreaudio_startStream goodHAL faultyRT plainControl "dev" 11 12 13
        writeOutputStream_address true 44100 2 16 false false false zeroFormat
        ()).trace.filterMap Event.releases = [.block]
    ∧ (maccoreaudio_startStream noConverterHAL plainRT plainControl "dev" 11 12
        13 writeOutputStream_address true 44100 2 16 false false false
        zeroFormat ()).trace.filterMap Event.releases = [.mutex, .block]
    ∧ (maccoreaudio_startStream goodHAL plainRT noProcControl "dev" 11 12 13
        writeOutputStream_address true 44100 2 16 false false false zeroFormat
        ()).trace.filterMap Event.releases = [.converter, .mutex, .block]
    ∧ (maccoreaudio_startStream goodHAL plainRT noStartControl "dev" 11 12 13
        writeOutputStream_address true 44100 2 16 false false false zeroFormat
        ()).stream = none
    ∧ (maccoreaudio_startStream goodHAL plainRT noStartControl "dev" 11 12 13
        writeOutputStream_address true 44100 2 16 false false false zeroFormat
        ()).trace.filterMap Event.releases
      = [.registration, .converter, .mutex, .block]
    ∧ (maccoreaudio_startStream goodHAL plainRT plainControl "dev" 11 12 13
        writeOutputStream_address true 44100 2 16 false false false zeroFormat
        ()).stream.isSome = true
    ∧ (maccoreaudio_startStream goodHAL plainRT plainControl "dev" 11 12 13
        writeOutputStream_address true 44100 2 16 false false false zeroFormat
        ()).trace.filterMap Event.releases = [] :=
  ⟨((startStream_releases goodHAL plainRT noMemoryControl "dev" 11 12 13
      writeOutputStream_address true 44100 2 16 false false false zeroFormat ()
      _ rfl).2.2.2.2.2.2.2.2.2.1.2.1 (by decide) rfl).2.2,
    (((startStream_releases goodHAL faultyRT plainControl "dev" 11 12 13
      writeOutputStream_address true 44100 2 16 false false false zeroFormat ()
      _ rfl).2.2.2.2.2.2.2.2.2.1.2.2 rawStream (by decide) rfl).1
      (by decide)).2.2,
    (((startStream_releases noConverterHAL plainRT plainControl "dev" 11 12 13
      writeOutputStream_address true 44100 2 16 false false false zeroFormat ()
      _ rfl).2.2.2.2.2.2.2.2.2.1.2.2 rawStream (by decide) rfl).2.1
      rfl (by decide)).2.2,
    (((startStream_releases goodHAL plainRT noProcControl "dev" 11 12 13
      writeOutputStream_address true 44100 2 16 false false false zeroFormat ()
      _ rfl).2.2.2.2.2.2.2.2.2.1.2.2 rawStream (by decide) rfl).2.2.1
      rfl rfl (by decide)).2.2,
    (((startStream_releases goodHAL plainRT noStartControl "dev" 11 12 13
      writeOutputStream_address true 44100 2 16 false false false zeroFormat ()
      _ rfl).2.2.2.2.2.2.2.2.2.1.2.2 rawStream (by decide) rfl).2.2.2.1
      rfl rfl rfl (by decide)).1,
    (((startStream_releases goodHAL plainRT noStartControl "dev" 11 12 13
      writeOutputStream_address true 44100 2 16 false false false zeroFormat ()
      _ rfl).2.2.2.2.2.2.2.2.2.1.2.2 rawStream (by decide) rfl).2.2.2.1
      rfl rfl rfl (by decide)).2.2,
    (((startStream_releases goodHAL plainRT plainControl "dev" 11 12 13
      writeOutputStream_address true 44100 2 16 false false false zeroFormat ()
      _ rfl).2.2.2.2.2.2.2.2.2.1.2.2 rawStream (by decide) rfl).2.2.2.2
      rfl rfl rfl rfl).1,
    (((startStream_releases goodHAL plainRT plainControl "dev" 11 12 13
      writeOutputStream_address true 44100 2 16 false false false zeroFormat ()
      _ rfl).2.2.2.2.2.2.2.2.2.1.2.2 rawStream (by decide) rfl).2.2.2.2
      rfl rfl rfl rfl).2.2⟩

end CoreAudio
